import Mathlib

/-!
# wined3d texture engine (dlls/wined3d/texture.c)

A shallow embedding of the texture location-tracking code of
`dlls/wined3d/texture.c`.  The C structures become Lean structures, `DWORD`,
`UINT`, `BOOL` and enumeration values become natural numbers (a `BOOL` is true
when it is not zero), and every call that leaves the file (GL entry points,
surface and volume helpers, context management) is recorded in a call log; what
such a call does to the texture is a parameter of the development.
-/

namespace Wined3d

/-! ## Machine words -/

/-- The C operator `~` on a 32-bit `DWORD`. -/
def DWORD_not (x : Nat) : Nat := (2 ^ 32 - 1) ^^^ (x % 2 ^ 32)

/-- A C `BOOL` (an `int`) read as a truth value. -/
def BOOL_true (x : Nat) : Bool := x != 0

/-- The value `TRUE`. -/
def TRUE : Nat := 1

/-- The value `FALSE`. -/
def FALSE : Nat := 0

/-! ## Constants of `wined3d_private.h`, `wined3d.h` and the GL headers

These headers lie outside texture.c.  The constants below stand for the ones
the headers define; the development only relies on the flags of one word being
distinct single bits and on the enumerators of one enumeration being distinct. -/

/-- Modelled from the spec: location bit "discarded" of the validity bitmask (wined3d_private.h). -/
def WINED3D_LOCATION_DISCARDED : Nat := 0x00000001
/-- Modelled from the spec: location bit "host memory" of the validity bitmask (wined3d_private.h). -/
def WINED3D_LOCATION_SYSMEM : Nat := 0x00000002
/-- Modelled from the spec: location bit "user memory" of the validity bitmask (wined3d_private.h). -/
def WINED3D_LOCATION_USER_MEMORY : Nat := 0x00000004
/-- Modelled from the spec: location bit "legacy bitmap" of the validity bitmask (wined3d_private.h). -/
def WINED3D_LOCATION_DIB : Nat := 0x00000008
/-- Modelled from the spec: location bit "GPU texture, linear" of the validity bitmask (wined3d_private.h). -/
def WINED3D_LOCATION_TEXTURE_RGB : Nat := 0x00000020
/-- Modelled from the spec: location bit "GPU texture, gamma-corrected" of the validity bitmask (wined3d_private.h). -/
def WINED3D_LOCATION_TEXTURE_SRGB : Nat := 0x00000040

/-- Modelled from the spec: texture flag "conditional non-power-of-two" (wined3d_private.h). -/
def WINED3D_TEXTURE_COND_NP2 : Nat := 0x00000001
/-- Modelled from the spec: texture flag "coordinate matrix is the identity" (wined3d_private.h). -/
def WINED3D_TEXTURE_POW2_MAT_IDENT : Nat := 0x00000002
/-- Modelled from the spec: texture flag "gamma-corrected variant was bound last" (wined3d_private.h). -/
def WINED3D_TEXTURE_IS_SRGB : Nat := 0x00000004
/-- Modelled from the spec: allocation flag of the linear GPU texture (wined3d_private.h). -/
def WINED3D_TEXTURE_RGB_ALLOCATED : Nat := 0x00000008
/-- Modelled from the spec: valid flag of the linear GPU texture (wined3d_private.h). -/
def WINED3D_TEXTURE_RGB_VALID : Nat := 0x00000010
/-- Modelled from the spec: allocation flag of the gamma-corrected GPU texture (wined3d_private.h). -/
def WINED3D_TEXTURE_SRGB_ALLOCATED : Nat := 0x00000020
/-- Modelled from the spec: valid flag of the gamma-corrected GPU texture (wined3d_private.h). -/
def WINED3D_TEXTURE_SRGB_VALID : Nat := 0x00000040
/-- Modelled from the spec: texture flag "converted", format substitution is active (wined3d_private.h). -/
def WINED3D_TEXTURE_CONVERTED : Nat := 0x00000080
/-- Modelled from the spec: texture flag "pinned system memory" (wined3d_private.h). -/
def WINED3D_TEXTURE_PIN_SYSMEM : Nat := 0x00000100
/-- Modelled from the spec: texture flag "normalized coordinates" (wined3d_private.h). -/
def WINED3D_TEXTURE_NORMALIZED_COORDS : Nat := 0x00000400

/-- Modelled from the spec: flag of `async.flags`, colour keying was in use at the last load (wined3d_private.h). -/
def WINED3D_TEXTURE_ASYNC_COLOR_KEY : Nat := 0x00000001
/-- Modelled from the spec: flag of `async.color_key_flags`, a source-blit colour key is set (wined3d.h). -/
def WINED3D_CKEY_SRC_BLT : Nat := 0x00000008

/-- Modelled from the spec: usage flag "render target" (wined3d.h). -/
def WINED3DUSAGE_RENDERTARGET : Nat := 0x00000001
/-- Modelled from the spec: usage flag "auto-mipmap" (wined3d.h). -/
def WINED3DUSAGE_AUTOGENMIPMAP : Nat := 0x00000400
/-- Modelled from the spec: format flag "height scale" (wined3d_private.h). -/
def WINED3DFMT_FLAG_HEIGHT_SCALE : Nat := 0x00040000
/-- Modelled from the spec: creation flag "sRGB read/write control" (wined3d.h). -/
def WINED3D_SRGB_READ_WRITE_CONTROL : Nat := 0x00000010
/-- Modelled from the spec: stage value of a texture unit that maps to no sampler (wined3d_private.h). -/
def WINED3D_UNMAPPED_STAGE : Nat := 2 ^ 32 - 1

/-- Modelled from the spec: address mode "wrap" (repeat) of enum wined3d_texture_address (wined3d.h). -/
def WINED3D_TADDRESS_WRAP : Nat := 1
/-- Modelled from the spec: address mode "clamp" of enum wined3d_texture_address (wined3d.h). -/
def WINED3D_TADDRESS_CLAMP : Nat := 3
/-- Modelled from the spec: filter "none" of enum wined3d_texture_filter_type (wined3d.h). -/
def WINED3D_TEXF_NONE : Nat := 0
/-- Modelled from the spec: filter "point" of enum wined3d_texture_filter_type (wined3d.h). -/
def WINED3D_TEXF_POINT : Nat := 1
/-- Modelled from the spec: filter "linear" of enum wined3d_texture_filter_type (wined3d.h). -/
def WINED3D_TEXF_LINEAR : Nat := 2
/-- Modelled from the spec: comparison "less or equal" of enum wined3d_cmp_func (wined3d.h). -/
def WINED3D_CMP_LESSEQUAL : Nat := 4

/-- Modelled from the spec: usage flag "legacy-cubemap" (wined3d.h). -/
def WINED3DUSAGE_LEGACY_CUBEMAP : Nat := 0x00800000
/-- Modelled from the spec: usage flag of a texture that owns a device context (wined3d.h). -/
def WINED3DUSAGE_OWNDC : Nat := 0x20000000
/-- Modelled from the spec: format flag of the formats a legacy bitmap can be made for (wined3d_private.h). -/
def WINED3DFMT_FLAG_GETDC : Nat := 0x00100000
/-- Modelled from the spec: creation flag "pinned system memory" (wined3d.h). -/
def WINED3D_TEXTURE_CREATE_PIN_SYSMEM : Nat := 0x00000004
/-- Modelled from the spec: the pixel format "unknown" of enum wined3d_format_id (wined3d.h). -/
def WINED3DFMT_UNKNOWN : Nat := 0
/-- Modelled from the spec: the throwaway "scratch" pool of enum wined3d_pool (wined3d.h). -/
def WINED3D_POOL_SCRATCH : Nat := 3
/-- Modelled from the spec: the GL resource type of "rectangle" textures (wined3d_private.h). -/
def WINED3D_GL_RES_TYPE_TEX_RECT : Nat := 4
/-- Modelled from the spec: multisample type "none" of enum wined3d_multisample_type (wined3d.h). -/
def WINED3D_MULTISAMPLE_NONE : Nat := 0
/-- Modelled from the spec: multisample type "non-maskable" of enum wined3d_multisample_type (wined3d.h). -/
def WINED3D_MULTISAMPLE_NON_MASKABLE : Nat := 1

/-- Resource type of a surface; the resource types are numbered in the order
the table `layer_count` of `wined3d_texture_create` lists them. -/
def WINED3D_RTYPE_SURFACE : Nat := 0
/-- Resource type of a volume. -/
def WINED3D_RTYPE_VOLUME : Nat := 1
/-- Resource type of a buffer. -/
def WINED3D_RTYPE_BUFFER : Nat := 2
/-- Resource type of a 2D texture. -/
def WINED3D_RTYPE_TEXTURE_2D : Nat := 3
/-- Resource type of a 3D texture. -/
def WINED3D_RTYPE_TEXTURE_3D : Nat := 4

/-- A GL enumeration value. -/
abbrev GLenum := Nat

def GL_TEXTURE_CUBE_MAP_POSITIVE_X_ARB : GLenum := 0x8515
def GL_TEXTURE_CUBE_MAP_NEGATIVE_X_ARB : GLenum := 0x8516
def GL_TEXTURE_CUBE_MAP_POSITIVE_Y_ARB : GLenum := 0x8517
def GL_TEXTURE_CUBE_MAP_NEGATIVE_Y_ARB : GLenum := 0x8518
def GL_TEXTURE_CUBE_MAP_POSITIVE_Z_ARB : GLenum := 0x8519
def GL_TEXTURE_CUBE_MAP_NEGATIVE_Z_ARB : GLenum := 0x851A

def GL_NONE : GLenum := 0
def GL_TRUE : GLenum := 1
def GL_TEXTURE_2D : GLenum := 0x0DE1
def GL_TEXTURE_3D : GLenum := 0x806F
def GL_TEXTURE_RECTANGLE_ARB : GLenum := 0x84F5
def GL_TEXTURE_CUBE_MAP_ARB : GLenum := 0x8513
def GL_TEXTURE_BORDER_COLOR : GLenum := 0x1004
def GL_NEAREST : GLenum := 0x2600
def GL_TEXTURE_MAG_FILTER : GLenum := 0x2800
def GL_TEXTURE_MIN_FILTER : GLenum := 0x2801
def GL_TEXTURE_WRAP_S : GLenum := 0x2802
def GL_TEXTURE_WRAP_T : GLenum := 0x2803
def GL_TEXTURE_WRAP_R : GLenum := 0x8072
def GL_INTENSITY : GLenum := 0x8049
def GL_CLAMP_TO_EDGE : GLenum := 0x812F
def GL_TEXTURE_MAX_LEVEL : GLenum := 0x813D
def GL_GENERATE_MIPMAP_SGIS : GLenum := 0x8191
def GL_TEXTURE_MAX_ANISOTROPY_EXT : GLenum := 0x84FE
def GL_TEXTURE_FILTER_CONTROL_EXT : GLenum := 0x8500
def GL_TEXTURE_LOD_BIAS_EXT : GLenum := 0x8501
def GL_DEPTH_TEXTURE_MODE_ARB : GLenum := 0x884B
def GL_TEXTURE_COMPARE_MODE_ARB : GLenum := 0x884C
def GL_COMPARE_R_TO_TEXTURE_ARB : GLenum := 0x884E
def GL_TEXTURE_SRGB_DECODE_EXT : GLenum := 0x8A48
def GL_DECODE_EXT : GLenum := 0x8A49
def GL_SKIP_DECODE_EXT : GLenum := 0x8A4A

/-- The IEEE-754 single `0.0f`, as its bit pattern. -/
def FLOAT_0 : Nat := 0x00000000
/-- The IEEE-754 single `-1000.0f`, as its bit pattern. -/
def FLOAT_minus_1000 : Nat := 0xC47A0000
/-- The IEEE-754 single `1000.0f`, as its bit pattern. -/
def FLOAT_1000 : Nat := 0x447A0000

/-! ## Data model -/

/-- The members of `struct wined3d_color_key` that `color_key_equal` compares. -/
structure wined3d_color_key where
  color_space_low_value : Nat
  color_space_high_value : Nat
deriving DecidableEq, Repr

/-- The sampler description `struct wined3d_sampler_desc`.  Floats are kept as
their bit patterns: the code only stores them, copies them and compares them
with `memcmp`. -/
structure wined3d_sampler_desc where
  address_u : Nat
  address_v : Nat
  address_w : Nat
  border_color : List Nat
  mag_filter : Nat
  min_filter : Nat
  mip_filter : Nat
  lod_bias : Nat
  min_lod : Nat
  max_lod : Nat
  max_anisotropy : Nat
  compare : Nat
  comparison_func : Nat
  srgb_decode : Nat
deriving DecidableEq, Repr

/-- The GL texture object `struct gl_texture`: the shadow of the sampler state
last applied, the base level and the GL name (0 when there is no handle). -/
structure gl_texture where
  sampler_desc : wined3d_sampler_desc
  base_level : Nat
  name : Nat
deriving DecidableEq, Repr

/-- The members of `struct wined3d_format` that texture.c reads. -/
structure wined3d_format where
  id : Nat
  byte_count : Nat
  convert : Bool
  glInternal : Nat
  glGammaInternal : Nat
  rtInternal : Nat
  glFormat : Nat
  glType : Nat
  height_scale_numerator : Nat
  height_scale_denominator : Nat
  multisample_types : Nat
deriving DecidableEq, Repr

/-- The members of `struct wined3d_resource` that texture.c reads or writes. -/
structure wined3d_resource where
  ref : Nat
  type : Nat
  gl_type : Nat
  format : wined3d_format
  format_flags : Nat
  multisample_type : Nat
  multisample_quality : Nat
  usage : Nat
  pool : Nat
  width : Nat
  height : Nat
  depth : Nat
  map_binding : Nat
  map_count : Nat
  bind_count : Nat
deriving DecidableEq, Repr

/-- The object a sub-resource slot points to: a `struct wined3d_surface` of a
2D texture or a `struct wined3d_volume` of a 3D texture (a volume uses
`resource` and `texture_level` only). -/
structure wined3d_surface where
  resource : wined3d_resource
  sub_resource_idx : Nat
  texture_target : GLenum
  texture_level : Nat
  pow2Width : Nat
  pow2Height : Nat
  pbo : Nat
deriving DecidableEq, Repr

/-- The legacy bitmap of a sub-resource, `struct wined3d_texture_dib`; handles
and pointers are numbers, 0 is `NULL`. -/
structure wined3d_texture_dib where
  dc : Nat
  dib_section : Nat
  bitmap_data : Nat
  in_use : Nat
deriving DecidableEq, Repr

/-- One entry of `texture->sub_resources[]`: the pointer `old` to the surface or
volume (`none` is `NULL`), the location bitmask and the legacy bitmap. -/
structure wined3d_sub_resource where
  old : Option wined3d_surface
  locations : Nat
  dib : wined3d_texture_dib
deriving DecidableEq, Repr

/-- The member `async` of `struct wined3d_texture`. -/
structure wined3d_texture_async where
  flags : Nat
  color_key_flags : Nat
  gl_color_key : wined3d_color_key
  src_blt_color_key : wined3d_color_key
deriving DecidableEq, Repr

/-- A `float` the code computes from integers, kept as the expression that
computes it. -/
inductive float_expr where
  | zero
  | one
  | of_uint (n : Nat)
  | quotient (numerator denominator : Nat)
deriving DecidableEq, Repr

/-- The entries of `texture->pow2_matrix` that texture.c writes. -/
structure wined3d_pow2_matrix where
  m0 : float_expr
  m5 : float_expr
  m10 : float_expr
  m15 : float_expr
deriving DecidableEq, Repr

/-- Which table of sub-resource operations `texture->texture_ops` points to. -/
inductive wined3d_texture_ops where
  | texture2d_ops
  | texture3d_ops
deriving DecidableEq, Repr

/-- The texture, `struct wined3d_texture`. -/
structure wined3d_texture where
  resource : wined3d_resource
  texture_ops : wined3d_texture_ops
  texture_rgb : gl_texture
  texture_srgb : gl_texture
  swapchain : Option Nat
  pow2_matrix : wined3d_pow2_matrix
  lod : Nat
  filter_type : Nat
  sampler : Nat
  flags : Nat
  target : GLenum
  level_count : Nat
  layer_count : Nat
  user_memory : Nat
  row_pitch : Nat
  slice_pitch : Nat
  async : wined3d_texture_async
  sub_resources : List wined3d_sub_resource
deriving DecidableEq, Repr

/-! ## Location bookkeeping -/

/-- The number of sub-resources, `texture->level_count * texture->layer_count`
in `UINT` arithmetic. -/
def sub_count (texture : wined3d_texture) : Nat :=
  (texture.level_count * texture.layer_count) % 2 ^ 32

/-- Embedding of `wined3d_texture_set_dirty`. -/
def wined3d_texture_set_dirty (texture : wined3d_texture) : wined3d_texture :=
  { texture with
    flags := texture.flags &&& DWORD_not (WINED3D_TEXTURE_RGB_VALID ||| WINED3D_TEXTURE_SRGB_VALID) }

/-- Embedding of `wined3d_texture_validate_location`. -/
def wined3d_texture_validate_location (texture : wined3d_texture) (sub_resource_idx : Nat)
    (location : Nat) : wined3d_texture :=
  { texture with
    sub_resources := List.modify
      (fun sr => { sr with locations := sr.locations ||| location })
      sub_resource_idx texture.sub_resources }

/-- Embedding of `wined3d_texture_invalidate_location`. -/
def wined3d_texture_invalidate_location (texture : wined3d_texture) (sub_resource_idx : Nat)
    (location : Nat) : wined3d_texture :=
  let texture1 :=
    if location &&& (WINED3D_LOCATION_TEXTURE_RGB ||| WINED3D_LOCATION_TEXTURE_SRGB) ≠ 0 then
      wined3d_texture_set_dirty texture
    else texture
  { texture1 with
    sub_resources := List.modify
      (fun sr => { sr with locations := sr.locations &&& DWORD_not location })
      sub_resource_idx texture1.sub_resources }

/-- Embedding of `wined3d_texture_force_reload`. -/
def wined3d_texture_force_reload (texture : wined3d_texture) : wined3d_texture :=
  let texture1 : wined3d_texture :=
    { texture with
      flags := texture.flags &&& DWORD_not (WINED3D_TEXTURE_RGB_ALLOCATED
        ||| WINED3D_TEXTURE_SRGB_ALLOCATED ||| WINED3D_TEXTURE_CONVERTED)
      async := { texture.async with
        flags := texture.async.flags &&& DWORD_not WINED3D_TEXTURE_ASYNC_COLOR_KEY } }
  (List.range (sub_count texture)).foldl
    (fun t i => wined3d_texture_invalidate_location t i
      (WINED3D_LOCATION_TEXTURE_RGB ||| WINED3D_LOCATION_TEXTURE_SRGB))
    texture1

/-! ## The context, the call log and what lies outside the file -/

/-- The entries of `gl_info->supported[]` that texture.c tests. -/
inductive gl_extension where
  | ARB_DEPTH_TEXTURE
  | ARB_TEXTURE_NON_POWER_OF_TWO
  | EXT_TEXTURE3D
  | EXT_TEXTURE_FILTER_ANISOTROPIC
  | EXT_TEXTURE_LOD_BIAS
  | EXT_TEXTURE_SRGB_DECODE
  | SGIS_GENERATE_MIPMAP
  | WINED3D_GL_LEGACY_CONTEXT
  | WINED3D_GL_NORMALIZED_TEXRECT
deriving DecidableEq, Repr

/-- The members of `struct wined3d_gl_info` that texture.c reads. -/
structure wined3d_gl_info where
  supported : gl_extension → Bool
  wrap_lookup : Nat → Nat

/-- The members of `struct wined3d_d3d_info` that texture.c reads. -/
structure wined3d_d3d_info where
  shader_color_key : Nat
  wined3d_creation_flags : Nat

/-- The members of `struct wined3d_context` that texture.c reads. -/
structure wined3d_context where
  gl_info : wined3d_gl_info
  d3d_info : wined3d_d3d_info
  rev_tex_unit_map : Nat → Nat
  active_texture : Nat

/-- The states `context_invalidate_state` is called with. -/
inductive wined3d_state where
  | STATE_SAMPLER (sampler : Nat)
  | STATE_SHADER_RESOURCE_BINDING
deriving DecidableEq, Repr

/-- A call that leaves texture.c, or that goes through the table
`texture->texture_ops`, with the arguments that tell the calls apart.  A
sub-resource is named by the index of the slot whose `old` pointer is passed. -/
inductive Call where
  | glGenTextures
  | glDeleteTextures (name : Nat)
  | glTexParameteri (target pname : GLenum) (param : Nat)
  | glTexParameterfv (target pname : GLenum) (params : List Nat)
  | glTexEnvf (target pname : GLenum) (param : Nat)
  | glTexImage2D (target : GLenum) (level internal width height format type : Nat)
  | glTexImage3D (target : GLenum) (level internal width height depth format type : Nat)
  | context_acquire
  | context_release
  | context_bind_texture (target : GLenum) (name : Nat)
  | context_invalidate_state (state : wined3d_state)
  | texture_sub_resource_load (idx srgb : Nat)
  | texture_sub_resource_add_dirty_region (idx : Nat)
  | texture_sub_resource_cleanup (idx : Nat)
  | texture_sub_resource_upload_data (idx : Nat)
  | texture_prepare_texture (srgb : Nat)
  | surface_load (idx srgb : Nat)
  | surface_prepare_map_memory (idx : Nat)
  | surface_load_location (idx location : Nat)
  | wined3d_surface_upload_data (idx : Nat)
  | wined3d_surface_destroy (idx : Nat)
  | wined3d_volume_load (idx srgb : Nat)
  | wined3d_volume_upload_data (idx : Nat)
  | wined3d_volume_destroy (idx : Nat)
  | resource_init
  | resource_unload
  | resource_cleanup
  | wined3d_resource_update_draw_binding
  | wined3d_resource_free_sysmem (idx : Nat)
  | wined3d_surface_create (level layer : Nat)
  | wined3d_volume_create (level : Nat)
  | HeapAlloc
  | HeapFree
  | CreateDIBSection (biWidth rows biBitCount biSizeImage : Nat)
  | CreateCompatibleDC
  | SelectObject (dc object : Nat)
  | DeleteDC (dc : Nat)
  | DeleteObject (object : Nat)
  | device_invalidate_state (state : wined3d_state)
  | wined3d_swapchain_incref (swapchain : Nat)
  | wined3d_swapchain_decref (swapchain : Nat)
  | wined3d_object_destroyed
  | sub_resource_unload (idx : Nat)
  | wined3d_surface_update_desc (idx : Nat)
deriving DecidableEq, Repr

/-- The description `struct wined3d_resource_desc` a texture is created from. -/
structure wined3d_resource_desc where
  resource_type : Nat
  format : Nat
  multisample_type : Nat
  multisample_quality : Nat
  usage : Nat
  pool : Nat
  width : Nat
  height : Nat
  depth : Nat
  size : Nat
deriving DecidableEq, Repr

/-- What `wined3d_surface_create` and `wined3d_volume_create` hand back: the
result code, the new object, and what the constructor does to each slot of the
sub-resource array of the container (`update idx slot` is slot `idx` after the
call). -/
structure sub_resource_create_result where
  hr_failed : Option Nat
  object : wined3d_surface
  update : Nat → wined3d_sub_resource → wined3d_sub_resource

/-- The code outside texture.c that the embedded functions call.  A helper
that may write to the texture is a function on texture states (its argument
`sub_resource` is the pointer handed over, `none` for `NULL`); a pure helper is
a function to its result (a context pointer that may be `NULL` is an
`Option`); `glGenTextures` gives the name the driver hands out
after the calls made so far, 0 when it hands out none, and so do the
allocators `HeapAlloc`, `CreateDIBSection` (handle and data pointer) and
`CreateCompatibleDC`.  A helper that returns an `HRESULT` gives `none` for
`WINED3D_OK` and the value it returns otherwise; the constructors of surfaces and
volumes also give the new object and what they do to the slots of the
sub-resource array of the container. -/
structure wined3d_externals where
  needs_separate_srgb_gl_texture : wined3d_context → Bool
  context_acquire : wined3d_texture → wined3d_context
  glGenTextures : List Call → Nat
  wined3d_gl_mag_filter : Nat → Nat
  wined3d_gl_min_mip_filter : Nat → Nat → Nat
  wined3d_get_format : Nat → wined3d_format
  wined3d_format_get_color_key_conversion : wined3d_texture → Bool → Option Nat
  wined3d_resource_is_offscreen : wined3d_resource → Bool
  surface_load : Option wined3d_surface → wined3d_context → Nat → wined3d_texture → wined3d_texture
  surface_prepare_map_memory : Option wined3d_surface → wined3d_texture → wined3d_texture
  surface_load_location : Option wined3d_surface → Option wined3d_context → Nat →
    wined3d_texture → wined3d_texture
  wined3d_surface_upload_data : Option wined3d_surface → wined3d_context → wined3d_texture →
    wined3d_texture
  wined3d_volume_load : Option wined3d_surface → wined3d_context → Nat → wined3d_texture →
    wined3d_texture
  wined3d_volume_upload_data : Option wined3d_surface → wined3d_context → wined3d_texture →
    wined3d_texture
  surface_alignment : Nat
  wined3d_format_calculate_pitch : wined3d_format → Nat → Nat → Nat → Nat × Nat
  resource_init : wined3d_resource_desc → wined3d_format → Option Nat × wined3d_resource
  wined3d_surface_create : wined3d_texture → wined3d_resource_desc → GLenum → Nat → Nat → Nat →
    sub_resource_create_result
  wined3d_volume_create : wined3d_texture → wined3d_resource_desc → Nat →
    sub_resource_create_result
  HeapAlloc : List Call → Bool
  CreateDIBSection : List Call → Nat × Nat
  CreateCompatibleDC : List Call → Nat
  GetLastError : List Call → Nat
  wined3d_format_calculate_size : wined3d_format → Nat → Nat → Nat → Nat → Nat
  sub_resource_unload : Option wined3d_surface → wined3d_texture → wined3d_texture
  wined3d_surface_update_desc : Option wined3d_surface → wined3d_texture →
    Option Nat × wined3d_texture
  wined3d_swapchain_incref : Nat → List Call → Nat
  wined3d_swapchain_decref : Nat → List Call → Nat

/-- The texture together with the log of the calls made so far, oldest first. -/
structure Machine where
  texture : wined3d_texture
  calls : List Call

/-- Append one call to the log. -/
def Machine.call (m : Machine) (c : Call) : Machine :=
  { m with calls := m.calls ++ [c] }

/-- The pointer `texture->sub_resources[idx].old`; a slot outside the array
reads as `NULL`. -/
def sub_resource_old (texture : wined3d_texture) (idx : Nat) : Option wined3d_surface :=
  (texture.sub_resources[idx]?).bind (fun sr => sr.old)

/-! ## GL texture objects -/

/-- Modelled from the spec: the inline helper `wined3d_texture_get_gl_texture` of
wined3d_private.h, which "selects linear or gamma-corrected object". -/
def wined3d_texture_get_gl_texture (texture : wined3d_texture) (srgb : Nat) : gl_texture :=
  if BOOL_true srgb then texture.texture_srgb else texture.texture_rgb

/-- A write through the pointer that `wined3d_texture_get_gl_texture` returns. -/
def wined3d_texture_set_gl_texture (texture : wined3d_texture) (srgb : Nat)
    (gl_tex : gl_texture) : wined3d_texture :=
  if BOOL_true srgb then { texture with texture_srgb := gl_tex }
  else { texture with texture_rgb := gl_tex }

/-- The variant `wined3d_texture_bind` and `wined3d_texture_load` work on:
`srgb` is dropped when the context needs no separate sRGB texture. -/
def effective_srgb (ext : wined3d_externals) (context : wined3d_context) (srgb : Nat) : Nat :=
  if !ext.needs_separate_srgb_gl_texture context then FALSE else srgb

/-- The sampler state `wined3d_texture_bind` writes to the shadow of a new GL
texture object before it looks at `WINED3D_TEXTURE_COND_NP2`. -/
def bind_default_sampler_desc (context : wined3d_context) (srgb : Nat) : wined3d_sampler_desc :=
  { address_u := WINED3D_TADDRESS_WRAP
    address_v := WINED3D_TADDRESS_WRAP
    address_w := WINED3D_TADDRESS_WRAP
    border_color := [FLOAT_0, FLOAT_0, FLOAT_0, FLOAT_0]
    mag_filter := WINED3D_TEXF_LINEAR
    min_filter := WINED3D_TEXF_POINT
    mip_filter := WINED3D_TEXF_LINEAR
    lod_bias := FLOAT_0
    min_lod := FLOAT_minus_1000
    max_lod := FLOAT_1000
    max_anisotropy := 1
    compare := FALSE
    comparison_func := WINED3D_CMP_LESSEQUAL
    srgb_decode :=
      if context.gl_info.supported gl_extension.EXT_TEXTURE_SRGB_DECODE then TRUE else srgb }

/-- The shadow `wined3d_texture_bind` leaves in a GL texture object it has just
created under the name `name`: the GL defaults, and for a
`WINED3D_TEXTURE_COND_NP2` texture the clamping and point-filter overrides. -/
def bind_new_gl_texture (context : wined3d_context) (srgb : Nat) (texture : wined3d_texture)
    (name : Nat) : gl_texture :=
  let gl_tex : gl_texture :=
    { sampler_desc := bind_default_sampler_desc context srgb, base_level := 0, name := name }
  if texture.flags &&& WINED3D_TEXTURE_COND_NP2 ≠ 0 then
    { gl_tex with
      sampler_desc := { gl_tex.sampler_desc with
        address_u := WINED3D_TADDRESS_CLAMP
        address_v := WINED3D_TADDRESS_CLAMP
        mag_filter := WINED3D_TEXF_POINT
        min_filter := WINED3D_TEXF_POINT
        mip_filter := WINED3D_TEXF_NONE } }
  else gl_tex

/-- The calls `wined3d_texture_bind` makes after `glGenTextures` gave the name
`name`, in source order. -/
def bind_new_calls (gl_info : wined3d_gl_info) (texture : wined3d_texture) (name : Nat) :
    List Call :=
  let target := texture.target
  [Call.context_bind_texture target name]
  ++ (if texture.resource.usage &&& WINED3DUSAGE_AUTOGENMIPMAP ≠ 0 then
        [Call.glTexParameteri target GL_GENERATE_MIPMAP_SGIS GL_TRUE]
      else [])
  ++ (if target ≠ GL_TEXTURE_RECTANGLE_ARB then
        [Call.glTexParameteri target GL_TEXTURE_MAX_LEVEL
          ((texture.level_count + 2 ^ 32 - 1) % 2 ^ 32)]
      else [])
  ++ (if target = GL_TEXTURE_CUBE_MAP_ARB then
        [Call.glTexParameteri target GL_TEXTURE_WRAP_S GL_CLAMP_TO_EDGE,
         Call.glTexParameteri target GL_TEXTURE_WRAP_T GL_CLAMP_TO_EDGE,
         Call.glTexParameteri target GL_TEXTURE_WRAP_R GL_CLAMP_TO_EDGE]
      else [])
  ++ (if texture.flags &&& WINED3D_TEXTURE_COND_NP2 ≠ 0 then
        [Call.glTexParameteri target GL_TEXTURE_WRAP_S GL_CLAMP_TO_EDGE,
         Call.glTexParameteri target GL_TEXTURE_WRAP_T GL_CLAMP_TO_EDGE,
         Call.glTexParameteri target GL_TEXTURE_MIN_FILTER GL_NEAREST,
         Call.glTexParameteri target GL_TEXTURE_MAG_FILTER GL_NEAREST]
      else [])
  ++ (if gl_info.supported gl_extension.WINED3D_GL_LEGACY_CONTEXT
          && gl_info.supported gl_extension.ARB_DEPTH_TEXTURE then
        [Call.glTexParameteri target GL_DEPTH_TEXTURE_MODE_ARB GL_INTENSITY]
      else [])

/-- Embedding of `wined3d_texture_bind`.  When the selected GL texture object
has a name it is bound and nothing else happens; otherwise a name is generated
and, unless the driver gave none, the shadow is initialised, the texture is
marked dirty and the new object is bound and set up. -/
def wined3d_texture_bind (ext : wined3d_externals) (context : wined3d_context) (srgb : Nat)
    (m : Machine) : Machine :=
  let srgb := effective_srgb ext context srgb
  let texture : wined3d_texture :=
    if BOOL_true srgb then
      { m.texture with flags := m.texture.flags ||| WINED3D_TEXTURE_IS_SRGB }
    else
      { m.texture with flags := m.texture.flags &&& DWORD_not WINED3D_TEXTURE_IS_SRGB }
  let gl_tex := wined3d_texture_get_gl_texture texture srgb
  if gl_tex.name ≠ 0 then
    { texture := texture
      calls := m.calls ++ [Call.context_bind_texture texture.target gl_tex.name] }
  else
    let name := ext.glGenTextures m.calls
    let calls := m.calls ++ [Call.glGenTextures]
    if name = 0 then
      { texture := wined3d_texture_set_gl_texture texture srgb { gl_tex with name := name }
        calls := calls }
    else
      let texture := wined3d_texture_set_dirty texture
      { texture := wined3d_texture_set_gl_texture texture srgb
          (bind_new_gl_texture context srgb texture name)
        calls := calls ++ bind_new_calls context.gl_info texture name }

/-- Embedding of `wined3d_texture_bind_and_dirtify`. -/
def wined3d_texture_bind_and_dirtify (ext : wined3d_externals) (context : wined3d_context)
    (srgb : Nat) (m : Machine) : Machine :=
  let active_sampler := context.rev_tex_unit_map context.active_texture
  let m :=
    if active_sampler ≠ WINED3D_UNMAPPED_STAGE then
      m.call (Call.context_invalidate_state (wined3d_state.STATE_SAMPLER active_sampler))
    else m
  let m := m.call (Call.context_invalidate_state wined3d_state.STATE_SHADER_RESOURCE_BINDING)
  wined3d_texture_bind ext context srgb m

/-! ## Sampler state -/

/-- The GL texture object `wined3d_texture_apply_sampler_desc` works on and the
call log, while the function runs. -/
structure sampler_application where
  gl_tex : gl_texture
  calls : List Call

/-- The index `state - WINED3D_TADDRESS_WRAP` into `gl_info->wrap_lookup`, in
`DWORD` arithmetic. -/
def wrap_lookup_index (state : Nat) : Nat := (state + 2 ^ 32 - WINED3D_TADDRESS_WRAP) % 2 ^ 32

/-- The block of `wined3d_texture_apply_sampler_desc` for `address_u`. -/
def apply_address_u (gl_info : wined3d_gl_info) (target : GLenum)
    (sampler_desc : wined3d_sampler_desc) (s : sampler_application) : sampler_application :=
  let state := sampler_desc.address_u
  if state ≠ s.gl_tex.sampler_desc.address_u then
    { gl_tex := { s.gl_tex with sampler_desc := { s.gl_tex.sampler_desc with address_u := state } }
      calls := s.calls ++ [Call.glTexParameteri target GL_TEXTURE_WRAP_S
        (gl_info.wrap_lookup (wrap_lookup_index state))] }
  else s

/-- The block of `wined3d_texture_apply_sampler_desc` for `address_v`. -/
def apply_address_v (gl_info : wined3d_gl_info) (target : GLenum)
    (sampler_desc : wined3d_sampler_desc) (s : sampler_application) : sampler_application :=
  let state := sampler_desc.address_v
  if state ≠ s.gl_tex.sampler_desc.address_v then
    { gl_tex := { s.gl_tex with sampler_desc := { s.gl_tex.sampler_desc with address_v := state } }
      calls := s.calls ++ [Call.glTexParameteri target GL_TEXTURE_WRAP_T
        (gl_info.wrap_lookup (wrap_lookup_index state))] }
  else s

/-- The block of `wined3d_texture_apply_sampler_desc` for `address_w`. -/
def apply_address_w (gl_info : wined3d_gl_info) (target : GLenum)
    (sampler_desc : wined3d_sampler_desc) (s : sampler_application) : sampler_application :=
  let state := sampler_desc.address_w
  if state ≠ s.gl_tex.sampler_desc.address_w then
    { gl_tex := { s.gl_tex with sampler_desc := { s.gl_tex.sampler_desc with address_w := state } }
      calls := s.calls ++ [Call.glTexParameteri target GL_TEXTURE_WRAP_R
        (gl_info.wrap_lookup (wrap_lookup_index state))] }
  else s

/-- The block of `wined3d_texture_apply_sampler_desc` for `border_color`
(`memcmp`, then `memcpy`). -/
def apply_border_color (target : GLenum)
    (sampler_desc : wined3d_sampler_desc) (s : sampler_application) : sampler_application :=
  if s.gl_tex.sampler_desc.border_color ≠ sampler_desc.border_color then
    { gl_tex := { s.gl_tex with
        sampler_desc := { s.gl_tex.sampler_desc with border_color := sampler_desc.border_color } }
      calls := s.calls ++ [Call.glTexParameterfv target GL_TEXTURE_BORDER_COLOR
        sampler_desc.border_color] }
  else s

/-- The block of `wined3d_texture_apply_sampler_desc` for `mag_filter`. -/
def apply_mag_filter (ext : wined3d_externals) (target : GLenum)
    (sampler_desc : wined3d_sampler_desc) (s : sampler_application) : sampler_application :=
  let state := sampler_desc.mag_filter
  if state ≠ s.gl_tex.sampler_desc.mag_filter then
    { gl_tex := { s.gl_tex with sampler_desc := { s.gl_tex.sampler_desc with mag_filter := state } }
      calls := s.calls ++ [Call.glTexParameteri target GL_TEXTURE_MAG_FILTER
        (ext.wined3d_gl_mag_filter state)] }
  else s

/-- The block of `wined3d_texture_apply_sampler_desc` for `min_filter` and
`mip_filter`. -/
def apply_min_mip_filter (ext : wined3d_externals) (target : GLenum)
    (sampler_desc : wined3d_sampler_desc) (s : sampler_application) : sampler_application :=
  if sampler_desc.min_filter ≠ s.gl_tex.sampler_desc.min_filter
      ∨ sampler_desc.mip_filter ≠ s.gl_tex.sampler_desc.mip_filter then
    { gl_tex := { s.gl_tex with
        sampler_desc := { s.gl_tex.sampler_desc with
          min_filter := sampler_desc.min_filter
          mip_filter := sampler_desc.mip_filter } }
      calls := s.calls ++ [Call.glTexParameteri target GL_TEXTURE_MIN_FILTER
        (ext.wined3d_gl_min_mip_filter sampler_desc.min_filter sampler_desc.mip_filter)] }
  else s

/-- The block of `wined3d_texture_apply_sampler_desc` for `max_anisotropy`;
without `EXT_TEXTURE_FILTER_ANISOTROPIC` it only warns. -/
def apply_max_anisotropy (gl_info : wined3d_gl_info) (target : GLenum)
    (sampler_desc : wined3d_sampler_desc) (s : sampler_application) : sampler_application :=
  let state := sampler_desc.max_anisotropy
  if state ≠ s.gl_tex.sampler_desc.max_anisotropy then
    { gl_tex := { s.gl_tex with
        sampler_desc := { s.gl_tex.sampler_desc with max_anisotropy := state } }
      calls :=
        if gl_info.supported gl_extension.EXT_TEXTURE_FILTER_ANISOTROPIC then
          s.calls ++ [Call.glTexParameteri target GL_TEXTURE_MAX_ANISOTROPY_EXT state]
        else s.calls }
  else s

/-- The block of `wined3d_texture_apply_sampler_desc` for `srgb_decode`. -/
def apply_srgb_decode (context : wined3d_context) (target : GLenum)
    (sampler_desc : wined3d_sampler_desc) (s : sampler_application) : sampler_application :=
  if (!BOOL_true sampler_desc.srgb_decode) ≠ (!BOOL_true s.gl_tex.sampler_desc.srgb_decode)
      ∧ context.d3d_info.wined3d_creation_flags &&& WINED3D_SRGB_READ_WRITE_CONTROL ≠ 0
      ∧ context.gl_info.supported gl_extension.EXT_TEXTURE_SRGB_DECODE = true then
    { gl_tex := { s.gl_tex with
        sampler_desc := { s.gl_tex.sampler_desc with srgb_decode := sampler_desc.srgb_decode } }
      calls := s.calls ++ [Call.glTexParameteri target GL_TEXTURE_SRGB_DECODE_EXT
        (if BOOL_true sampler_desc.srgb_decode then GL_DECODE_EXT else GL_SKIP_DECODE_EXT)] }
  else s

/-- The block of `wined3d_texture_apply_sampler_desc` for `compare`. -/
def apply_compare (target : GLenum)
    (sampler_desc : wined3d_sampler_desc) (s : sampler_application) : sampler_application :=
  if (!BOOL_true sampler_desc.compare) ≠ (!BOOL_true s.gl_tex.sampler_desc.compare) then
    { gl_tex := { s.gl_tex with
        sampler_desc := { s.gl_tex.sampler_desc with compare := sampler_desc.compare } }
      calls := s.calls ++ [Call.glTexParameteri target GL_TEXTURE_COMPARE_MODE_ARB
        (if BOOL_true sampler_desc.compare then GL_COMPARE_R_TO_TEXTURE_ARB else GL_NONE)] }
  else s

/-- The last block of `wined3d_texture_apply_sampler_desc`: the LOD bias goes
to the texture environment, the shadow is not touched. -/
def apply_lod_bias (gl_info : wined3d_gl_info)
    (sampler_desc : wined3d_sampler_desc) (s : sampler_application) : sampler_application :=
  if gl_info.supported gl_extension.EXT_TEXTURE_LOD_BIAS then
    { s with calls := s.calls ++ [Call.glTexEnvf GL_TEXTURE_FILTER_CONTROL_EXT
        GL_TEXTURE_LOD_BIAS_EXT sampler_desc.lod_bias] }
  else s

/-- Embedding of `wined3d_texture_apply_sampler_desc`: its blocks in source
order, on the GL texture object that `WINED3D_TEXTURE_IS_SRGB` selects. -/
def wined3d_texture_apply_sampler_desc (ext : wined3d_externals)
    (sampler_desc : wined3d_sampler_desc) (context : wined3d_context) (m : Machine) : Machine :=
  let gl_info := context.gl_info
  let target := m.texture.target
  let srgb := m.texture.flags &&& WINED3D_TEXTURE_IS_SRGB
  let s : sampler_application :=
    { gl_tex := wined3d_texture_get_gl_texture m.texture srgb, calls := m.calls }
  let s := apply_address_u gl_info target sampler_desc s
  let s := apply_address_v gl_info target sampler_desc s
  let s := apply_address_w gl_info target sampler_desc s
  let s := apply_border_color target sampler_desc s
  let s := apply_mag_filter ext target sampler_desc s
  let s := apply_min_mip_filter ext target sampler_desc s
  let s := apply_max_anisotropy gl_info target sampler_desc s
  let s := apply_srgb_decode context target sampler_desc s
  let s := apply_compare target sampler_desc s
  let s := apply_lod_bias gl_info sampler_desc s
  { texture := wined3d_texture_set_gl_texture m.texture srgb s.gl_tex, calls := s.calls }

/-! ## Sample states -/

/-- A surface of the given size for sub-resource slot `idx`. -/
def sample_surface (idx width height : Nat) : wined3d_surface :=
  { resource :=
      { ref := 1, type := 0, gl_type := 0,
        format := { id := 87, byte_count := 4, convert := false, glInternal := 0x8058,
                    glGammaInternal := 0x8C43, rtInternal := 0x8058, glFormat := 0x80E1,
                    glType := 0x8367, height_scale_numerator := 1,
                    height_scale_denominator := 1, multisample_types := 0 },
        format_flags := 0, multisample_type := 0, multisample_quality := 0, usage := 0,
        pool := 0, width := width, height := height, depth := 1,
        map_binding := WINED3D_LOCATION_SYSMEM, map_count := 0, bind_count := 0 },
    sub_resource_idx := idx, texture_target := GL_TEXTURE_2D, texture_level := idx,
    pow2Width := width, pow2Height := height, pbo := 0 }

/-- A GL texture object without a handle and with a zeroed shadow, as
`HEAP_ZERO_MEMORY` leaves it. -/
def zero_gl_texture : gl_texture :=
  { sampler_desc :=
      { address_u := 0, address_v := 0, address_w := 0, border_color := [0, 0, 0, 0],
        mag_filter := 0, min_filter := 0, mip_filter := 0, lod_bias := 0, min_lod := 0,
        max_lod := 0, max_anisotropy := 0, compare := 0, comparison_func := 0,
        srgb_decode := 0 },
    base_level := 0, name := 0 }

/-- A 4x4 2D texture with `levels` mip levels and one layer whose
sub-resources all hold the location set `locations`. -/
def sample_texture (levels flags locations : Nat) : wined3d_texture :=
  { resource := (sample_surface 0 4 4).resource,
    texture_ops := wined3d_texture_ops.texture2d_ops,
    texture_rgb := zero_gl_texture, texture_srgb := zero_gl_texture,
    swapchain := none,
    pow2_matrix := { m0 := float_expr.one, m5 := float_expr.one, m10 := float_expr.one,
                     m15 := float_expr.one },
    lod := 0, filter_type := 0, sampler := 0, flags := flags,
    target := GL_TEXTURE_2D, level_count := levels, layer_count := 1, user_memory := 0,
    row_pitch := 0, slice_pitch := 0,
    async := { flags := 0, color_key_flags := 0,
               gl_color_key := { color_space_low_value := 0, color_space_high_value := 0 },
               src_blt_color_key := { color_space_low_value := 0, color_space_high_value := 0 } },
    sub_resources := (List.range levels).map (fun i =>
      { old := some (sample_surface i (4 >>> i) (4 >>> i)), locations := locations,
        dib := { dc := 0, dib_section := 0, bitmap_data := 0, in_use := 0 } }) }

/-! ## The sub-resource operations of 2D and 3D textures

`texture->texture_ops` points to `texture2d_ops` or to `texture3d_ops`; the
members of the tables are the functions of texture.c of the same name.  A
sub-resource object is handed over by the index `idx` of the slot it is stored
in; the operation reads the object from the slot whenever the C code
dereferences the pointer. -/

/-- Embedding of `texture2d_sub_resource_load`. -/
def texture2d_sub_resource_load (ext : wined3d_externals) (idx : Nat)
    (context : wined3d_context) (srgb : Nat) (m : Machine) : Machine :=
  { texture := ext.surface_load (sub_resource_old m.texture idx) context srgb m.texture
    calls := m.calls ++ [Call.surface_load idx srgb] }

/-- Embedding of `texture3d_sub_resource_load`. -/
def texture3d_sub_resource_load (ext : wined3d_externals) (idx : Nat)
    (context : wined3d_context) (srgb : Nat) (m : Machine) : Machine :=
  { texture := ext.wined3d_volume_load (sub_resource_old m.texture idx) context srgb m.texture
    calls := m.calls ++ [Call.wined3d_volume_load idx srgb] }

/-- Embedding of `texture2d_sub_resource_add_dirty_region`.  With a `NULL`
sub-resource there is no surface whose members the last statement could read;
the texture is then left as the helpers leave it. -/
def texture2d_sub_resource_add_dirty_region (ext : wined3d_externals) (idx : Nat)
    (m : Machine) : Machine :=
  let m : Machine :=
    { texture := ext.surface_prepare_map_memory (sub_resource_old m.texture idx) m.texture
      calls := m.calls ++ [Call.surface_prepare_map_memory idx] }
  let context := ext.context_acquire m.texture
  let m := m.call Call.context_acquire
  let map_binding :=
    match sub_resource_old m.texture idx with
    | some surface => surface.resource.map_binding
    | none => 0
  let m : Machine :=
    { texture := ext.surface_load_location (sub_resource_old m.texture idx) (some context)
        map_binding m.texture
      calls := m.calls ++ [Call.surface_load_location idx map_binding] }
  let m := m.call Call.context_release
  match sub_resource_old m.texture idx with
  | some surface =>
    { m with
      texture := (wined3d_texture_invalidate_location m.texture surface.sub_resource_idx
        (DWORD_not surface.resource.map_binding)) }
  | none => m

/-- Embedding of `texture3d_sub_resource_add_dirty_region`. -/
def texture3d_sub_resource_add_dirty_region (m : Machine) : Machine :=
  { m with texture := wined3d_texture_set_dirty m.texture }

/-- Embedding of `texture2d_sub_resource_upload_data`. -/
def texture2d_sub_resource_upload_data (ext : wined3d_externals) (idx : Nat)
    (context : wined3d_context) (m : Machine) : Machine :=
  { texture := ext.wined3d_surface_upload_data (sub_resource_old m.texture idx) context m.texture
    calls := m.calls ++ [Call.wined3d_surface_upload_data idx] }

/-- Embedding of `texture3d_sub_resource_upload_data`. -/
def texture3d_sub_resource_upload_data (ext : wined3d_externals) (idx : Nat)
    (context : wined3d_context) (m : Machine) : Machine :=
  { texture := ext.wined3d_volume_upload_data (sub_resource_old m.texture idx) context m.texture
    calls := m.calls ++ [Call.wined3d_volume_upload_data idx] }

/-- The `glTexImage2D` call of `texture2d_prepare_texture` for one sub-resource. -/
def texture2d_prepare_sub_resource (texture : wined3d_texture) (format : wined3d_format)
    (internal : Nat) (calls : List Call) (idx : Nat) : List Call :=
  match sub_resource_old texture idx with
  | some surface =>
    let height := surface.pow2Height
    let width := surface.pow2Width
    let height :=
      if texture.resource.format_flags &&& WINED3DFMT_FLAG_HEIGHT_SCALE ≠ 0 then
        height * format.height_scale_numerator / format.height_scale_denominator
      else height
    calls ++ [Call.glTexImage2D surface.texture_target surface.texture_level internal width
      height format.glFormat format.glType]
  | none => calls

/-- Embedding of `texture2d_prepare_texture`. -/
def texture2d_prepare_texture (ext : wined3d_externals) (context : wined3d_context) (srgb : Nat)
    (m : Machine) : Machine :=
  let sub_count := sub_count m.texture
  let format := m.texture.resource.format
  let converted : wined3d_texture :=
    { m.texture with flags := m.texture.flags ||| WINED3D_TEXTURE_CONVERTED }
  let r : wined3d_texture × wined3d_format :=
    if format.convert then (converted, format)
    else
      match ext.wined3d_format_get_color_key_conversion m.texture true with
      | some dst_format => (converted, ext.wined3d_get_format dst_format)
      | none => (m.texture, format)
  let format := r.2
  let m := wined3d_texture_bind_and_dirtify ext context srgb { m with texture := r.1 }
  let internal :=
    if BOOL_true srgb then format.glGammaInternal
    else if m.texture.resource.usage &&& WINED3DUSAGE_RENDERTARGET ≠ 0
        ∧ ext.wined3d_resource_is_offscreen m.texture.resource = true then format.rtInternal
    else format.glInternal
  { m with
    calls := ((List.range sub_count).foldl
      (texture2d_prepare_sub_resource m.texture format internal) m.calls) }

/-- The `glTexImage3D` call of `texture3d_prepare_texture` for one sub-resource. -/
def texture3d_prepare_sub_resource (texture : wined3d_texture) (format : wined3d_format)
    (srgb : Nat) (calls : List Call) (idx : Nat) : List Call :=
  match sub_resource_old texture idx with
  | some volume =>
    calls ++ [Call.glTexImage3D GL_TEXTURE_3D volume.texture_level
      (if BOOL_true srgb then format.glGammaInternal else format.glInternal)
      volume.resource.width volume.resource.height volume.resource.depth
      format.glFormat format.glType]
  | none => calls

/-- Embedding of `texture3d_prepare_texture`. -/
def texture3d_prepare_texture (ext : wined3d_externals) (context : wined3d_context) (srgb : Nat)
    (m : Machine) : Machine :=
  let sub_count := sub_count m.texture
  let format := m.texture.resource.format
  let m := wined3d_texture_bind_and_dirtify ext context srgb m
  { m with
    calls := ((List.range sub_count).foldl
      (texture3d_prepare_sub_resource m.texture format srgb) m.calls) }

/-- The call `texture->texture_ops->texture_sub_resource_load(sub_resources[idx].old, ...)`. -/
def texture_sub_resource_load (ext : wined3d_externals) (context : wined3d_context) (srgb : Nat)
    (m : Machine) (idx : Nat) : Machine :=
  let m := m.call (Call.texture_sub_resource_load idx srgb)
  match m.texture.texture_ops with
  | wined3d_texture_ops.texture2d_ops => texture2d_sub_resource_load ext idx context srgb m
  | wined3d_texture_ops.texture3d_ops => texture3d_sub_resource_load ext idx context srgb m

/-- The call
`texture->texture_ops->texture_sub_resource_add_dirty_region(sub_resources[idx].old, ...)`. -/
def texture_sub_resource_add_dirty_region (ext : wined3d_externals) (m : Machine) (idx : Nat) :
    Machine :=
  let m := m.call (Call.texture_sub_resource_add_dirty_region idx)
  match m.texture.texture_ops with
  | wined3d_texture_ops.texture2d_ops => texture2d_sub_resource_add_dirty_region ext idx m
  | wined3d_texture_ops.texture3d_ops => texture3d_sub_resource_add_dirty_region m

/-- The call
`texture->texture_ops->texture_sub_resource_upload_data(sub_resources[idx].old, ...)`. -/
def texture_sub_resource_upload_data (ext : wined3d_externals) (context : wined3d_context)
    (m : Machine) (idx : Nat) : Machine :=
  let m := m.call (Call.texture_sub_resource_upload_data idx)
  match m.texture.texture_ops with
  | wined3d_texture_ops.texture2d_ops => texture2d_sub_resource_upload_data ext idx context m
  | wined3d_texture_ops.texture3d_ops => texture3d_sub_resource_upload_data ext idx context m

/-- The call `texture->texture_ops->texture_prepare_texture(texture, context, srgb)`. -/
def texture_prepare_texture (ext : wined3d_externals) (context : wined3d_context) (srgb : Nat)
    (m : Machine) : Machine :=
  let m := m.call (Call.texture_prepare_texture srgb)
  match m.texture.texture_ops with
  | wined3d_texture_ops.texture2d_ops => texture2d_prepare_texture ext context srgb m
  | wined3d_texture_ops.texture3d_ops => texture3d_prepare_texture ext context srgb m

/-! ## Loading and preparing -/

/-- Embedding of `color_key_equal`. -/
def color_key_equal (c1 c2 : wined3d_color_key) : Bool :=
  c1.color_space_low_value == c2.color_space_low_value
    && c1.color_space_high_value == c2.color_space_high_value

/-- The test `!(async.flags & WINED3D_TEXTURE_ASYNC_COLOR_KEY)
!= !(async.color_key_flags & WINED3D_CKEY_SRC_BLT)`: colour-key usage was
toggled since the last load. -/
def color_key_toggled (texture : wined3d_texture) : Bool :=
  (texture.async.flags &&& WINED3D_TEXTURE_ASYNC_COLOR_KEY == 0)
    != (texture.async.color_key_flags &&& WINED3D_CKEY_SRC_BLT == 0)

/-- The condition of the colour-key block of `wined3d_texture_load`. -/
def load_color_key_changed (context : wined3d_context) (texture : wined3d_texture) : Bool :=
  !BOOL_true context.d3d_info.shader_color_key
    && (color_key_toggled texture
      || (texture.async.flags &&& WINED3D_TEXTURE_ASYNC_COLOR_KEY != 0
        && !color_key_equal texture.async.gl_color_key texture.async.src_blt_color_key))

/-- The colour-key block of `wined3d_texture_load`: every sub-resource gets a
dirty region, the texture is marked dirty and the key is recorded. -/
def load_color_key_reload (ext : wined3d_externals) (m : Machine) : Machine :=
  let sub_count := sub_count m.texture
  let m := (List.range sub_count).foldl (texture_sub_resource_add_dirty_region ext) m
  let texture := wined3d_texture_set_dirty m.texture
  { m with texture :=
      { texture with async := { texture.async with
          gl_color_key := texture.async.src_blt_color_key } } }

/-- The last loop of `wined3d_texture_load` and the statement after it: the
sub-resources are loaded in index order, then `flag` is set. -/
def load_sub_resources (ext : wined3d_externals) (context : wined3d_context) (srgb : Nat)
    (flag : Nat) (sub_count : Nat) (m : Machine) : Machine :=
  let m := (List.range sub_count).foldl (texture_sub_resource_load ext context srgb) m
  { m with texture := { m.texture with flags := m.texture.flags ||| flag } }

/-- The valid flag `wined3d_texture_load` works with. -/
def load_flag (srgb : Nat) : Nat :=
  if BOOL_true srgb then WINED3D_TEXTURE_SRGB_VALID else WINED3D_TEXTURE_RGB_VALID

/-- Embedding of `wined3d_texture_load`. -/
def wined3d_texture_load (ext : wined3d_externals) (context : wined3d_context) (srgb : Nat)
    (m : Machine) : Machine :=
  let sub_count := sub_count m.texture
  let srgb := effective_srgb ext context srgb
  let flag := load_flag srgb
  let m := if load_color_key_changed context m.texture then load_color_key_reload ext m else m
  if m.texture.flags &&& flag ≠ 0 then m
  else load_sub_resources ext context srgb flag sub_count m

/-- The allocation flag `wined3d_texture_prepare_texture` works with. -/
def prepare_alloc_flag (srgb : Nat) : Nat :=
  if BOOL_true srgb then WINED3D_TEXTURE_SRGB_ALLOCATED else WINED3D_TEXTURE_RGB_ALLOCATED

/-- The colour-key block of `wined3d_texture_prepare_texture`: a forced reload,
after which `WINED3D_TEXTURE_ASYNC_COLOR_KEY` is set when a source-blit colour
key is in use. -/
def prepare_color_key_reload (texture : wined3d_texture) : wined3d_texture :=
  let texture := wined3d_texture_force_reload texture
  if texture.async.color_key_flags &&& WINED3D_CKEY_SRC_BLT ≠ 0 then
    { texture with async := { texture.async with
        flags := texture.async.flags ||| WINED3D_TEXTURE_ASYNC_COLOR_KEY } }
  else texture

/-- Embedding of `wined3d_texture_prepare_texture`. -/
def wined3d_texture_prepare_texture (ext : wined3d_externals) (context : wined3d_context)
    (srgb : Nat) (m : Machine) : Machine :=
  let alloc_flag := prepare_alloc_flag srgb
  let m : Machine :=
    if !BOOL_true context.d3d_info.shader_color_key && color_key_toggled m.texture then
      { m with texture := prepare_color_key_reload m.texture }
    else m
  if m.texture.flags &&& alloc_flag ≠ 0 then m
  else
    let m := texture_prepare_texture ext context srgb m
    { m with texture := { m.texture with flags := m.texture.flags ||| alloc_flag } }

/-- One round of the upload loop of `wined3d_texture_upload_data`: the
sub-resource is uploaded, `TEXTURE_RGB` is validated and every other location
is invalidated. -/
def upload_sub_resource (ext : wined3d_externals) (context : wined3d_context) (m : Machine)
    (idx : Nat) : Machine :=
  let m := texture_sub_resource_upload_data ext context m idx
  let texture := wined3d_texture_validate_location m.texture idx WINED3D_LOCATION_TEXTURE_RGB
  { m with
    texture := (wined3d_texture_invalidate_location texture idx
      (DWORD_not WINED3D_LOCATION_TEXTURE_RGB)) }

/-- The HRESULT values texture.c returns: `WINED3D_OK` (the value 0, `S_OK`),
the error codes the file names, and `failure code` for any other value, given
by its 32 bits. -/
inductive HRESULT where
  | WINED3D_OK
  | WINED3DERR_INVALIDCALL
  | WINED3DERR_NOTAVAILABLE
  | WINEDDERR_DCALREADYCREATED
  | WINEDDERR_NODC
  | WINEDDERR_NOTAOVERLAYSURFACE
  | WINEDDERR_OVERLAYNOTVISIBLE
  | E_INVALIDARG
  | E_OUTOFMEMORY
  | failure (code : Nat)
deriving DecidableEq, Repr

/-- The macro `FAILED`, `hr < 0` on the signed 32-bit value: `WINED3D_OK` is 0,
every error code the file names has the sign bit set, and any other value is
tested for its sign bit. -/
def FAILED : HRESULT → Bool
  | HRESULT.WINED3D_OK => false
  | HRESULT.failure code => decide (2 ^ 31 ≤ code % 2 ^ 32)
  | _ => true

/-- The macro `HRESULT_FROM_WIN32` of winerror.h, which is not among the
sources at hand, by its definition in the Windows SDK: a value that is 0 or
negative as a signed 32-bit number stays as it is (0 is `S_OK`, the value of
`WINED3D_OK`), and every other error code gets the failure bit and the facility
`FACILITY_WIN32`. -/
def HRESULT_FROM_WIN32 (x : Nat) : HRESULT :=
  if x % 2 ^ 32 = 0 then HRESULT.WINED3D_OK
  else if 2 ^ 31 ≤ x % 2 ^ 32 then HRESULT.failure (x % 2 ^ 32)
  else HRESULT.failure (((x % 2 ^ 32) &&& 0xFFFF) ||| 0x80070000)

/-- The `HRESULT` a helper outside the file returned: `none` stands for
`WINED3D_OK`, `some code` for the value `code`. -/
def HRESULT.of_helper : Option Nat → HRESULT
  | none => HRESULT.WINED3D_OK
  | some code => HRESULT.failure code

/-- One element of the array `data` of `wined3d_texture_create`: the member
`data` (0 is `NULL`) and the pitches of `struct wined3d_sub_resource_data`. -/
structure wined3d_sub_resource_data where
  data : Nat
  row_pitch : Nat
  slice_pitch : Nat
deriving DecidableEq, Repr

/-- Embedding of `wined3d_texture_upload_data`.  An element of `data` past the
end of the list reads as one without data. -/
def wined3d_texture_upload_data (ext : wined3d_externals) (data : List wined3d_sub_resource_data)
    (m : Machine) : HRESULT × Machine :=
  let sub_count := sub_count m.texture
  if (List.range sub_count).any (fun i =>
      match data[i]? with
      | some d => d.data == 0
      | none => true) then
    (HRESULT.E_INVALIDARG, m)
  else
    let context := ext.context_acquire m.texture
    let m := m.call Call.context_acquire
    let m := wined3d_texture_prepare_texture ext context FALSE m
    let m := wined3d_texture_bind_and_dirtify ext context FALSE m
    let m := (List.range sub_count).foldl (upload_sub_resource ext context) m
    (HRESULT.WINED3D_OK, m.call Call.context_release)

/-! ## Teardown -/

/-- Embedding of `gltexture_delete`. -/
def gltexture_delete (calls : List Call) (tex : gl_texture) : List Call × gl_texture :=
  (calls ++ [Call.glDeleteTextures tex.name], { tex with name := 0 })

/-- Embedding of `wined3d_texture_unload_gl_texture`. -/
def wined3d_texture_unload_gl_texture (m : Machine) : Machine :=
  let acquired := m.texture.texture_rgb.name ≠ 0 ∨ m.texture.texture_srgb.name ≠ 0
  let m := if acquired then m.call Call.context_acquire else m
  let m : Machine :=
    if m.texture.texture_rgb.name ≠ 0 then
      let r := gltexture_delete m.calls m.texture.texture_rgb
      { texture := { m.texture with texture_rgb := r.2 }, calls := r.1 }
    else m
  let m : Machine :=
    if m.texture.texture_srgb.name ≠ 0 then
      let r := gltexture_delete m.calls m.texture.texture_srgb
      { texture := { m.texture with texture_srgb := r.2 }, calls := r.1 }
    else m
  let m := if acquired then m.call Call.context_release else m
  let m := { m with texture := wined3d_texture_set_dirty m.texture }
  m.call Call.resource_unload

/-- The call `texture->texture_ops->texture_sub_resource_cleanup(sub_resource)`:
`texture2d_sub_resource_cleanup` destroys the surface,
`texture3d_sub_resource_cleanup` the volume. -/
def texture_sub_resource_cleanup (m : Machine) (idx : Nat) : Machine :=
  let m := m.call (Call.texture_sub_resource_cleanup idx)
  match m.texture.texture_ops with
  | wined3d_texture_ops.texture2d_ops => m.call (Call.wined3d_surface_destroy idx)
  | wined3d_texture_ops.texture3d_ops => m.call (Call.wined3d_volume_destroy idx)

/-- One round of the loop of `wined3d_texture_cleanup`. -/
def cleanup_sub_resource (m : Machine) (idx : Nat) : Machine :=
  let sub_resource := sub_resource_old m.texture idx
  let m : Machine :=
    match m.texture.sub_resources[idx]? with
    | some sr =>
      if sr.dib.dib_section ≠ 0 then
        { texture := { m.texture with
            sub_resources := List.modify
              (fun sr => { sr with dib := { sr.dib with bitmap_data := 0 } })
              idx m.texture.sub_resources }
          calls := m.calls ++ [Call.DeleteDC sr.dib.dc, Call.DeleteObject sr.dib.dib_section] }
      else m
    | none => m
  if sub_resource.isSome then texture_sub_resource_cleanup m idx else m

/-- Embedding of `wined3d_texture_cleanup`. -/
def wined3d_texture_cleanup (m : Machine) : Machine :=
  let sub_count := sub_count m.texture
  let m := (List.range sub_count).foldl cleanup_sub_resource m
  let m := wined3d_texture_unload_gl_texture m
  m.call Call.resource_cleanup

/-! ## Creation -/

/-- Embedding of `wined3d_texture_get_pitch`. -/
def wined3d_texture_get_pitch (ext : wined3d_externals) (texture : wined3d_texture)
    (level : Nat) : Nat × Nat :=
  let width := max 1 (texture.resource.width >>> level)
  let height := max 1 (texture.resource.height >>> level)
  if texture.row_pitch ≠ 0 then (texture.row_pitch, texture.slice_pitch)
  else ext.wined3d_format_calculate_pitch texture.resource.format ext.surface_alignment
    width height

/-- Embedding of `wined3d_texture_create_dib_section`, up to the contents of
the `BITMAPINFO` beyond its size members. -/
def wined3d_texture_create_dib_section (ext : wined3d_externals) (m : Machine)
    (sub_resource_idx : Nat) : HRESULT × Machine :=
  let format := m.texture.resource.format
  let level := sub_resource_idx % m.texture.level_count
  if m.texture.resource.format_flags &&& WINED3DFMT_FLAG_GETDC = 0 then
    (HRESULT.WINED3DERR_INVALIDCALL, m)
  else
    let allocated := ext.HeapAlloc m.calls
    let m := m.call Call.HeapAlloc
    if !allocated then (HRESULT.E_OUTOFMEMORY, m)
    else
      let pitch := wined3d_texture_get_pitch ext m.texture sub_resource_idx
      let dib_section := ext.CreateDIBSection m.calls
      let m := m.call (Call.CreateDIBSection (pitch.1 / format.byte_count)
        (m.texture.resource.height >>> level) (format.byte_count * 8) pitch.2)
      let m : Machine :=
        { m with texture := { m.texture with
            sub_resources := List.modify
              (fun sr => { sr with
                dib := { sr.dib with dib_section := dib_section.1, bitmap_data := dib_section.2 } })
              sub_resource_idx m.texture.sub_resources } }
      if dib_section.1 = 0 then
        let code := ext.GetLastError m.calls
        (HRESULT_FROM_WIN32 code, m.call Call.HeapFree)
      else
        let m := m.call Call.HeapFree
        let dc := ext.CreateCompatibleDC m.calls
        let m := m.call Call.CreateCompatibleDC
        let m : Machine :=
          { m with texture := { m.texture with
              sub_resources := List.modify (fun sr => { sr with dib := { sr.dib with dc := dc } })
                sub_resource_idx m.texture.sub_resources } }
        (HRESULT.WINED3D_OK, m.call (Call.SelectObject dc dib_section.1))

/-- Embedding of `wined3d_texture_init`. -/
def wined3d_texture_init (ext : wined3d_externals) (texture_ops : wined3d_texture_ops)
    (layer_count level_count : Nat) (desc : wined3d_resource_desc) (flags : Nat)
    (m : Machine) : HRESULT × Machine :=
  let format := ext.wined3d_get_format desc.format
  let r := ext.resource_init desc format
  let m := m.call Call.resource_init
  if FAILED (HRESULT.of_helper r.1) then (HRESULT.of_helper r.1, m)
  else
    let m := m.call Call.wined3d_resource_update_draw_binding
    let texture : wined3d_texture :=
      { m.texture with
        resource := r.2
        texture_ops := texture_ops
        layer_count := layer_count
        level_count := level_count
        filter_type :=
          if desc.usage &&& WINED3DUSAGE_AUTOGENMIPMAP ≠ 0 then WINED3D_TEXF_LINEAR
          else WINED3D_TEXF_NONE
        lod := 0
        flags := WINED3D_TEXTURE_POW2_MAT_IDENT ||| WINED3D_TEXTURE_NORMALIZED_COORDS }
    let texture : wined3d_texture :=
      if flags &&& WINED3D_TEXTURE_CREATE_PIN_SYSMEM ≠ 0 then
        { texture with flags := texture.flags ||| WINED3D_TEXTURE_PIN_SYSMEM }
      else texture
    (HRESULT.WINED3D_OK, { m with texture := texture })

/-- The loop `while (pow2 < size) pow2 <<= 1;` on a `UINT`, run for at most
`fuel` rounds; `none` when it is still running then. -/
def pow2_loop : Nat → Nat → Nat → Option Nat
  | 0, _, _ => none
  | fuel + 1, pow2, size =>
    if pow2 < size then pow2_loop fuel ((pow2 <<< 1) % 2 ^ 32) size else some pow2

/-- The power-of-two search of `texture_init` and `volumetexture_init`, from 1.
After 32 doublings the `UINT` is 0 and stays 0, so a search that has not
ended after 33 rounds never ends: `none`. -/
def find_pow2 (size : Nat) : Option Nat := pow2_loop 34 1 size

/-- The table `cube_targets` of `texture_init`. -/
def cube_targets (j : Nat) : GLenum :=
  [GL_TEXTURE_CUBE_MAP_POSITIVE_X_ARB, GL_TEXTURE_CUBE_MAP_NEGATIVE_X_ARB,
   GL_TEXTURE_CUBE_MAP_POSITIVE_Y_ARB, GL_TEXTURE_CUBE_MAP_NEGATIVE_Y_ARB,
   GL_TEXTURE_CUBE_MAP_POSITIVE_Z_ARB, GL_TEXTURE_CUBE_MAP_NEGATIVE_Z_ARB].getD j 0

/-- The inner loop of `texture_init` over the layers `js` of level `i`: every
layer gets a surface; the variable `surface` holds the last one created.  When a
surface cannot be created the texture is cleaned up and the error returned. -/
def texture_init_layers (ext : wined3d_externals) (desc surface_desc : wined3d_resource_desc)
    (flags i : Nat) :
    List Nat → Machine → Option wined3d_surface → HRESULT × Machine × Option wined3d_surface
  | [], m, surface => (HRESULT.WINED3D_OK, m, surface)
  | j :: js, m, surface =>
    let target :=
      if desc.usage &&& WINED3DUSAGE_LEGACY_CUBEMAP ≠ 0 then cube_targets j else m.texture.target
    let r := ext.wined3d_surface_create m.texture surface_desc target i j flags
    let m : Machine :=
      { texture := { m.texture with
          sub_resources := List.mapIdx r.update m.texture.sub_resources }
        calls := m.calls ++ [Call.wined3d_surface_create i j] }
    if FAILED (HRESULT.of_helper r.hr_failed) then
      (HRESULT.of_helper r.hr_failed, wined3d_texture_cleanup m, surface)
    else texture_init_layers ext desc surface_desc flags i js m (some r.object)

/-- A write to `surface->resource.map_binding` of the surface stored in slot
`idx`. -/
def set_map_binding (texture : wined3d_texture) (idx map_binding : Nat) : wined3d_texture :=
  { texture with
    sub_resources := List.modify
      (fun sr => { sr with
        old := sr.old.map (fun surface =>
          { surface with resource := { surface.resource with map_binding := map_binding } }) })
      idx texture.sub_resources }

/-- The statements of the outer loop of `texture_init` that follow the inner
loop: the last surface created is stored in slot `i`, a legacy bitmap is made
for a texture with its own DC, and a surface that maps to the bitmap gets `DIB`
as its location. -/
def texture_init_store (ext : wined3d_externals) (desc : wined3d_resource_desc) (i : Nat)
    (surface : Option wined3d_surface) (m : Machine) : Machine :=
  let m : Machine :=
    { m with texture := { m.texture with
        sub_resources := List.modify (fun sr => { sr with old := surface })
          i m.texture.sub_resources } }
  let dc := match m.texture.sub_resources[i]? with
    | some sr => sr.dib.dc
    | none => 0
  let m : Machine :=
    if desc.usage &&& WINED3DUSAGE_OWNDC ≠ 0 ∧ dc = 0 then
      let r := wined3d_texture_create_dib_section ext m i
      if !FAILED r.1 then
        { r.2 with texture := set_map_binding r.2.texture i WINED3D_LOCATION_DIB }
      else r.2
    else m
  match sub_resource_old m.texture i with
  | some surface =>
    if surface.resource.map_binding = WINED3D_LOCATION_DIB then
      let m := m.call (Call.wined3d_resource_free_sysmem i)
      let texture := wined3d_texture_validate_location m.texture i WINED3D_LOCATION_DIB
      { m with texture := wined3d_texture_invalidate_location texture i WINED3D_LOCATION_SYSMEM }
    else m
  | none => m

/-- The outer loop of `texture_init` over the levels `is`. -/
def texture_init_levels (ext : wined3d_externals) (desc : wined3d_resource_desc) (flags : Nat) :
    List Nat → wined3d_resource_desc → Machine → HRESULT × Machine
  | [], _, m => (HRESULT.WINED3D_OK, m)
  | i :: is, surface_desc, m =>
    let r := texture_init_layers ext desc surface_desc flags i
      (List.range m.texture.layer_count) m none
    if FAILED r.1 then (r.1, r.2.1)
    else
      let m := texture_init_store ext desc i r.2.2 r.2.1
      let surface_desc : wined3d_resource_desc :=
        { surface_desc with
          width := max 1 (surface_desc.width >>> 1)
          height := max 1 (surface_desc.height >>> 1) }
      texture_init_levels ext desc flags is surface_desc m

/-- The part of `texture_init` that sets the coordinate matrix, the target and
the flags that depend on the power-of-two size. -/
def texture_init_pow2_matrix (gl_info : wined3d_gl_info) (desc : wined3d_resource_desc)
    (pow2_width pow2_height : Nat) (texture : wined3d_texture) : wined3d_texture :=
  if texture.resource.gl_type = WINED3D_GL_RES_TYPE_TEX_RECT then
    { texture with
      pow2_matrix :=
        { m0 := float_expr.of_uint desc.width, m5 := float_expr.of_uint desc.height,
          m10 := float_expr.one, m15 := float_expr.one }
      target := GL_TEXTURE_RECTANGLE_ARB
      flags := (texture.flags ||| WINED3D_TEXTURE_COND_NP2)
        &&& DWORD_not (WINED3D_TEXTURE_POW2_MAT_IDENT ||| WINED3D_TEXTURE_NORMALIZED_COORDS) }
  else
    let target :=
      if desc.usage &&& WINED3DUSAGE_LEGACY_CUBEMAP ≠ 0 then GL_TEXTURE_CUBE_MAP_ARB
      else GL_TEXTURE_2D
    if desc.width = pow2_width ∧ desc.height = pow2_height then
      { texture with
        target := target
        pow2_matrix := { m0 := float_expr.one, m5 := float_expr.one, m10 := float_expr.one,
                         m15 := float_expr.one } }
    else if gl_info.supported gl_extension.WINED3D_GL_NORMALIZED_TEXRECT then
      { texture with
        target := target
        pow2_matrix := { m0 := float_expr.one, m5 := float_expr.one, m10 := float_expr.one,
                         m15 := float_expr.one }
        flags := texture.flags ||| WINED3D_TEXTURE_COND_NP2 }
    else
      { texture with
        target := target
        pow2_matrix :=
          { m0 := float_expr.quotient desc.width pow2_width
            m5 := float_expr.quotient desc.height pow2_height
            m10 := float_expr.one, m15 := float_expr.one }
        flags := texture.flags &&& DWORD_not WINED3D_TEXTURE_POW2_MAT_IDENT }

/-- The power-of-two size `texture_init` computes: the requested size with
`ARB_TEXTURE_NON_POWER_OF_TWO`, the next powers of two otherwise; `none` when a
search does not end. -/
def texture_init_pow2_size (gl_info : wined3d_gl_info) (desc : wined3d_resource_desc) :
    Option (Nat × Nat) :=
  if gl_info.supported gl_extension.ARB_TEXTURE_NON_POWER_OF_TWO then
    some (desc.width, desc.height)
  else
    match find_pow2 desc.width with
    | none => none
    | some pow2_width =>
      match find_pow2 desc.height with
      | none => none
      | some pow2_height => some (pow2_width, pow2_height)

/-- The test of `texture_init` that rejects a mipmapped or cube texture of a
size that is not a power of two, outside the scratch pool, on a device without
`ARB_TEXTURE_NON_POWER_OF_TWO`. -/
def texture_init_npot_rejected (gl_info : wined3d_gl_info) (desc : wined3d_resource_desc)
    (level_count pow2_width pow2_height : Nat) : Bool :=
  !gl_info.supported gl_extension.ARB_TEXTURE_NON_POWER_OF_TWO
    && (pow2_width != desc.width || pow2_height != desc.height)
    && (level_count != 1 || desc.usage &&& WINED3DUSAGE_LEGACY_CUBEMAP != 0)
    && desc.pool != WINED3D_POOL_SCRATCH

/-- The test of `texture_init` and `volumetexture_init` that rejects
`WINED3DUSAGE_AUTOGENMIPMAP` without `SGIS_GENERATE_MIPMAP` or with a level
count other than 1. -/
def init_autogen_rejected (gl_info : wined3d_gl_info) (desc : wined3d_resource_desc)
    (level_count : Nat) : Bool :=
  desc.usage &&& WINED3DUSAGE_AUTOGENMIPMAP != 0
    && (!gl_info.supported gl_extension.SGIS_GENERATE_MIPMAP || level_count != 1)

/-- The part of `texture_init` from the call of `wined3d_texture_init` on. -/
def texture_init_body (ext : wined3d_externals) (gl_info : wined3d_gl_info)
    (desc : wined3d_resource_desc) (level_count flags pow2_width pow2_height : Nat)
    (m : Machine) : HRESULT × Machine :=
  let layer_count := if desc.usage &&& WINED3DUSAGE_LEGACY_CUBEMAP ≠ 0 then 6 else 1
  let r := wined3d_texture_init ext wined3d_texture_ops.texture2d_ops layer_count
    level_count desc flags m
  if FAILED r.1 then r
  else
    let m : Machine :=
      { r.2 with texture :=
          texture_init_pow2_matrix gl_info desc pow2_width pow2_height r.2.texture }
    texture_init_levels ext desc flags (List.range m.texture.level_count)
      { desc with resource_type := WINED3D_RTYPE_SURFACE } m

/-- Embedding of `texture_init`; `none` when a power-of-two search does not
end. -/
def texture_init (ext : wined3d_externals) (gl_info : wined3d_gl_info)
    (desc : wined3d_resource_desc) (level_count flags : Nat) (m : Machine) :
    Option (HRESULT × Machine) :=
  if desc.format ≤ WINED3DFMT_UNKNOWN then some (HRESULT.WINED3DERR_INVALIDCALL, m)
  else
    match texture_init_pow2_size gl_info desc with
    | none => none
    | some pow2 =>
      if texture_init_npot_rejected gl_info desc level_count pow2.1 pow2.2 then
        some (HRESULT.WINED3DERR_INVALIDCALL, m)
      else if init_autogen_rejected gl_info desc level_count then
        some (HRESULT.WINED3DERR_INVALIDCALL, m)
      else some (texture_init_body ext gl_info desc level_count flags pow2.1 pow2.2 m)

/-- The loop of `volumetexture_init` over the levels `is`. -/
def volumetexture_init_levels (ext : wined3d_externals) :
    List Nat → wined3d_resource_desc → Machine → HRESULT × Machine
  | [], _, m => (HRESULT.WINED3D_OK, m)
  | i :: is, volume_desc, m =>
    let r := ext.wined3d_volume_create m.texture volume_desc i
    let m : Machine :=
      { texture := { m.texture with
          sub_resources := List.mapIdx r.update m.texture.sub_resources }
        calls := m.calls ++ [Call.wined3d_volume_create i] }
    if FAILED (HRESULT.of_helper r.hr_failed) then
      (HRESULT.of_helper r.hr_failed, wined3d_texture_cleanup m)
    else
      let m : Machine :=
        { m with texture := { m.texture with
            sub_resources := List.modify
              (fun sr => { sr with old := some r.object, locations := WINED3D_LOCATION_DISCARDED })
              i m.texture.sub_resources } }
      let volume_desc : wined3d_resource_desc :=
        { volume_desc with
          width := max 1 (volume_desc.width >>> 1)
          height := max 1 (volume_desc.height >>> 1)
          depth := max 1 (volume_desc.depth >>> 1) }
      volumetexture_init_levels ext is volume_desc m

/-- Embedding of `volumetexture_init`; `none` when a power-of-two search does
not end. -/
def volumetexture_init (ext : wined3d_externals) (gl_info : wined3d_gl_info)
    (desc : wined3d_resource_desc) (levels : Nat) (m : Machine) : Option (HRESULT × Machine) :=
  if desc.format ≤ WINED3DFMT_UNKNOWN then some (HRESULT.WINED3DERR_INVALIDCALL, m)
  else if !gl_info.supported gl_extension.EXT_TEXTURE3D then
    some (HRESULT.WINED3DERR_INVALIDCALL, m)
  else if init_autogen_rejected gl_info desc levels then
    some (HRESULT.WINED3DERR_INVALIDCALL, m)
  else
    let npot : Option Bool :=
      if gl_info.supported gl_extension.ARB_TEXTURE_NON_POWER_OF_TWO then some false
      else
        match find_pow2 desc.width with
        | none => none
        | some pow2_w =>
          match find_pow2 desc.height with
          | none => none
          | some pow2_h =>
            match find_pow2 desc.depth with
            | none => none
            | some pow2_d =>
              some (pow2_w != desc.width || pow2_h != desc.height || pow2_d != desc.depth)
    match npot with
    | none => none
    | some npot =>
      if npot = true ∧ desc.pool ≠ WINED3D_POOL_SCRATCH then
        some (HRESULT.WINED3DERR_INVALIDCALL, m)
      else
        let r := wined3d_texture_init ext wined3d_texture_ops.texture3d_ops 1 levels desc 0 m
        if FAILED r.1 then some r
        else
          let m : Machine :=
            { r.2 with texture := { r.2.texture with
                pow2_matrix := { m0 := float_expr.one, m5 := float_expr.one,
                                 m10 := float_expr.one, m15 := float_expr.one }
                target := GL_TEXTURE_3D } }
          some (volumetexture_init_levels ext (List.range m.texture.level_count)
            { desc with resource_type := WINED3D_RTYPE_VOLUME } m)

/-- Modelled from the spec: the inline helper `wined3d_popcount` of
wined3d_private.h, the number of set bits of a 32-bit word. -/
def wined3d_popcount (x : Nat) : Nat :=
  ((List.range 32).filter (fun k => x.testBit k)).length

/-- The table `layer_count` of `wined3d_texture_create`, indexed by the
resource type. -/
def create_layer_count (resource_type : Nat) : Nat := [0, 0, 0, 1, 1].getD resource_type 0

/-- The texture object as `HeapAlloc(..., HEAP_ZERO_MEMORY, ...)` returns it,
with `n` sub-resource slots. -/
def zero_texture (n : Nat) : wined3d_texture :=
  { resource :=
      { ref := 0, type := 0, gl_type := 0,
        format := { id := 0, byte_count := 0, convert := false, glInternal := 0,
                    glGammaInternal := 0, rtInternal := 0, glFormat := 0, glType := 0,
                    height_scale_numerator := 0, height_scale_denominator := 0,
                    multisample_types := 0 },
        format_flags := 0, multisample_type := 0, multisample_quality := 0, usage := 0,
        pool := 0, width := 0, height := 0, depth := 0, map_binding := 0, map_count := 0,
        bind_count := 0 },
    texture_ops := wined3d_texture_ops.texture2d_ops,
    texture_rgb :=
      { sampler_desc :=
          { address_u := 0, address_v := 0, address_w := 0, border_color := [0, 0, 0, 0],
            mag_filter := 0, min_filter := 0, mip_filter := 0, lod_bias := 0, min_lod := 0,
            max_lod := 0, max_anisotropy := 0, compare := 0, comparison_func := 0,
            srgb_decode := 0 },
        base_level := 0, name := 0 },
    texture_srgb :=
      { sampler_desc :=
          { address_u := 0, address_v := 0, address_w := 0, border_color := [0, 0, 0, 0],
            mag_filter := 0, min_filter := 0, mip_filter := 0, lod_bias := 0, min_lod := 0,
            max_lod := 0, max_anisotropy := 0, compare := 0, comparison_func := 0,
            srgb_decode := 0 },
        base_level := 0, name := 0 },
    swapchain := none,
    pow2_matrix := { m0 := float_expr.zero, m5 := float_expr.zero, m10 := float_expr.zero,
                     m15 := float_expr.zero },
    lod := 0, filter_type := 0, sampler := 0, flags := 0, target := 0, level_count := 0,
    layer_count := 0, user_memory := 0, row_pitch := 0, slice_pitch := 0,
    async := { flags := 0, color_key_flags := 0,
               gl_color_key := { color_space_low_value := 0, color_space_high_value := 0 },
               src_blt_color_key := { color_space_low_value := 0, color_space_high_value := 0 } },
    sub_resources := List.replicate n
      { old := none, locations := 0,
        dib := { dc := 0, dib_section := 0, bitmap_data := 0, in_use := 0 } } }

/-- What `wined3d_texture_create` leaves: the result code, the texture written
to `*texture` (`none` when nothing is written) and the calls made. -/
structure create_result where
  hr : HRESULT
  texture : Option wined3d_texture
  calls : List Call
deriving DecidableEq, Repr

/-- The multisample test of `wined3d_texture_create`: whether the description
asks for a multisample setting the format does not offer.  The shift
`1u << (desc->multisample_type - 1)` is defined in C for a count below 32, that
is for the types 1 to 32; for a larger count the compiled code uses the count
modulo 32, as the shift instruction of the processor does. -/
def create_multisample_unavailable (ext : wined3d_externals) (desc : wined3d_resource_desc) :
    Bool :=
  let format := ext.wined3d_get_format desc.format
  desc.multisample_type != WINED3D_MULTISAMPLE_NONE
    && ((desc.multisample_type == WINED3D_MULTISAMPLE_NON_MASKABLE
          && decide (desc.multisample_quality ≥ wined3d_popcount format.multisample_types))
      || (desc.multisample_type != WINED3D_MULTISAMPLE_NON_MASKABLE
          && (format.multisample_types
                &&& ((1 <<< (((desc.multisample_type + 2 ^ 32 - 1) % 2 ^ 32) % 32)) % 2 ^ 32)
                  == 0
              || desc.multisample_quality != 0)))

/-- Embedding of `wined3d_texture_create`; `data` is `none` for a `NULL` array
of initial data.  `none` when the call does not return. -/
def wined3d_texture_create (ext : wined3d_externals) (gl_info : wined3d_gl_info)
    (desc : wined3d_resource_desc) (level_count flags : Nat)
    (data : Option (List wined3d_sub_resource_data)) : Option create_result :=
  if level_count = 0 then
    some { hr := HRESULT.WINED3DERR_INVALIDCALL, texture := none, calls := [] }
  else if create_multisample_unavailable ext desc then
    some { hr := HRESULT.WINED3DERR_NOTAVAILABLE, texture := none, calls := [] }
  else if !ext.HeapAlloc [] then
    some { hr := HRESULT.E_OUTOFMEMORY, texture := none, calls := [Call.HeapAlloc] }
  else
    let object : Machine :=
      { texture := zero_texture (level_count * create_layer_count desc.resource_type)
        calls := [Call.HeapAlloc] }
    let init : Option (HRESULT × Machine) :=
      if desc.resource_type = WINED3D_RTYPE_TEXTURE_2D then
        texture_init ext gl_info desc level_count flags object
      else if desc.resource_type = WINED3D_RTYPE_TEXTURE_3D then
        volumetexture_init ext gl_info desc level_count object
      else some (HRESULT.WINED3DERR_INVALIDCALL, object)
    match init with
    | none => none
    | some (hr, object) =>
      if FAILED hr then
        some { hr := hr, texture := none, calls := object.calls ++ [Call.HeapFree] }
      else
        match data with
        | none => some { hr := HRESULT.WINED3D_OK, texture := some object.texture,
                         calls := object.calls }
        | some data =>
          let r := wined3d_texture_upload_data ext data object
          if FAILED r.1 then
            some { hr := r.1, texture := none,
                   calls := (wined3d_texture_cleanup r.2).calls ++ [Call.HeapFree] }
          else
            some { hr := HRESULT.WINED3D_OK, texture := some r.2.texture, calls := r.2.calls }


/-! ## The legacy DC of a sub-resource -/

/-- The member `d3d_initialized` of `struct wined3d_device`, the only member of
the device that `wined3d_texture_get_dc` and `wined3d_texture_release_dc`
read. -/
structure wined3d_device where
  d3d_initialized : Nat

/-- Embedding of `wined3d_texture_get_sub_resource`. -/
def wined3d_texture_get_sub_resource (texture : wined3d_texture) (sub_resource_idx : Nat) :
    Option wined3d_surface :=
  let sub_count := sub_count texture
  if sub_resource_idx ≥ sub_count then none
  else sub_resource_old texture sub_resource_idx

/-- The bitmap `texture->sub_resources[idx].dib`; a slot outside the array
reads as zeroes. -/
def sub_resource_dib (texture : wined3d_texture) (idx : Nat) : wined3d_texture_dib :=
  match texture.sub_resources[idx]? with
  | some sr => sr.dib
  | none => { dc := 0, dib_section := 0, bitmap_data := 0, in_use := 0 }

/-- A write to `surface->resource.map_count` of the surface stored in slot
`idx`. -/
def set_map_count (texture : wined3d_texture) (idx map_count : Nat) : wined3d_texture :=
  { texture with
    sub_resources := List.modify
      (fun sr => { sr with
        old := sr.old.map (fun surface =>
          { surface with resource := { surface.resource with map_count := map_count } }) })
      idx texture.sub_resources }

/-- A write to `dib->in_use` of slot `idx`. -/
def set_dib_in_use (texture : wined3d_texture) (idx in_use : Nat) : wined3d_texture :=
  { texture with
    sub_resources := List.modify
      (fun sr => { sr with dib := { sr.dib with in_use := in_use } })
      idx texture.sub_resources }

/-- The statement `if (device->d3d_initialized) context = context_acquire(device, NULL);`
after `context = NULL`. -/
def dc_context_acquire (ext : wined3d_externals) (device : wined3d_device) (m : Machine) :
    Option wined3d_context × Machine :=
  if BOOL_true device.d3d_initialized then
    (some (ext.context_acquire m.texture), m.call Call.context_acquire)
  else (none, m)

/-- The statement `if (context) context_release(context);`. -/
def dc_context_release (context : Option wined3d_context) (m : Machine) : Machine :=
  if context.isSome then m.call Call.context_release else m

/-- What `wined3d_texture_get_dc` leaves: the result code, the value written to
`*dc` (`none` when nothing is written) and the texture with the call log. -/
structure get_dc_result where
  hr : HRESULT
  dc : Option Nat
  m : Machine

/-- The block of `wined3d_texture_get_dc` that creates the bitmap when the
sub-resource has no DC yet, and then makes the bitmap the map binding unless
the surface maps user memory, the texture pins system memory or the surface has
a buffer object. -/
def get_dc_create_dib (ext : wined3d_externals) (surface : wined3d_surface) (m : Machine)
    (sub_resource_idx : Nat) : HRESULT × Machine :=
  if (sub_resource_dib m.texture sub_resource_idx).dc = 0 then
    let r := wined3d_texture_create_dib_section ext m sub_resource_idx
    if FAILED r.1 then r
    else if ¬ (surface.resource.map_binding = WINED3D_LOCATION_USER_MEMORY
        ∨ r.2.texture.flags &&& WINED3D_TEXTURE_PIN_SYSMEM ≠ 0
        ∨ surface.pbo ≠ 0) then
      (HRESULT.WINED3D_OK,
        { r.2 with texture := set_map_binding r.2.texture sub_resource_idx WINED3D_LOCATION_DIB })
    else (HRESULT.WINED3D_OK, r.2)
  else (HRESULT.WINED3D_OK, m)

/-- The part of `wined3d_texture_get_dc` from `surface_load_location` on: the
bitmap is brought up to date, every other location is invalidated, the DC is
marked as in use, the surface counts one more mapping and the DC is handed
out. -/
def get_dc_finish (ext : wined3d_externals) (context : Option wined3d_context) (m : Machine)
    (sub_resource_idx : Nat) : get_dc_result :=
  let m : Machine :=
    { texture := ext.surface_load_location (sub_resource_old m.texture sub_resource_idx) context
        WINED3D_LOCATION_DIB m.texture
      calls := m.calls ++ [Call.surface_load_location sub_resource_idx WINED3D_LOCATION_DIB] }
  let m : Machine :=
    { m with texture := (wined3d_texture_invalidate_location m.texture sub_resource_idx
        (DWORD_not WINED3D_LOCATION_DIB)) }
  let m := dc_context_release context m
  let m : Machine := { m with texture := set_dib_in_use m.texture sub_resource_idx TRUE }
  let map_count :=
    match sub_resource_old m.texture sub_resource_idx with
    | some surface => surface.resource.map_count
    | none => 0
  let m : Machine :=
    { m with texture := set_map_count m.texture sub_resource_idx ((map_count + 1) % 2 ^ 32) }
  { hr := HRESULT.WINED3D_OK, dc := some (sub_resource_dib m.texture sub_resource_idx).dc, m := m }

/-- Embedding of `wined3d_texture_get_dc`, up to its first `return WINED3D_OK`
(the statements after it are never reached). -/
def wined3d_texture_get_dc (ext : wined3d_externals) (device : wined3d_device) (m : Machine)
    (sub_resource_idx : Nat) : get_dc_result :=
  match wined3d_texture_get_sub_resource m.texture sub_resource_idx with
  | none => { hr := HRESULT.WINED3DERR_INVALIDCALL, dc := none, m := m }
  | some sub_resource =>
    if sub_resource.resource.type ≠ WINED3D_RTYPE_SURFACE then
      { hr := HRESULT.WINED3DERR_INVALIDCALL, dc := none, m := m }
    else if (sub_resource_dib m.texture sub_resource_idx).in_use ≠ 0 then
      { hr := HRESULT.WINEDDERR_DCALREADYCREATED, dc := none, m := m }
    else if sub_resource.resource.map_count ≠ 0 then
      { hr := HRESULT.WINED3DERR_INVALIDCALL, dc := none, m := m }
    else
      let acquired := dc_context_acquire ext device m
      let created := get_dc_create_dib ext sub_resource acquired.2 sub_resource_idx
      if FAILED created.1 then
        { hr := HRESULT.WINED3DERR_INVALIDCALL, dc := none
          m := dc_context_release acquired.1 created.2 }
      else get_dc_finish ext acquired.1 created.2 sub_resource_idx

/-- The block of `wined3d_texture_release_dc` that copies the bitmap back to
the map binding and invalidates the bitmap. -/
def release_dc_sync (ext : wined3d_externals) (device : wined3d_device) (m : Machine)
    (sub_resource_idx map_binding : Nat) : Machine :=
  let acquired := dc_context_acquire ext device m
  let m := acquired.2
  let m : Machine :=
    { texture := ext.surface_load_location (sub_resource_old m.texture sub_resource_idx)
        acquired.1 map_binding m.texture
      calls := m.calls ++ [Call.surface_load_location sub_resource_idx map_binding] }
  let m : Machine :=
    { m with texture := (wined3d_texture_invalidate_location m.texture sub_resource_idx
        WINED3D_LOCATION_DIB) }
  dc_context_release acquired.1 m

/-- Embedding of `wined3d_texture_release_dc`. -/
def wined3d_texture_release_dc (ext : wined3d_externals) (device : wined3d_device) (m : Machine)
    (sub_resource_idx dc : Nat) : HRESULT × Machine :=
  match wined3d_texture_get_sub_resource m.texture sub_resource_idx with
  | none => (HRESULT.WINED3DERR_INVALIDCALL, m)
  | some sub_resource =>
    if sub_resource.resource.type ≠ WINED3D_RTYPE_SURFACE then
      (HRESULT.WINED3DERR_INVALIDCALL, m)
    else if (sub_resource_dib m.texture sub_resource_idx).in_use = 0 then
      (HRESULT.WINEDDERR_NODC, m)
    else if (sub_resource_dib m.texture sub_resource_idx).dc ≠ dc then
      (HRESULT.WINEDDERR_NODC, m)
    else
      let m : Machine :=
        { m with texture := (set_map_count m.texture sub_resource_idx
            ((sub_resource.resource.map_count + 2 ^ 32 - 1) % 2 ^ 32)) }
      let m : Machine := { m with texture := set_dib_in_use m.texture sub_resource_idx FALSE }
      let map_binding := sub_resource.resource.map_binding
      if map_binding = WINED3D_LOCATION_USER_MEMORY
          ∨ (m.texture.flags &&& WINED3D_TEXTURE_PIN_SYSMEM ≠ 0
            ∧ map_binding ≠ WINED3D_LOCATION_DIB) then
        (HRESULT.WINED3D_OK, release_dc_sync ext device m sub_resource_idx map_binding)
      else (HRESULT.WINED3D_OK, m)

/-- What a helper that only moves pixel data and validates locations leaves
alone: the number of levels and layers, and the object and the bitmap of every
slot. -/
def sub_resource_objects (t : wined3d_texture) :
    Nat × Nat × List (Option wined3d_surface × wined3d_texture_dib) :=
  (t.level_count, t.layer_count, t.sub_resources.map (fun sr => (sr.old, sr.dib)))

/-- The number of levels and of layers of a texture. -/
def texture_shape (t : wined3d_texture) : Nat × Nat := (t.level_count, t.layer_count)

/-- Whether a logged call went through the table `texture->texture_ops`. -/
def Call.is_texture_ops_call : Call → Bool
  | Call.texture_sub_resource_load _ _ => true
  | Call.texture_sub_resource_add_dirty_region _ => true
  | Call.texture_sub_resource_cleanup _ => true
  | Call.texture_sub_resource_upload_data _ => true
  | Call.texture_prepare_texture _ => true
  | _ => false

/-- The calls of a log that went through `texture->texture_ops`, in order. -/
def texture_ops_calls (calls : List Call) : List Call :=
  calls.filter Call.is_texture_ops_call

/-- The valid flag of the variant `wined3d_texture_load` does not work with. -/
def load_other_flag (srgb : Nat) : Nat :=
  if BOOL_true srgb then WINED3D_TEXTURE_RGB_VALID else WINED3D_TEXTURE_SRGB_VALID

/-! ## The helpers outside the file, as the design document describes them -/

/-- Modelled from the spec: `ensure(sub_resource, target_location, context)`,
the helper `surface_load_location` of surface.c: "if `target_location` bit
already set, no-op.  Otherwise picks a source location (preferring host memory,
then the other GPU variant, then legacy-bitmap) that is valid, ... performs the
transfer, and validates `target_location`.  Fails ... if no location is
valid". -/
def spec_ensure (sub_resource : Option wined3d_surface) (location : Nat)
    (texture : wined3d_texture) : wined3d_texture :=
  match sub_resource with
  | none => texture
  | some surface =>
    match texture.sub_resources[surface.sub_resource_idx]? with
    | none => texture
    | some sr =>
      if sr.locations &&& location ≠ 0 then texture
      else if sr.locations &&& (WINED3D_LOCATION_SYSMEM ||| WINED3D_LOCATION_TEXTURE_RGB
          ||| WINED3D_LOCATION_TEXTURE_SRGB ||| WINED3D_LOCATION_DIB) ≠ 0 then
        wined3d_texture_validate_location texture surface.sub_resource_idx location
      else texture

/-- Modelled from the spec: the helpers outside texture.c, with load hooks that
only `ensure` the GPU-texture location.  Uploading and preparing map memory
move data and leave the bookkeeping of the texture alone; a new surface starts
out valid in host memory; allocations succeed; the driver hands out `gen_name`
as GL name; a separate sRGB texture is needed when sRGB decoding cannot be
switched and the device was created with sRGB read/write control; unloading a
surface and updating its description leave the bookkeeping of the texture
alone; the swapchain starts out with two references. -/
def spec_helpers (gen_name : Nat) (context : wined3d_context) : wined3d_externals :=
  { needs_separate_srgb_gl_texture := fun c =>
      !c.gl_info.supported gl_extension.EXT_TEXTURE_SRGB_DECODE
        && (c.d3d_info.wined3d_creation_flags &&& WINED3D_SRGB_READ_WRITE_CONTROL != 0)
    context_acquire := fun _ => context
    glGenTextures := fun _ => gen_name
    wined3d_gl_mag_filter := fun state => state
    wined3d_gl_min_mip_filter := fun min_filter mip_filter => 3 * min_filter + mip_filter
    wined3d_get_format := fun id => { (sample_surface 0 1 1).resource.format with id := id }
    wined3d_format_get_color_key_conversion := fun _ _ => none
    wined3d_resource_is_offscreen := fun _ => true
    surface_load := fun sub_resource _ srgb =>
      spec_ensure sub_resource
        (if BOOL_true srgb then WINED3D_LOCATION_TEXTURE_SRGB else WINED3D_LOCATION_TEXTURE_RGB)
    surface_prepare_map_memory := fun _ texture => texture
    surface_load_location := fun sub_resource _ location => spec_ensure sub_resource location
    wined3d_surface_upload_data := fun _ _ texture => texture
    wined3d_volume_load := fun sub_resource _ srgb =>
      spec_ensure sub_resource
        (if BOOL_true srgb then WINED3D_LOCATION_TEXTURE_SRGB else WINED3D_LOCATION_TEXTURE_RGB)
    wined3d_volume_upload_data := fun _ _ texture => texture
    surface_alignment := 4
    wined3d_format_calculate_pitch := fun format alignment width height =>
      ((width * format.byte_count + alignment - 1) / alignment * alignment,
       (width * format.byte_count + alignment - 1) / alignment * alignment * height)
    resource_init := fun desc format =>
      (none,
       { ref := 1, type := desc.resource_type, gl_type := 1, format := format, format_flags := 0,
         multisample_type := desc.multisample_type,
         multisample_quality := desc.multisample_quality, usage := desc.usage,
         pool := desc.pool, width := desc.width, height := desc.height, depth := desc.depth,
         map_binding := WINED3D_LOCATION_SYSMEM, map_count := 0, bind_count := 0 })
    wined3d_surface_create := fun texture desc target level layer _ =>
      { hr_failed := none
        object :=
          { resource :=
              { (sample_surface 0 desc.width desc.height).resource with
                type := WINED3D_RTYPE_SURFACE, usage := desc.usage, pool := desc.pool }
            sub_resource_idx := layer * texture.level_count + level
            texture_target := target, texture_level := level
            pow2Width := desc.width, pow2Height := desc.height, pbo := 0 }
        update := fun idx slot =>
          if idx = layer * texture.level_count + level then
            { slot with locations := slot.locations ||| WINED3D_LOCATION_SYSMEM }
          else slot }
    wined3d_volume_create := fun _ desc level =>
      { hr_failed := none
        object :=
          { resource :=
              { (sample_surface 0 desc.width desc.height).resource with
                type := WINED3D_RTYPE_VOLUME, usage := desc.usage, pool := desc.pool,
                depth := desc.depth }
            sub_resource_idx := level
            texture_target := GL_TEXTURE_3D, texture_level := level
            pow2Width := desc.width, pow2Height := desc.height, pbo := 0 }
        update := fun _ slot => slot }
    HeapAlloc := fun _ => true
    CreateDIBSection := fun calls => (calls.length + 1, calls.length + 1)
    CreateCompatibleDC := fun calls => calls.length + 1
    GetLastError := fun _ => 8
    wined3d_format_calculate_size := fun format alignment width height depth =>
      (width * format.byte_count + alignment - 1) / alignment * alignment * height * depth
    sub_resource_unload := fun _ texture => texture
    wined3d_surface_update_desc := fun _ texture => (none, texture)
    wined3d_swapchain_incref := fun _ calls =>
      2 + (calls.filter (fun c => c matches Call.wined3d_swapchain_incref _)).length
    wined3d_swapchain_decref := fun _ calls =>
      1 - (calls.filter (fun c => c matches Call.wined3d_swapchain_decref _)).length }

/-- Modelled from the spec: the load hook of a sub-resource (`surface_load`,
`wined3d_volume_load`), which "synchronizes every sub-resource to the requested
GPU-texture location".  "Setting any GPU-texture location bit requires the
corresponding GPU Texture Object to exist and be properly sized/leveled first":
the hook first prepares the texture with `wined3d_texture_prepare_texture`
(`ext` are the helpers that function calls; the calls it makes are the hook's
own and are not logged) and then follows `ensure`. -/
def spec_load (ext : wined3d_externals) (sub_resource : Option wined3d_surface)
    (context : wined3d_context) (srgb : Nat) (texture : wined3d_texture) : wined3d_texture :=
  spec_ensure sub_resource
    (if BOOL_true srgb then WINED3D_LOCATION_TEXTURE_SRGB else WINED3D_LOCATION_TEXTURE_RGB)
    (wined3d_texture_prepare_texture ext context srgb { texture := texture, calls := [] }).texture

/-- Modelled from the spec: the helpers outside texture.c.  Loading prepares
the texture and then follows `ensure`; the other helpers are those of
`spec_helpers`. -/
def spec_externals (gen_name : Nat) (context : wined3d_context) : wined3d_externals :=
  { spec_helpers gen_name context with
    surface_load := fun sub_resource c srgb =>
      spec_load (spec_helpers gen_name context) sub_resource c srgb
    wined3d_volume_load := fun sub_resource c srgb =>
      spec_load (spec_helpers gen_name context) sub_resource c srgb }

/-- A context of a device with the given capabilities. -/
def sample_context (srgb_decode : Bool) (shader_color_key creation_flags : Nat) :
    wined3d_context :=
  { gl_info :=
      { supported := fun e =>
          match e with
          | gl_extension.EXT_TEXTURE_SRGB_DECODE => srgb_decode
          | gl_extension.WINED3D_GL_LEGACY_CONTEXT => false
          | _ => true
        wrap_lookup := fun i => i }
    d3d_info := { shader_color_key := shader_color_key, wined3d_creation_flags := creation_flags }
    rev_tex_unit_map := fun unit => unit
    active_texture := 0 }

/-- The sample texture with a source-blit colour key set after the last load:
`WINED3D_CKEY_SRC_BLT` is on while `WINED3D_TEXTURE_ASYNC_COLOR_KEY` is off. -/
def sample_texture_color_key (levels flags locations : Nat) : wined3d_texture :=
  { sample_texture levels flags locations with
    async := { flags := 0, color_key_flags := WINED3D_CKEY_SRC_BLT,
               gl_color_key := { color_space_low_value := 0, color_space_high_value := 0 },
               src_blt_color_key := { color_space_low_value := 5, color_space_high_value := 5 } } }

/-- The description of scenario A: a 4x4 2D texture in the default pool. -/
def scenario_desc : wined3d_resource_desc :=
  { resource_type := WINED3D_RTYPE_TEXTURE_2D, format := 87, multisample_type := 0,
    multisample_quality := 0, usage := 0, pool := 0, width := 4, height := 4, depth := 1,
    size := 0 }

/-- Initial data for one sub-resource of the texture of scenario A. -/
def scenario_data : List wined3d_sub_resource_data :=
  [{ data := 1, row_pitch := 16, slice_pitch := 64 }]

/-- A one-level 3D texture with an allocated linear GL texture object, its
volume current in system memory and in that GL texture, with a source-blit
colour key set after the last load. -/
def sample_volume_texture_color_key : wined3d_texture :=
  { sample_texture_color_key 1 WINED3D_TEXTURE_RGB_ALLOCATED
      (WINED3D_LOCATION_SYSMEM ||| WINED3D_LOCATION_TEXTURE_RGB) with
    texture_ops := wined3d_texture_ops.texture3d_ops, target := GL_TEXTURE_3D
    texture_rgb := { zero_gl_texture with name := 7 } }

/-- A sub-resource without a legacy bitmap. -/
def zero_dib : wined3d_texture_dib := { dc := 0, dib_section := 0, bitmap_data := 0, in_use := 0 }

/-- A one-level 4x4 2D texture of a format that supports `GetDC`, current in
system memory; its only sub-resource is an object of resource type `type` with
the given map binding and map count and the legacy bitmap `dib`. -/
def sample_dc_texture (flags type map_binding map_count : Nat) (dib : wined3d_texture_dib) :
    wined3d_texture :=
  { sample_texture 1 flags WINED3D_LOCATION_SYSMEM with
    resource := { (sample_surface 0 4 4).resource with format_flags := WINED3DFMT_FLAG_GETDC }
    sub_resources :=
      [{ old := some { sample_surface 0 4 4 with
           resource := { (sample_surface 0 4 4).resource with
             type := type, map_binding := map_binding, map_count := map_count } }
         locations := WINED3D_LOCATION_SYSMEM
         dib := dib }] }

/-- A one-level 3D texture whose only sub-resource is a volume, without a
legacy bitmap. -/
def sample_volume_dc_texture : wined3d_texture :=
  { sample_dc_texture 0 WINED3D_RTYPE_VOLUME WINED3D_LOCATION_SYSMEM 0 zero_dib with
    texture_ops := wined3d_texture_ops.texture3d_ops, target := GL_TEXTURE_3D }

/-- A device on which Direct3D has been initialised. -/
def sample_device : wined3d_device := { d3d_initialized := TRUE }

/-- The sample texture after a successful `wined3d_texture_get_dc` on its
sub-resource, with the helpers outside the file as the design document
describes them. -/
def sample_dc_checked_out (flags : Nat) (dib : wined3d_texture_dib) : Machine :=
  (wined3d_texture_get_dc (spec_externals 7 (sample_context true 0 0)) sample_device
    { texture := sample_dc_texture flags WINED3D_RTYPE_SURFACE WINED3D_LOCATION_SYSMEM 0 dib
      calls := [] } 0).m

/-- The description of a legacy cubemap with 4x4 faces. -/
def sample_cube_desc : wined3d_resource_desc :=
  { scenario_desc with usage := WINED3DUSAGE_LEGACY_CUBEMAP }

/-- The helpers outside the file as the design document describes them, except
that the surface of level `level` and layer `layer`, and the volume of level
`level`, cannot be created: the constructor fails with `E_OUTOFMEMORY`. -/
def failing_create_externals (level layer : Nat) : wined3d_externals :=
  { spec_externals 7 (sample_context true 0 0) with
    wined3d_surface_create := fun texture desc target l j flags =>
      { (spec_externals 7 (sample_context true 0 0)).wined3d_surface_create texture desc target l j
          flags with
        hr_failed := if l = level ∧ j = layer then some 0x8007000E else none }
    wined3d_volume_create := fun texture desc l =>
      { (spec_externals 7 (sample_context true 0 0)).wined3d_volume_create texture desc l with
        hr_failed := if l = level then some 0x8007000E else none } }

/-- The capabilities of a device without `ARB_TEXTURE_NON_POWER_OF_TWO`, with
or without `WINED3D_GL_NORMALIZED_TEXRECT`. -/
def sample_gl_info_pow2 (normalized_texrect : Bool) : wined3d_gl_info :=
  { supported := fun e =>
      match e with
      | gl_extension.ARB_TEXTURE_NON_POWER_OF_TWO => false
      | gl_extension.WINED3D_GL_NORMALIZED_TEXRECT => normalized_texrect
      | _ => true
    wrap_lookup := fun i => i }

/-- The members of a texture that say how its coordinates are scaled: the
flags, the coordinate matrix and the GL target. -/
def texture_coordinates (t : wined3d_texture) : Nat × wined3d_pow2_matrix × GLenum :=
  (t.flags, t.pow2_matrix, t.target)

/-! ## Level of detail, mipmap generation and dirty regions -/

/-- Modelled from the spec: the "managed" pool class of enum wined3d_pool (wined3d.h). -/
def WINED3D_POOL_MANAGED : Nat := 1

/-- Embedding of `wined3d_texture_set_lod`: the value returned and the state
the call leaves. -/
def wined3d_texture_set_lod (m : Machine) (lod : Nat) : Nat × Machine :=
  let texture := m.texture
  let old := texture.lod
  if texture.resource.pool ≠ WINED3D_POOL_MANAGED then (0, m)
  else
    let lod :=
      if lod ≥ texture.level_count then (texture.level_count + 2 ^ 32 - 1) % 2 ^ 32 else lod
    if texture.lod ≠ lod then
      let texture : wined3d_texture :=
        { texture with
          lod := lod
          texture_rgb := { texture.texture_rgb with base_level := DWORD_not 0 }
          texture_srgb := { texture.texture_srgb with base_level := DWORD_not 0 } }
      let calls :=
        if texture.resource.bind_count ≠ 0 then
          m.calls ++ [Call.device_invalidate_state (wined3d_state.STATE_SAMPLER texture.sampler)]
        else m.calls
      (old, { texture := texture, calls := calls })
    else (old, m)

/-- Embedding of `wined3d_texture_get_lod`. -/
def wined3d_texture_get_lod (texture : wined3d_texture) : Nat := texture.lod

/-- A sequence of `wined3d_texture_set_lod` calls with the requested levels
`lods`, first to last: the resulting state. -/
def set_lod_sequence (m : Machine) (lods : List Nat) : Machine :=
  lods.foldl (fun m lod => (wined3d_texture_set_lod m lod).2) m

/-- Embedding of `wined3d_texture_generate_mipmaps`, a `void` function whose
body is a debug message. -/
def wined3d_texture_generate_mipmaps (m : Machine) : Unit × Machine := ((), m)

/-- Embedding of `wined3d_texture_add_dirty_region`; the index
`layer * texture->level_count` is a `UINT` product. -/
def wined3d_texture_add_dirty_region (ext : wined3d_externals) (m : Machine) (layer : Nat) :
    HRESULT × Machine :=
  let idx := (layer * m.texture.level_count) % 2 ^ 32
  match wined3d_texture_get_sub_resource m.texture idx with
  | none => (HRESULT.WINED3DERR_INVALIDCALL, m)
  | some _ => (HRESULT.WINED3D_OK, texture_sub_resource_add_dirty_region ext m idx)

/-- An 8x2 2D texture with three mip levels (8x2, 4x1, 2x1) of a format that
supports `GetDC`, current in system memory, without legacy bitmaps. -/
def sample_mip_dc_texture : wined3d_texture :=
  { sample_texture 3 0 WINED3D_LOCATION_SYSMEM with
    resource :=
      { (sample_surface 0 8 2).resource with format_flags := WINED3DFMT_FLAG_GETDC }
    sub_resources := (List.range 3).map (fun i =>
      { old := some (sample_surface i (max 1 (8 >>> i)) (max 1 (2 >>> i)))
        locations := WINED3D_LOCATION_SYSMEM
        dib := zero_dib }) }

/-- A cube texture with 4x4 faces and one mip level, six sub-resources, of a
format that supports `GetDC`. -/
def sample_cube_dc_texture : wined3d_texture :=
  { sample_texture 1 0 WINED3D_LOCATION_SYSMEM with
    resource :=
      { (sample_surface 0 4 4).resource with format_flags := WINED3DFMT_FLAG_GETDC }
    target := GL_TEXTURE_CUBE_MAP_ARB
    layer_count := 6
    sub_resources := (List.range 6).map (fun i =>
      { old := some (sample_surface i 4 4)
        locations := WINED3D_LOCATION_SYSMEM
        dib := zero_dib }) }

/-! ## Reference counting -/

/-- Embedding of `wined3d_texture_incref`: the value returned and the state the
call leaves.  `InterlockedIncrement` works on a 32-bit count. -/
def wined3d_texture_incref (ext : wined3d_externals) (m : Machine) : Nat × Machine :=
  match m.texture.swapchain with
  | some swapchain =>
    (ext.wined3d_swapchain_incref swapchain m.calls,
     m.call (Call.wined3d_swapchain_incref swapchain))
  | none =>
    let refcount := (m.texture.resource.ref + 1) % 2 ^ 32
    (refcount,
     { m with texture := { m.texture with
         resource := { m.texture.resource with ref := refcount } } })

/-- Embedding of `wined3d_texture_decref`.  At a count of zero the texture is
cleaned up, its parent is told (`wined3d_object_destroyed`) and its memory is
released (`HeapFree`). -/
def wined3d_texture_decref (ext : wined3d_externals) (m : Machine) : Nat × Machine :=
  match m.texture.swapchain with
  | some swapchain =>
    (ext.wined3d_swapchain_decref swapchain m.calls,
     m.call (Call.wined3d_swapchain_decref swapchain))
  | none =>
    let refcount := (m.texture.resource.ref + 2 ^ 32 - 1) % 2 ^ 32
    let m : Machine :=
      { m with texture := { m.texture with
          resource := { m.texture.resource with ref := refcount } } }
    if refcount = 0 then
      let m := wined3d_texture_cleanup m
      let m := m.call Call.wined3d_object_destroyed
      (refcount, m.call Call.HeapFree)
    else (refcount, m)

/-! ## Unloading and redescribing a texture -/

/-- One round of the loop of `wined3d_texture_unload`:
`sub_resource->resource_ops->resource_unload(sub_resource)`.  A `NULL` slot has
no table to call through: no result. -/
def unload_sub_resource (ext : wined3d_externals) (m : Option Machine) (idx : Nat) :
    Option Machine :=
  m.bind (fun m =>
    match sub_resource_old m.texture idx with
    | none => none
    | some sub_resource =>
      some { texture := ext.sub_resource_unload (some sub_resource) m.texture
             calls := m.calls ++ [Call.sub_resource_unload idx] })

/-- Embedding of `wined3d_texture_unload`, the member `resource_unload` of
`texture_resource_ops`. -/
def wined3d_texture_unload (ext : wined3d_externals) (m : Machine) : Option Machine :=
  let sub_count := sub_count m.texture
  ((List.range sub_count).foldl (unload_sub_resource ext) (some m)).map (fun m =>
    wined3d_texture_unload_gl_texture
      { m with texture := wined3d_texture_force_reload m.texture })

/-- The tail of `wined3d_texture_update_desc`, from the release of the old
bitmap to the call of `wined3d_surface_update_desc`. -/
def update_desc_store (ext : wined3d_externals) (m : Machine)
    (width height : Nat) (format : wined3d_format)
    (multisample_type multisample_quality mem pitch : Nat) : HRESULT × Machine :=
  let dib := sub_resource_dib m.texture 0
  let create_dib := dib.dib_section ≠ 0
  let m : Machine :=
    if create_dib then
      { texture := { m.texture with
          sub_resources := (List.modify
            (fun sr => { sr with dib := { sr.dib with bitmap_data := 0 } })
            0 m.texture.sub_resources) }
        calls := m.calls ++ [Call.DeleteDC dib.dc, Call.DeleteObject dib.dib_section] }
    else m
  let texture : wined3d_texture :=
    { m.texture with
      resource := { m.texture.resource with
        format := format
        multisample_type := multisample_type
        multisample_quality := multisample_quality
        width := width
        height := height }
      user_memory := mem
      row_pitch := pitch }
  let texture : wined3d_texture :=
    if pitch ≠ 0 then { texture with slice_pitch := (height * pitch) % 2 ^ 32 }
    else
      { texture with
        row_pitch := (ext.wined3d_format_calculate_pitch format 1 width height).1
        slice_pitch := (ext.wined3d_format_calculate_pitch format 1 width height).2 }
  let m : Machine := { m with texture := texture }
  let r : HRESULT × Machine :=
    if create_dib then wined3d_texture_create_dib_section ext m 0
    else (HRESULT.WINED3D_OK, m)
  if create_dib ∧ FAILED r.1 = true then r
  else
    let m := r.2
    let u := ext.wined3d_surface_update_desc (sub_resource_old m.texture 0) m.texture
    (HRESULT.of_helper u.1,
     { texture := u.2, calls := m.calls ++ [Call.wined3d_surface_update_desc 0] })

/-- Embedding of `wined3d_texture_update_desc`.  There is no result (`none`)
where the C code divides by a byte count of 0 or reads through the `NULL`
pointer of an empty slot 0. -/
def wined3d_texture_update_desc (ext : wined3d_externals) (device : wined3d_device)
    (m : Machine) (width height format_id multisample_type multisample_quality mem pitch : Nat) :
    Option (HRESULT × Machine) :=
  let format := ext.wined3d_get_format format_id
  let resource_size :=
    ext.wined3d_format_calculate_size format ext.surface_alignment width height 1
  if resource_size = 0 then some (HRESULT.WINED3DERR_INVALIDCALL, m)
  else if sub_count m.texture > 1 then some (HRESULT.WINED3DERR_INVALIDCALL, m)
  else if m.texture.resource.type = WINED3D_RTYPE_TEXTURE_3D then
    some (HRESULT.WINED3DERR_INVALIDCALL, m)
  else if m.texture.resource.format.byte_count = 0 then none
  else if pitch % m.texture.resource.format.byte_count ≠ 0 then
    some (HRESULT.WINED3DERR_INVALIDCALL, m)
  else
    match sub_resource_old m.texture 0 with
    | none => none
    | some surface =>
      if surface.resource.map_count ≠ 0 ∨ (sub_resource_dib m.texture 0).in_use ≠ 0 then
        some (HRESULT.WINED3DERR_INVALIDCALL, m)
      else
        let unloaded :=
          if device.d3d_initialized ≠ 0 then wined3d_texture_unload ext m else some m
        unloaded.map (fun m =>
          update_desc_store ext m width height format multisample_type multisample_quality
            mem pitch)

/-- A one-level 4x4 2D texture of a format with two bytes per pixel
(`WINED3DFMT_B5G6R5_UNORM`), current in system memory, not mapped and without a
legacy bitmap. -/
def sample_texture_16bpp : wined3d_texture :=
  { sample_texture 1 0 WINED3D_LOCATION_SYSMEM with
    resource :=
      { (sample_surface 0 4 4).resource with
        type := WINED3D_RTYPE_TEXTURE_2D
        format := { (sample_surface 0 4 4).resource.format with id := 85, byte_count := 2 } } }

/-- The helpers of the design document on a system where `CreateDIBSection`
gives no bitmap and `GetLastError` then reports `code`. -/
def failing_dib_externals (code : Nat) : wined3d_externals :=
  { spec_externals 7 (sample_context true 0 0) with
    CreateDIBSection := fun _ => (0, 0)
    GetLastError := fun _ => code }

/-! ## The location invariant -/

/-- Slot `i` of the sub-resource array is in order: it holds at least one
location, and the object it stores, if any, knows `i` as its own index and has a
single location bit as its map binding. -/
def slot_located (i : Nat) (sr : wined3d_sub_resource) : Prop :=
  sr.locations ≠ 0
    ∧ ∀ s, sr.old = some s →
        s.sub_resource_idx = i ∧ ∃ k, k < 32 ∧ s.resource.map_binding = 2 ^ k

/-- The location invariant of a texture: every slot of its sub-resource array
is in order; in particular every sub-resource holds at least one location. -/
def texture_located (t : wined3d_texture) : Prop :=
  ∀ i sr, t.sub_resources[i]? = some sr → slot_located i sr

/-- Whether `wined3d_texture_prepare_texture` forces a reload in this state: a
colour-key usage toggle is pending on a device that does not key in shaders. -/
def reload_pending (context : wined3d_context) (t : wined3d_texture) : Bool :=
  !BOOL_true context.d3d_info.shader_color_key && color_key_toggled t

theorem testBit_DWORD_not (x k : Nat) :
    (DWORD_not x).testBit k = (decide (k < 32) && !x.testBit k) := by
  unfold DWORD_not
  rw [Nat.testBit_xor, Nat.testBit_two_pow_sub_one, Nat.testBit_mod_two_pow]
  by_cases hk : k < 32 <;> simp [hk]

theorem and_DWORD_not_testBit (a m k : Nat) (hk : k < 32) :
    (a &&& DWORD_not m).testBit k = (a.testBit k && !m.testBit k) := by
  rw [Nat.testBit_and, testBit_DWORD_not]
  simp [hk]

/-- Clearing the bits of `m` leaves no bit of a sub-mask `c` of `m`. -/
theorem and_DWORD_not_and_eq_zero (a m c : Nat) (hc : c &&& DWORD_not m = 0) :
    (a &&& DWORD_not m) &&& c = 0 := by
  rw [Nat.and_assoc, Nat.and_comm (DWORD_not m) c, hc, Nat.and_zero]

/-! ## Location bookkeeping: facts -/

theorem set_dirty_flags (t : wined3d_texture) :
    (wined3d_texture_set_dirty t).flags &&& WINED3D_TEXTURE_RGB_VALID = 0
      ∧ (wined3d_texture_set_dirty t).flags &&& WINED3D_TEXTURE_SRGB_VALID = 0 := by
  constructor <;>
    exact and_DWORD_not_and_eq_zero _ _ _ (by decide)

theorem invalidate_location_sub_resources (t : wined3d_texture) (i m : Nat) :
    (wined3d_texture_invalidate_location t i m).sub_resources
      = List.modify (fun sr => { sr with locations := sr.locations &&& DWORD_not m })
          i t.sub_resources := by
  unfold wined3d_texture_invalidate_location
  by_cases h : m &&& (WINED3D_LOCATION_TEXTURE_RGB ||| WINED3D_LOCATION_TEXTURE_SRGB) ≠ 0
  · simp [h, wined3d_texture_set_dirty]
  · simp [h]

theorem invalidate_location_flags (t : wined3d_texture) (i m : Nat) :
    (wined3d_texture_invalidate_location t i m).flags
      = if m &&& (WINED3D_LOCATION_TEXTURE_RGB ||| WINED3D_LOCATION_TEXTURE_SRGB) ≠ 0
        then (wined3d_texture_set_dirty t).flags else t.flags := by
  unfold wined3d_texture_invalidate_location
  by_cases h : m &&& (WINED3D_LOCATION_TEXTURE_RGB ||| WINED3D_LOCATION_TEXTURE_SRGB) ≠ 0
  · simp [h]
  · simp [h]

/-- C1: `wined3d_texture_invalidate_location(texture, i, m)` on an in-range
index `i` removes exactly the bits of `m` from the location set of sub-resource
`i` (its other members stay), leaves every other sub-resource as it was, clears
both `WINED3D_TEXTURE_RGB_VALID` and `WINED3D_TEXTURE_SRGB_VALID` when `m`
intersects `TEXTURE_RGB | TEXTURE_SRGB`, and leaves the texture flags unchanged
when it does not. -/
theorem invalidate_location_contract (t : wined3d_texture) (i m : Nat)
    (hi : i < t.sub_resources.length) :
    (∃ sr sr2, t.sub_resources[i]? = some sr
        ∧ (wined3d_texture_invalidate_location t i m).sub_resources[i]? = some sr2
        ∧ (∀ k, k < 32 → sr2.locations.testBit k = (sr.locations.testBit k && !m.testBit k))
        ∧ sr2.old = sr.old ∧ sr2.dib = sr.dib)
    ∧ (∀ j, j ≠ i →
        (wined3d_texture_invalidate_location t i m).sub_resources[j]? = t.sub_resources[j]?)
    ∧ (m &&& (WINED3D_LOCATION_TEXTURE_RGB ||| WINED3D_LOCATION_TEXTURE_SRGB) ≠ 0 →
        (wined3d_texture_invalidate_location t i m).flags &&& WINED3D_TEXTURE_RGB_VALID = 0
        ∧ (wined3d_texture_invalidate_location t i m).flags &&& WINED3D_TEXTURE_SRGB_VALID = 0)
    ∧ (m &&& (WINED3D_LOCATION_TEXTURE_RGB ||| WINED3D_LOCATION_TEXTURE_SRGB) = 0 →
        (wined3d_texture_invalidate_location t i m).flags = t.flags) := by
  refine ⟨?_, ?_, ?_, ?_⟩
  · refine ⟨t.sub_resources[i],
      { t.sub_resources[i] with locations := t.sub_resources[i].locations &&& DWORD_not m },
      (List.getElem?_eq_getElem hi), ?_, ?_, rfl, rfl⟩
    · rw [invalidate_location_sub_resources, List.getElem?_modify_eq,
        List.getElem?_eq_getElem hi]
      rfl
    · intro k hk
      exact and_DWORD_not_testBit _ _ _ hk
  · intro j hj
    rw [invalidate_location_sub_resources, List.getElem?_modify_ne _ _ (Ne.symm hj)]
  · intro hm
    rw [invalidate_location_flags, if_pos hm]
    exact set_dirty_flags t
  · intro hm
    rw [invalidate_location_flags, if_neg (by simpa using hm)]

/-- Witness of C1: sub-resource 0 of a one-level texture that holds `SYSMEM`
and `TEXTURE_RGB`, invalidated with the mask `TEXTURE_RGB`. -/
theorem invalidate_location_contract_witness :
    (wined3d_texture_invalidate_location
        (sample_texture 1 WINED3D_TEXTURE_RGB_VALID
          (WINED3D_LOCATION_SYSMEM ||| WINED3D_LOCATION_TEXTURE_RGB))
        0 WINED3D_LOCATION_TEXTURE_RGB).flags &&& WINED3D_TEXTURE_RGB_VALID = 0 :=
  ((invalidate_location_contract
      (sample_texture 1 WINED3D_TEXTURE_RGB_VALID
        (WINED3D_LOCATION_SYSMEM ||| WINED3D_LOCATION_TEXTURE_RGB))
      0 WINED3D_LOCATION_TEXTURE_RGB (by decide)).2.2.1 (by decide)).1

/-- The loop of `wined3d_texture_force_reload` over the first `n` sub-resources. -/
theorem invalidate_range_sub_resources (m n : Nat) (t : wined3d_texture) (j : Nat) :
    ((List.range n).foldl (fun t i => wined3d_texture_invalidate_location t i m) t).sub_resources[j]?
      = if j < n then
          (t.sub_resources[j]?).map (fun sr => { sr with locations := sr.locations &&& DWORD_not m })
        else t.sub_resources[j]? := by
  induction n with
  | zero => simp
  | succ n ih =>
    rw [List.range_succ, List.foldl_append]
    simp only [List.foldl_cons, List.foldl_nil]
    rw [invalidate_location_sub_resources]
    by_cases hj : j = n
    · subst hj
      rw [List.getElem?_modify_eq, ih]
      simp
    · rw [List.getElem?_modify_ne _ _ (Ne.symm hj), ih]
      by_cases hlt : j < n
      · simp [hlt, Nat.lt_succ_of_lt hlt]
      · have : ¬ j < n + 1 := by omega
        simp [hlt, this]

theorem invalidate_range_flags (m n : Nat) (t : wined3d_texture)
    (hm : m &&& (WINED3D_LOCATION_TEXTURE_RGB ||| WINED3D_LOCATION_TEXTURE_SRGB) ≠ 0) :
    ((List.range n).foldl (fun t i => wined3d_texture_invalidate_location t i m) t).flags
      = if n = 0 then t.flags else (wined3d_texture_set_dirty t).flags := by
  induction n with
  | zero => simp
  | succ n ih =>
    rw [List.range_succ, List.foldl_append]
    simp only [List.foldl_cons, List.foldl_nil]
    rw [invalidate_location_flags, if_pos hm]
    simp only [wined3d_texture_set_dirty, ih]
    by_cases hn : n = 0
    · simp [hn]
    · simp [hn, Nat.and_assoc]

/-- C7: `wined3d_texture_force_reload` clears both allocation flags, removes
`TEXTURE_RGB` and `TEXTURE_SRGB` from the location set of every sub-resource
below `level_count * layer_count` and leaves every other location bit of every
sub-resource as it was; a texture with at least one sub-resource has both valid
flags clear afterwards. -/
theorem force_reload_contract (t : wined3d_texture)
    (h32 : t.level_count * t.layer_count < 2 ^ 32) :
    (wined3d_texture_force_reload t).flags &&& WINED3D_TEXTURE_RGB_ALLOCATED = 0
    ∧ (wined3d_texture_force_reload t).flags &&& WINED3D_TEXTURE_SRGB_ALLOCATED = 0
    ∧ (0 < t.level_count * t.layer_count →
        (wined3d_texture_force_reload t).flags &&& WINED3D_TEXTURE_RGB_VALID = 0
        ∧ (wined3d_texture_force_reload t).flags &&& WINED3D_TEXTURE_SRGB_VALID = 0)
    ∧ (∀ i sr, i < t.level_count * t.layer_count → t.sub_resources[i]? = some sr →
        ∃ sr2, (wined3d_texture_force_reload t).sub_resources[i]? = some sr2
          ∧ sr2.locations &&& WINED3D_LOCATION_TEXTURE_RGB = 0
          ∧ sr2.locations &&& WINED3D_LOCATION_TEXTURE_SRGB = 0
          ∧ (∀ k, k < 32 →
              (WINED3D_LOCATION_TEXTURE_RGB ||| WINED3D_LOCATION_TEXTURE_SRGB).testBit k = false →
              sr2.locations.testBit k = sr.locations.testBit k)
          ∧ sr2.old = sr.old ∧ sr2.dib = sr.dib)
    ∧ (∀ i, t.level_count * t.layer_count ≤ i →
        (wined3d_texture_force_reload t).sub_resources[i]? = t.sub_resources[i]?) := by
  have hsc : sub_count t = t.level_count * t.layer_count := Nat.mod_eq_of_lt h32
  have hm : (WINED3D_LOCATION_TEXTURE_RGB ||| WINED3D_LOCATION_TEXTURE_SRGB)
      &&& (WINED3D_LOCATION_TEXTURE_RGB ||| WINED3D_LOCATION_TEXTURE_SRGB) ≠ 0 := by decide
  have hflags := invalidate_range_flags
    (WINED3D_LOCATION_TEXTURE_RGB ||| WINED3D_LOCATION_TEXTURE_SRGB) (sub_count t)
  unfold wined3d_texture_force_reload
  refine ⟨?_, ?_, ?_, ?_, ?_⟩
  · rw [hflags _ hm]
    by_cases hn : sub_count t = 0
    · simp only [hn, if_true]
      exact and_DWORD_not_and_eq_zero _ _ _ (by decide)
    · simp only [hn, if_false, wined3d_texture_set_dirty]
      rw [Nat.and_assoc, Nat.and_assoc]
      rw [show DWORD_not (WINED3D_TEXTURE_RGB_ALLOCATED ||| WINED3D_TEXTURE_SRGB_ALLOCATED
            ||| WINED3D_TEXTURE_CONVERTED)
          &&& (DWORD_not (WINED3D_TEXTURE_RGB_VALID ||| WINED3D_TEXTURE_SRGB_VALID)
            &&& WINED3D_TEXTURE_RGB_ALLOCATED) = 0 by decide]
      exact Nat.and_zero _
  · rw [hflags _ hm]
    by_cases hn : sub_count t = 0
    · simp only [hn, if_true]
      exact and_DWORD_not_and_eq_zero _ _ _ (by decide)
    · simp only [hn, if_false, wined3d_texture_set_dirty]
      rw [Nat.and_assoc, Nat.and_assoc]
      rw [show DWORD_not (WINED3D_TEXTURE_RGB_ALLOCATED ||| WINED3D_TEXTURE_SRGB_ALLOCATED
            ||| WINED3D_TEXTURE_CONVERTED)
          &&& (DWORD_not (WINED3D_TEXTURE_RGB_VALID ||| WINED3D_TEXTURE_SRGB_VALID)
            &&& WINED3D_TEXTURE_SRGB_ALLOCATED) = 0 by decide]
      exact Nat.and_zero _
  · intro hpos
    have hn : sub_count t ≠ 0 := by omega
    rw [hflags _ hm]
    simp only [hn, if_false]
    exact set_dirty_flags _
  · intro i sr hi hsr
    refine ⟨{ sr with
        locations := (sr.locations &&& DWORD_not
          (WINED3D_LOCATION_TEXTURE_RGB ||| WINED3D_LOCATION_TEXTURE_SRGB)) },
      ?_, ?_, ?_, ?_, rfl, rfl⟩
    · rw [invalidate_range_sub_resources, hsc, if_pos hi]
      simp [hsr]
    · exact and_DWORD_not_and_eq_zero _ _ _ (by decide)
    · exact and_DWORD_not_and_eq_zero _ _ _ (by decide)
    · intro k hk hbit
      show (sr.locations &&& DWORD_not _).testBit k = _
      rw [and_DWORD_not_testBit _ _ _ hk, hbit]
      simp
  · intro i hi
    rw [invalidate_range_sub_resources, hsc, if_neg (by omega)]

/-- Witness of C7: a two-level texture with both valid flags and both allocation
flags set. -/
theorem force_reload_contract_witness :
    (wined3d_texture_force_reload (sample_texture 2 0x78 0x62)).flags
      &&& WINED3D_TEXTURE_RGB_ALLOCATED = 0 :=
  (force_reload_contract (sample_texture 2 0x78 0x62) (by decide)).1

/-! ## GL texture objects: facts -/

theorem and_or_of_disjoint (f a c : Nat) (h : a &&& c = 0) : (f ||| a) &&& c = f &&& c := by
  rw [Nat.and_comm, Nat.and_or_distrib_left, Nat.and_comm c a, h, Nat.or_zero, Nat.and_comm]

theorem and_DWORD_not_of_kept (f m c : Nat) (h : DWORD_not m &&& c = c) :
    (f &&& DWORD_not m) &&& c = f &&& c := by
  rw [Nat.and_assoc, h]

theorem get_set_gl_texture (t : wined3d_texture) (srgb : Nat) (g : gl_texture) :
    wined3d_texture_get_gl_texture (wined3d_texture_set_gl_texture t srgb g) srgb = g := by
  unfold wined3d_texture_get_gl_texture wined3d_texture_set_gl_texture
  by_cases h : BOOL_true srgb <;> simp [h]

theorem set_gl_texture_flags (t : wined3d_texture) (srgb : Nat) (g : gl_texture) :
    (wined3d_texture_set_gl_texture t srgb g).flags = t.flags := by
  unfold wined3d_texture_set_gl_texture
  by_cases h : BOOL_true srgb <;> simp [h]

/-- The texture `wined3d_texture_bind` works on once it has recorded the
variant in `WINED3D_TEXTURE_IS_SRGB`. -/
theorem bind_flags_cond_np2 (flags srgb : Nat) :
    ((if BOOL_true srgb then flags ||| WINED3D_TEXTURE_IS_SRGB
        else flags &&& DWORD_not WINED3D_TEXTURE_IS_SRGB)
      &&& DWORD_not (WINED3D_TEXTURE_RGB_VALID ||| WINED3D_TEXTURE_SRGB_VALID))
      &&& WINED3D_TEXTURE_COND_NP2 = flags &&& WINED3D_TEXTURE_COND_NP2 := by
  rw [and_DWORD_not_of_kept _ _ _ (by decide)]
  cases h : BOOL_true srgb
  · simp only [Bool.false_eq_true, if_false]
    exact and_DWORD_not_of_kept _ _ _ (by decide)
  · simp only [if_true]
    exact and_or_of_disjoint _ _ _ (by decide)

theorem get_gl_texture_flags_irrelevant (t : wined3d_texture) (flags srgb : Nat) :
    wined3d_texture_get_gl_texture { t with flags := flags } srgb
      = wined3d_texture_get_gl_texture t srgb := by
  unfold wined3d_texture_get_gl_texture
  cases BOOL_true srgb <;> rfl

/-- What `wined3d_texture_bind` leaves when the selected GL texture object has
no handle and the driver hands out a name. -/
theorem bind_new_texture_eq (ext : wined3d_externals) (context : wined3d_context) (srgb : Nat)
    (m : Machine)
    (hname : (wined3d_texture_get_gl_texture m.texture (effective_srgb ext context srgb)).name = 0)
    (hgen : ext.glGenTextures m.calls ≠ 0) :
    ∃ t : wined3d_texture,
      t.flags &&& WINED3D_TEXTURE_RGB_VALID = 0 ∧ t.flags &&& WINED3D_TEXTURE_SRGB_VALID = 0
      ∧ t.flags &&& WINED3D_TEXTURE_COND_NP2 = m.texture.flags &&& WINED3D_TEXTURE_COND_NP2
      ∧ (wined3d_texture_bind ext context srgb m).texture
          = wined3d_texture_set_gl_texture t (effective_srgb ext context srgb)
              (bind_new_gl_texture context (effective_srgb ext context srgb) t
                (ext.glGenTextures m.calls)) := by
  unfold wined3d_texture_bind
  dsimp only
  generalize effective_srgb ext context srgb = s at hname ⊢
  have hnp2 := bind_flags_cond_np2 m.texture.flags s
  cases hs : BOOL_true s
  · rw [hs] at hnp2
    simp only [Bool.false_eq_true, if_false] at hnp2 ⊢
    rw [get_gl_texture_flags_irrelevant, hname]
    simp only [ne_eq, not_true_eq_false, if_false, hgen]
    refine ⟨_, ?_, ?_, ?_, rfl⟩
    · exact (set_dirty_flags _).1
    · exact (set_dirty_flags _).2
    · exact hnp2
  · rw [hs] at hnp2
    simp only [if_true] at hnp2 ⊢
    rw [get_gl_texture_flags_irrelevant, hname]
    simp only [ne_eq, not_true_eq_false, if_false, hgen]
    refine ⟨_, ?_, ?_, ?_, rfl⟩
    · exact (set_dirty_flags _).1
    · exact (set_dirty_flags _).2
    · exact hnp2

/-- C9 (amended): when the selected GL texture object has no handle and the
driver hands out a name, `wined3d_texture_bind` stores the name, leaves the
shadow at wrap addressing on w, max anisotropy 1, compare disabled and base
level 0, with wrap addressing on u and v unless the texture is
`WINED3D_TEXTURE_COND_NP2`, for which u and v are clamped, and clears both valid
flags. -/
theorem bind_creates_gl_texture (ext : wined3d_externals) (context : wined3d_context)
    (srgb : Nat) (m : Machine)
    (hname : (wined3d_texture_get_gl_texture m.texture (effective_srgb ext context srgb)).name = 0)
    (hgen : ext.glGenTextures m.calls ≠ 0) :
    ∃ g, wined3d_texture_get_gl_texture (wined3d_texture_bind ext context srgb m).texture
          (effective_srgb ext context srgb) = g
      ∧ g.name = ext.glGenTextures m.calls ∧ g.name ≠ 0
      ∧ g.sampler_desc.address_w = WINED3D_TADDRESS_WRAP
      ∧ g.sampler_desc.max_anisotropy = 1
      ∧ g.sampler_desc.compare = FALSE
      ∧ g.base_level = 0
      ∧ (m.texture.flags &&& WINED3D_TEXTURE_COND_NP2 = 0 →
          g.sampler_desc.address_u = WINED3D_TADDRESS_WRAP
          ∧ g.sampler_desc.address_v = WINED3D_TADDRESS_WRAP)
      ∧ (m.texture.flags &&& WINED3D_TEXTURE_COND_NP2 ≠ 0 →
          g.sampler_desc.address_u = WINED3D_TADDRESS_CLAMP
          ∧ g.sampler_desc.address_v = WINED3D_TADDRESS_CLAMP)
      ∧ (wined3d_texture_bind ext context srgb m).texture.flags &&& WINED3D_TEXTURE_RGB_VALID = 0
      ∧ (wined3d_texture_bind ext context srgb m).texture.flags &&& WINED3D_TEXTURE_SRGB_VALID = 0 := by
  obtain ⟨t, hrgb, hsrgb, hnp2, heq⟩ := bind_new_texture_eq ext context srgb m hname hgen
  refine ⟨_, rfl, ?_⟩
  rw [heq, get_set_gl_texture, set_gl_texture_flags]
  unfold bind_new_gl_texture
  rw [hnp2]
  by_cases hc : m.texture.flags &&& WINED3D_TEXTURE_COND_NP2 = 0
  · simp [hc, hgen, hrgb, hsrgb, bind_default_sampler_desc]
  · simp [hc, hgen, hrgb, hsrgb, bind_default_sampler_desc]

/-- Witness of C9: a fresh one-level texture bound for linear sampling, the
driver handing out the name 7. -/
theorem bind_creates_gl_texture_witness :
    (wined3d_texture_bind (spec_externals 7 (sample_context true 0 0)) (sample_context true 0 0) 0
        { texture := sample_texture 1 WINED3D_TEXTURE_RGB_VALID WINED3D_LOCATION_SYSMEM,
          calls := [] }).texture.flags &&& WINED3D_TEXTURE_RGB_VALID = 0 := by
  obtain ⟨_, _, _, _, _, _, _, _, _, _, h, _⟩ :=
    bind_creates_gl_texture (spec_externals 7 (sample_context true 0 0))
      (sample_context true 0 0) 0
      { texture := sample_texture 1 WINED3D_TEXTURE_RGB_VALID WINED3D_LOCATION_SYSMEM,
        calls := [] }
      (by decide) (by decide)
  exact h

/-- Counterexample to C9 as stated: a `WINED3D_TEXTURE_COND_NP2` texture gets
clamp, not wrap, addressing on u in the shadow of its new GL texture object;
and when the driver hands out no name the handle stays 0 and the texture stays
valid. -/
theorem bind_creates_gl_texture_counterexample :
    (wined3d_texture_get_gl_texture
        (wined3d_texture_bind (spec_externals 7 (sample_context true 0 0))
          (sample_context true 0 0) 0
          { texture := sample_texture 1 WINED3D_TEXTURE_COND_NP2 WINED3D_LOCATION_SYSMEM,
            calls := [] }).texture 0).sampler_desc.address_u ≠ WINED3D_TADDRESS_WRAP
    ∧ (wined3d_texture_get_gl_texture
        (wined3d_texture_bind (spec_externals 0 (sample_context true 0 0))
          (sample_context true 0 0) 0
          { texture := sample_texture 1 WINED3D_TEXTURE_RGB_VALID WINED3D_LOCATION_SYSMEM,
            calls := [] }).texture 0).name = 0
    ∧ (wined3d_texture_bind (spec_externals 0 (sample_context true 0 0))
          (sample_context true 0 0) 0
          { texture := sample_texture 1 WINED3D_TEXTURE_RGB_VALID WINED3D_LOCATION_SYSMEM,
            calls := [] }).texture.flags &&& WINED3D_TEXTURE_RGB_VALID ≠ 0 := by
  decide

/-! ## Sampler state: facts -/

theorem apply_address_u_gl_tex (gl_info : wined3d_gl_info) (target : GLenum)
    (d : wined3d_sampler_desc) (s : sampler_application) :
    (apply_address_u gl_info target d s).gl_tex
      = { s.gl_tex with sampler_desc := { s.gl_tex.sampler_desc with address_u := d.address_u } } := by
  unfold apply_address_u
  by_cases h : d.address_u = s.gl_tex.sampler_desc.address_u
  · simp [h]
  · simp [h]

theorem apply_address_v_gl_tex (gl_info : wined3d_gl_info) (target : GLenum)
    (d : wined3d_sampler_desc) (s : sampler_application) :
    (apply_address_v gl_info target d s).gl_tex
      = { s.gl_tex with sampler_desc := { s.gl_tex.sampler_desc with address_v := d.address_v } } := by
  unfold apply_address_v
  by_cases h : d.address_v = s.gl_tex.sampler_desc.address_v
  · simp [h]
  · simp [h]

theorem apply_address_w_gl_tex (gl_info : wined3d_gl_info) (target : GLenum)
    (d : wined3d_sampler_desc) (s : sampler_application) :
    (apply_address_w gl_info target d s).gl_tex
      = { s.gl_tex with sampler_desc := { s.gl_tex.sampler_desc with address_w := d.address_w } } := by
  unfold apply_address_w
  by_cases h : d.address_w = s.gl_tex.sampler_desc.address_w
  · simp [h]
  · simp [h]

theorem apply_border_color_gl_tex (target : GLenum)
    (d : wined3d_sampler_desc) (s : sampler_application) :
    (apply_border_color target d s).gl_tex
      = { s.gl_tex with
          sampler_desc := { s.gl_tex.sampler_desc with border_color := d.border_color } } := by
  unfold apply_border_color
  by_cases h : s.gl_tex.sampler_desc.border_color = d.border_color
  · simp [← h]
  · simp [h]

theorem apply_mag_filter_gl_tex (ext : wined3d_externals) (target : GLenum)
    (d : wined3d_sampler_desc) (s : sampler_application) :
    (apply_mag_filter ext target d s).gl_tex
      = { s.gl_tex with sampler_desc := { s.gl_tex.sampler_desc with mag_filter := d.mag_filter } } := by
  unfold apply_mag_filter
  by_cases h : d.mag_filter = s.gl_tex.sampler_desc.mag_filter
  · simp [h]
  · simp [h]

theorem apply_min_mip_filter_gl_tex (ext : wined3d_externals) (target : GLenum)
    (d : wined3d_sampler_desc) (s : sampler_application) :
    (apply_min_mip_filter ext target d s).gl_tex
      = { s.gl_tex with
          sampler_desc := { s.gl_tex.sampler_desc with
            min_filter := d.min_filter, mip_filter := d.mip_filter } } := by
  unfold apply_min_mip_filter
  by_cases h : d.min_filter ≠ s.gl_tex.sampler_desc.min_filter
      ∨ d.mip_filter ≠ s.gl_tex.sampler_desc.mip_filter
  · simp [h]
  · rw [if_neg h]
    push_neg at h
    simp [h.1, h.2]

theorem apply_max_anisotropy_gl_tex (gl_info : wined3d_gl_info) (target : GLenum)
    (d : wined3d_sampler_desc) (s : sampler_application) :
    (apply_max_anisotropy gl_info target d s).gl_tex
      = { s.gl_tex with
          sampler_desc := { s.gl_tex.sampler_desc with max_anisotropy := d.max_anisotropy } } := by
  unfold apply_max_anisotropy
  by_cases h : d.max_anisotropy = s.gl_tex.sampler_desc.max_anisotropy
  · simp [h]
  · simp [h]

theorem apply_lod_bias_gl_tex (gl_info : wined3d_gl_info)
    (d : wined3d_sampler_desc) (s : sampler_application) :
    (apply_lod_bias gl_info d s).gl_tex = s.gl_tex := by
  unfold apply_lod_bias
  by_cases h : gl_info.supported gl_extension.EXT_TEXTURE_LOD_BIAS = true
  · simp [h]
  · simp [h]

theorem apply_srgb_decode_gl_tex (context : wined3d_context) (target : GLenum)
    (d : wined3d_sampler_desc) (s : sampler_application) :
    (apply_srgb_decode context target d s).gl_tex
      = { s.gl_tex with
          sampler_desc := { s.gl_tex.sampler_desc with
            srgb_decode :=
              if (!BOOL_true d.srgb_decode) ≠ (!BOOL_true s.gl_tex.sampler_desc.srgb_decode)
                  ∧ context.d3d_info.wined3d_creation_flags &&& WINED3D_SRGB_READ_WRITE_CONTROL ≠ 0
                  ∧ context.gl_info.supported gl_extension.EXT_TEXTURE_SRGB_DECODE = true
              then d.srgb_decode else s.gl_tex.sampler_desc.srgb_decode } } := by
  unfold apply_srgb_decode
  split_ifs <;> rfl

theorem apply_compare_gl_tex (target : GLenum)
    (d : wined3d_sampler_desc) (s : sampler_application) :
    (apply_compare target d s).gl_tex
      = { s.gl_tex with
          sampler_desc := { s.gl_tex.sampler_desc with
            compare :=
              if (!BOOL_true d.compare) ≠ (!BOOL_true s.gl_tex.sampler_desc.compare)
              then d.compare else s.gl_tex.sampler_desc.compare } } := by
  unfold apply_compare
  split_ifs <;> rfl

/-- The shadow `wined3d_texture_apply_sampler_desc` leaves in the GL texture
object it works on. -/
theorem apply_sampler_desc_gl_tex (ext : wined3d_externals) (d : wined3d_sampler_desc)
    (context : wined3d_context) (m : Machine) (g : gl_texture)
    (hg : wined3d_texture_get_gl_texture m.texture (m.texture.flags &&& WINED3D_TEXTURE_IS_SRGB) = g) :
    wined3d_texture_get_gl_texture (wined3d_texture_apply_sampler_desc ext d context m).texture
        ((wined3d_texture_apply_sampler_desc ext d context m).texture.flags
          &&& WINED3D_TEXTURE_IS_SRGB)
      = { g with
          sampler_desc :=
            { address_u := d.address_u
              address_v := d.address_v
              address_w := d.address_w
              border_color := d.border_color
              mag_filter := d.mag_filter
              min_filter := d.min_filter
              mip_filter := d.mip_filter
              lod_bias := g.sampler_desc.lod_bias
              min_lod := g.sampler_desc.min_lod
              max_lod := g.sampler_desc.max_lod
              max_anisotropy := d.max_anisotropy
              compare :=
                if (!BOOL_true d.compare) ≠ (!BOOL_true g.sampler_desc.compare)
                then d.compare else g.sampler_desc.compare
              comparison_func := g.sampler_desc.comparison_func
              srgb_decode :=
                if (!BOOL_true d.srgb_decode) ≠ (!BOOL_true g.sampler_desc.srgb_decode)
                    ∧ context.d3d_info.wined3d_creation_flags &&& WINED3D_SRGB_READ_WRITE_CONTROL ≠ 0
                    ∧ context.gl_info.supported gl_extension.EXT_TEXTURE_SRGB_DECODE = true
                then d.srgb_decode else g.sampler_desc.srgb_decode } } := by
  unfold wined3d_texture_apply_sampler_desc
  simp only [set_gl_texture_flags, get_set_gl_texture, apply_lod_bias_gl_tex, apply_compare_gl_tex,
    apply_srgb_decode_gl_tex, apply_max_anisotropy_gl_tex, apply_min_mip_filter_gl_tex,
    apply_mag_filter_gl_tex, apply_border_color_gl_tex, apply_address_w_gl_tex,
    apply_address_v_gl_tex, apply_address_u_gl_tex, hg]

/-- C10 (amended): after `wined3d_texture_apply_sampler_desc` the shadow of the
current GL texture object equals the desired state in `address_u`, `address_v`,
`address_w`, `border_color`, `mag_filter`, `min_filter`, `mip_filter`,
`max_anisotropy` and, as a boolean, `compare`; `srgb_decode` equals the desired
value as a boolean when the device has sRGB read/write control and
`EXT_TEXTURE_SRGB_DECODE`, and keeps its previous value otherwise. -/
theorem apply_sampler_desc_shadow (ext : wined3d_externals) (d : wined3d_sampler_desc)
    (context : wined3d_context) (m : Machine) :
    ∃ g g2,
      wined3d_texture_get_gl_texture m.texture (m.texture.flags &&& WINED3D_TEXTURE_IS_SRGB) = g
      ∧ wined3d_texture_get_gl_texture (wined3d_texture_apply_sampler_desc ext d context m).texture
          ((wined3d_texture_apply_sampler_desc ext d context m).texture.flags
            &&& WINED3D_TEXTURE_IS_SRGB) = g2
      ∧ g2.sampler_desc.address_u = d.address_u
      ∧ g2.sampler_desc.address_v = d.address_v
      ∧ g2.sampler_desc.address_w = d.address_w
      ∧ g2.sampler_desc.border_color = d.border_color
      ∧ g2.sampler_desc.mag_filter = d.mag_filter
      ∧ g2.sampler_desc.min_filter = d.min_filter
      ∧ g2.sampler_desc.mip_filter = d.mip_filter
      ∧ g2.sampler_desc.max_anisotropy = d.max_anisotropy
      ∧ BOOL_true g2.sampler_desc.compare = BOOL_true d.compare
      ∧ ((context.d3d_info.wined3d_creation_flags &&& WINED3D_SRGB_READ_WRITE_CONTROL ≠ 0
            ∧ context.gl_info.supported gl_extension.EXT_TEXTURE_SRGB_DECODE = true) →
          BOOL_true g2.sampler_desc.srgb_decode = BOOL_true d.srgb_decode)
      ∧ (¬ (context.d3d_info.wined3d_creation_flags &&& WINED3D_SRGB_READ_WRITE_CONTROL ≠ 0
            ∧ context.gl_info.supported gl_extension.EXT_TEXTURE_SRGB_DECODE = true) →
          g2.sampler_desc.srgb_decode = g.sampler_desc.srgb_decode) := by
  refine ⟨_, _, rfl, apply_sampler_desc_gl_tex ext d context m _ rfl, rfl, rfl, rfl, rfl, rfl, rfl,
    rfl, rfl, ?_, ?_, ?_⟩
  · dsimp only
    split_ifs with h
    · rfl
    · exact Eq.symm (by simpa using h)
  · intro hcap
    dsimp only
    split_ifs with h
    · rfl
    · have h2 : ¬ ((!BOOL_true d.srgb_decode) ≠ (!BOOL_true
          (wined3d_texture_get_gl_texture m.texture
            (m.texture.flags &&& WINED3D_TEXTURE_IS_SRGB)).sampler_desc.srgb_decode)) :=
        fun hne => h ⟨hne, hcap⟩
      exact Eq.symm (by simpa using h2)
  · intro hcap
    dsimp only
    rw [if_neg (fun h => hcap h.2)]

/-- Counterexample to C10 as stated: on a device without
`EXT_TEXTURE_SRGB_DECODE` the shadow keeps `srgb_decode` off although the
desired state has it on. -/
theorem apply_sampler_desc_shadow_counterexample :
    BOOL_true (wined3d_texture_get_gl_texture
        (wined3d_texture_apply_sampler_desc (spec_externals 7 (sample_context false 0 0))
          { zero_gl_texture.sampler_desc with srgb_decode := TRUE } (sample_context false 0 0)
          { texture := sample_texture 1 0 WINED3D_LOCATION_SYSMEM, calls := [] }).texture
        0).sampler_desc.srgb_decode
      ≠ BOOL_true ({ zero_gl_texture.sampler_desc with srgb_decode := TRUE } :
          wined3d_sampler_desc).srgb_decode := by
  decide

theorem set_get_gl_texture (t : wined3d_texture) (srgb : Nat) :
    wined3d_texture_set_gl_texture t srgb (wined3d_texture_get_gl_texture t srgb) = t := by
  unfold wined3d_texture_set_gl_texture wined3d_texture_get_gl_texture
  cases BOOL_true srgb <;> simp

/-- When the shadow agrees with the desired state in every field that
`wined3d_texture_apply_sampler_desc` compares, the function leaves the texture
as it is and makes no call but the `glTexEnvf` of the LOD bias. -/
theorem apply_sampler_desc_settled (ext : wined3d_externals) (d : wined3d_sampler_desc)
    (context : wined3d_context) (m : Machine) (g : gl_texture)
    (hg : wined3d_texture_get_gl_texture m.texture (m.texture.flags &&& WINED3D_TEXTURE_IS_SRGB) = g)
    (hu : d.address_u = g.sampler_desc.address_u)
    (hv : d.address_v = g.sampler_desc.address_v)
    (hw : d.address_w = g.sampler_desc.address_w)
    (hb : g.sampler_desc.border_color = d.border_color)
    (hmag : d.mag_filter = g.sampler_desc.mag_filter)
    (hmin : d.min_filter = g.sampler_desc.min_filter)
    (hmip : d.mip_filter = g.sampler_desc.mip_filter)
    (han : d.max_anisotropy = g.sampler_desc.max_anisotropy)
    (hs : ¬ ((!BOOL_true d.srgb_decode) ≠ (!BOOL_true g.sampler_desc.srgb_decode)
      ∧ context.d3d_info.wined3d_creation_flags &&& WINED3D_SRGB_READ_WRITE_CONTROL ≠ 0
      ∧ context.gl_info.supported gl_extension.EXT_TEXTURE_SRGB_DECODE = true))
    (hc : ¬ ((!BOOL_true d.compare) ≠ (!BOOL_true g.sampler_desc.compare))) :
    (wined3d_texture_apply_sampler_desc ext d context m).texture = m.texture
    ∧ (wined3d_texture_apply_sampler_desc ext d context m).calls
      = m.calls ++ (if context.gl_info.supported gl_extension.EXT_TEXTURE_LOD_BIAS then
          [Call.glTexEnvf GL_TEXTURE_FILTER_CONTROL_EXT GL_TEXTURE_LOD_BIAS_EXT d.lod_bias]
        else []) := by
  have h1 : ∀ c, apply_address_u context.gl_info m.texture.target d { gl_tex := g, calls := c }
      = { gl_tex := g, calls := c } := fun c => by
    unfold apply_address_u; exact if_neg (not_not.mpr hu)
  have h2 : ∀ c, apply_address_v context.gl_info m.texture.target d { gl_tex := g, calls := c }
      = { gl_tex := g, calls := c } := fun c => by
    unfold apply_address_v; exact if_neg (not_not.mpr hv)
  have h3 : ∀ c, apply_address_w context.gl_info m.texture.target d { gl_tex := g, calls := c }
      = { gl_tex := g, calls := c } := fun c => by
    unfold apply_address_w; exact if_neg (not_not.mpr hw)
  have h4 : ∀ c, apply_border_color m.texture.target d { gl_tex := g, calls := c }
      = { gl_tex := g, calls := c } := fun c => by
    unfold apply_border_color; exact if_neg (not_not.mpr hb)
  have h5 : ∀ c, apply_mag_filter ext m.texture.target d { gl_tex := g, calls := c }
      = { gl_tex := g, calls := c } := fun c => by
    unfold apply_mag_filter; exact if_neg (not_not.mpr hmag)
  have h6 : ∀ c, apply_min_mip_filter ext m.texture.target d { gl_tex := g, calls := c }
      = { gl_tex := g, calls := c } := fun c => by
    unfold apply_min_mip_filter
    exact if_neg (fun h => h.elim (fun h => h hmin) (fun h => h hmip))
  have h7 : ∀ c, apply_max_anisotropy context.gl_info m.texture.target d { gl_tex := g, calls := c }
      = { gl_tex := g, calls := c } := fun c => by
    unfold apply_max_anisotropy; exact if_neg (not_not.mpr han)
  have h8 : ∀ c, apply_srgb_decode context m.texture.target d { gl_tex := g, calls := c }
      = { gl_tex := g, calls := c } := fun c => by
    unfold apply_srgb_decode; exact if_neg hs
  have h9 : ∀ c, apply_compare m.texture.target d { gl_tex := g, calls := c }
      = { gl_tex := g, calls := c } := fun c => by
    unfold apply_compare; exact if_neg hc
  unfold wined3d_texture_apply_sampler_desc
  simp only [hg, h1, h2, h3, h4, h5, h6, h7, h8, h9]
  unfold apply_lod_bias
  by_cases hl : context.gl_info.supported gl_extension.EXT_TEXTURE_LOD_BIAS = true
  · rw [if_pos hl, if_pos hl]
    exact ⟨hg ▸ set_get_gl_texture _ _, rfl⟩
  · rw [if_neg hl, if_neg hl]
    exact ⟨hg ▸ set_get_gl_texture _ _, (List.append_nil _).symm⟩

/-- C11 (amended): `wined3d_texture_apply_sampler_desc` issues a texture
parameter change only on difference.  For every texture whose shadow sampler
state equals the desired description in every field, the call leaves the
texture, and so the shadow, unchanged and issues no `glTexParameteri` or
`glTexParameterfv` call; the only call it makes is the `glTexEnvf` that sets
the LOD bias of the texture environment, which is issued on every application
when `EXT_TEXTURE_LOD_BIAS` is supported.  Consequently, for every texture, a
second application of the same description right after the first leaves the
texture as the first left it and adds that one `glTexEnvf` call at most. -/
theorem apply_sampler_desc_delta (ext : wined3d_externals) (d : wined3d_sampler_desc)
    (context : wined3d_context) (m : Machine) :
    ((wined3d_texture_get_gl_texture m.texture
          (m.texture.flags &&& WINED3D_TEXTURE_IS_SRGB)).sampler_desc = d →
        (wined3d_texture_apply_sampler_desc ext d context m).texture = m.texture
        ∧ (wined3d_texture_apply_sampler_desc ext d context m).calls
          = m.calls ++ (if context.gl_info.supported gl_extension.EXT_TEXTURE_LOD_BIAS then
              [Call.glTexEnvf GL_TEXTURE_FILTER_CONTROL_EXT GL_TEXTURE_LOD_BIAS_EXT d.lod_bias]
            else []))
    ∧ (wined3d_texture_apply_sampler_desc ext d context
          (wined3d_texture_apply_sampler_desc ext d context m)).texture
        = (wined3d_texture_apply_sampler_desc ext d context m).texture
    ∧ (wined3d_texture_apply_sampler_desc ext d context
          (wined3d_texture_apply_sampler_desc ext d context m)).calls
        = (wined3d_texture_apply_sampler_desc ext d context m).calls
          ++ (if context.gl_info.supported gl_extension.EXT_TEXTURE_LOD_BIAS then
              [Call.glTexEnvf GL_TEXTURE_FILTER_CONTROL_EXT GL_TEXTURE_LOD_BIAS_EXT d.lod_bias]
            else []) := by
  refine ⟨fun h => ?_, ?_⟩
  · subst h
    exact apply_sampler_desc_settled ext _ context m _ rfl rfl rfl rfl rfl rfl rfl rfl rfl
      (fun h => h.1 rfl) (fun h => h rfl)
  · refine apply_sampler_desc_settled ext d context _ _
      (apply_sampler_desc_gl_tex ext d context m _ rfl) rfl rfl rfl rfl rfl rfl rfl rfl ?_ ?_
    · dsimp only
      intro h
      split_ifs at h with h2
      · exact h.1 rfl
      · exact h2 h
    · dsimp only
      intro h
      split_ifs at h with h2
      · exact h rfl
      · exact h2 h

/-- Counterexample to C11 as stated: the shadow of the texture equals the
desired description in every field, and on a device with
`EXT_TEXTURE_LOD_BIAS` the call still issues a GL state change, the
`glTexEnvf` of the LOD bias. -/
theorem apply_sampler_desc_delta_counterexample :
    (wined3d_texture_get_gl_texture (sample_texture 1 0 WINED3D_LOCATION_SYSMEM)
        ((sample_texture 1 0 WINED3D_LOCATION_SYSMEM).flags &&& WINED3D_TEXTURE_IS_SRGB)).sampler_desc
      = zero_gl_texture.sampler_desc
    ∧ (wined3d_texture_apply_sampler_desc (spec_externals 7 (sample_context true 0 0))
        zero_gl_texture.sampler_desc (sample_context true 0 0)
        { texture := sample_texture 1 0 WINED3D_LOCATION_SYSMEM, calls := [] }).calls
      = [Call.glTexEnvf GL_TEXTURE_FILTER_CONTROL_EXT GL_TEXTURE_LOD_BIAS_EXT 0] := by
  decide

/-! ## Loading: facts -/

theorem or_and_self_right (f c : Nat) : (f ||| c) &&& c = c := by
  apply Nat.eq_of_testBit_eq
  intro k
  rw [Nat.testBit_and, Nat.testBit_or]
  cases f.testBit k <;> cases c.testBit k <;> rfl

theorem load_flag_ne_zero (srgb : Nat) : load_flag srgb ≠ 0 := by
  unfold load_flag
  cases BOOL_true srgb <;> decide

theorem load_other_flag_disjoint (srgb : Nat) : load_flag srgb &&& load_other_flag srgb = 0 := by
  unfold load_flag load_other_flag
  cases BOOL_true srgb <;> decide

theorem texture_ops_calls_append (xs ys : List Call) :
    texture_ops_calls (xs ++ ys) = texture_ops_calls xs ++ texture_ops_calls ys := by
  unfold texture_ops_calls
  exact List.filter_append xs ys

theorem sub_resource_load_ops_calls (ext : wined3d_externals) (context : wined3d_context)
    (srgb : Nat) (m : Machine) (i : Nat) :
    texture_ops_calls (texture_sub_resource_load ext context srgb m i).calls
      = texture_ops_calls m.calls ++ [Call.texture_sub_resource_load i srgb] := by
  unfold texture_sub_resource_load
  cases h : m.texture.texture_ops <;>
    simp [Machine.call, h, texture2d_sub_resource_load, texture3d_sub_resource_load,
      texture_ops_calls, List.filter_append, Call.is_texture_ops_call]

theorem sub_resource_add_dirty_region_ops_calls (ext : wined3d_externals) (m : Machine)
    (i : Nat) :
    texture_ops_calls (texture_sub_resource_add_dirty_region ext m i).calls
      = texture_ops_calls m.calls ++ [Call.texture_sub_resource_add_dirty_region i] := by
  unfold texture_sub_resource_add_dirty_region
  cases h : m.texture.texture_ops
  · simp only [Machine.call, h, texture2d_sub_resource_add_dirty_region]
    split <;>
      simp [texture_ops_calls, List.filter_append, Call.is_texture_ops_call]
  · simp [Machine.call, h, texture3d_sub_resource_add_dirty_region, texture_ops_calls,
      List.filter_append, Call.is_texture_ops_call]

/-- The loop of load hooks calls the hook once per index, in index order. -/
theorem load_loop_ops_calls (ext : wined3d_externals) (context : wined3d_context)
    (srgb n : Nat) (m : Machine) :
    texture_ops_calls
        ((List.range n).foldl (texture_sub_resource_load ext context srgb) m).calls
      = texture_ops_calls m.calls
          ++ (List.range n).map (fun i => Call.texture_sub_resource_load i srgb) := by
  induction n with
  | zero => simp
  | succ n ih =>
    rw [List.range_succ, List.foldl_append, List.map_append]
    simp only [List.foldl_cons, List.foldl_nil, List.map_cons, List.map_nil]
    rw [sub_resource_load_ops_calls, ih, List.append_assoc]

/-- The loop of dirty-region hooks calls the hook once per index, in index order. -/
theorem dirty_loop_ops_calls (ext : wined3d_externals) (n : Nat) (m : Machine) :
    texture_ops_calls
        ((List.range n).foldl (texture_sub_resource_add_dirty_region ext) m).calls
      = texture_ops_calls m.calls
          ++ (List.range n).map (fun i => Call.texture_sub_resource_add_dirty_region i) := by
  induction n with
  | zero => simp
  | succ n ih =>
    rw [List.range_succ, List.foldl_append, List.map_append]
    simp only [List.foldl_cons, List.foldl_nil, List.map_cons, List.map_nil]
    rw [sub_resource_add_dirty_region_ops_calls, ih, List.append_assoc]

/-- When the helpers that load a sub-resource leave the texture flags alone, so
does the loop of load hooks. -/
theorem load_loop_flags (ext : wined3d_externals) (context : wined3d_context)
    (srgb n : Nat) (m : Machine)
    (hext : ∀ s c b t, (ext.surface_load s c b t).flags = t.flags
      ∧ (ext.wined3d_volume_load s c b t).flags = t.flags) :
    ((List.range n).foldl (texture_sub_resource_load ext context srgb) m).texture.flags
      = m.texture.flags := by
  induction n with
  | zero => simp
  | succ n ih =>
    rw [List.range_succ, List.foldl_append]
    simp only [List.foldl_cons, List.foldl_nil]
    rw [← ih]
    generalize (List.range n).foldl (texture_sub_resource_load ext context srgb) m = m2
    unfold texture_sub_resource_load
    cases h : m2.texture.texture_ops <;>
      simp [Machine.call, h, texture2d_sub_resource_load, texture3d_sub_resource_load,
        (hext _ _ _ _).1, (hext _ _ _ _).2]

/-- C6 (amended): the variant loaded is the gamma-corrected one when `srgb` is
requested and the context needs a separate sRGB GL texture, the linear one
otherwise.  When the valid flag of that variant is clear and no colour-key
change is pending, `wined3d_texture_load` calls the load hook exactly once for
each sub-resource index below `level_count * layer_count`, in increasing order,
and no other sub-resource operation; afterwards the valid flag of that variant
is set, and the other valid flag is as the last hook left it (as it was before
the call when the load helpers leave the texture flags alone). -/
theorem load_dirty_texture (ext : wined3d_externals) (context : wined3d_context) (srgb : Nat)
    (m : Machine)
    (h32 : m.texture.level_count * m.texture.layer_count < 2 ^ 32)
    (hflag : m.texture.flags &&& load_flag (effective_srgb ext context srgb) = 0)
    (hck : load_color_key_changed context m.texture = false) :
    texture_ops_calls (wined3d_texture_load ext context srgb m).calls
        = texture_ops_calls m.calls
          ++ (List.range (m.texture.level_count * m.texture.layer_count)).map
              (fun i => Call.texture_sub_resource_load i (effective_srgb ext context srgb))
    ∧ (wined3d_texture_load ext context srgb m).texture.flags
          &&& load_flag (effective_srgb ext context srgb) ≠ 0
    ∧ (wined3d_texture_load ext context srgb m).texture.flags
          &&& load_other_flag (effective_srgb ext context srgb)
        = ((List.range (m.texture.level_count * m.texture.layer_count)).foldl
            (texture_sub_resource_load ext context (effective_srgb ext context srgb))
            m).texture.flags
          &&& load_other_flag (effective_srgb ext context srgb)
    ∧ ((∀ s c b t, (ext.surface_load s c b t).flags = t.flags
          ∧ (ext.wined3d_volume_load s c b t).flags = t.flags) →
        (wined3d_texture_load ext context srgb m).texture.flags
          = m.texture.flags ||| load_flag (effective_srgb ext context srgb)) := by
  have hsc : sub_count m.texture = m.texture.level_count * m.texture.layer_count :=
    Nat.mod_eq_of_lt h32
  have hload : wined3d_texture_load ext context srgb m
      = load_sub_resources ext context (effective_srgb ext context srgb)
          (load_flag (effective_srgb ext context srgb))
          (m.texture.level_count * m.texture.layer_count) m := by
    unfold wined3d_texture_load
    simp only [hck, Bool.false_eq_true, if_false, hflag, ne_eq, not_true_eq_false, hsc]
  rw [hload]
  unfold load_sub_resources
  refine ⟨load_loop_ops_calls _ _ _ _ _, ?_, ?_, ?_⟩
  · dsimp only
    rw [or_and_self_right]
    exact load_flag_ne_zero _
  · dsimp only
    exact and_or_of_disjoint _ _ _ (load_other_flag_disjoint _)
  · intro hext
    dsimp only
    rw [load_loop_flags _ _ _ _ _ hext]

/-- Witness of C6: a two-level texture held in system memory, loaded for linear
sampling. -/
theorem load_dirty_texture_witness :
    texture_ops_calls (wined3d_texture_load (spec_externals 7 (sample_context true 0 0))
        (sample_context true 0 0) 0
        { texture := sample_texture 2 0 WINED3D_LOCATION_SYSMEM, calls := [] }).calls
      = [Call.texture_sub_resource_load 0 0, Call.texture_sub_resource_load 1 0] :=
  (load_dirty_texture (spec_externals 7 (sample_context true 0 0)) (sample_context true 0 0) 0
    { texture := sample_texture 2 0 WINED3D_LOCATION_SYSMEM, calls := [] }
    (by decide) (by decide) (by decide)).1

/-- Counterexample to C6 as stated: `srgb` is requested on a context that needs
no separate sRGB GL texture (it has `EXT_TEXTURE_SRGB_DECODE`).  The texture has
both valid flags clear and no colour key; after the load
`WINED3D_TEXTURE_RGB_VALID` is set and `WINED3D_TEXTURE_SRGB_VALID` is not, and
the hook was called for the linear variant. -/
theorem load_dirty_texture_counterexample :
    (wined3d_texture_load (spec_externals 7 (sample_context true 0 0))
        (sample_context true 0 0) TRUE
        { texture := sample_texture 1 0 WINED3D_LOCATION_SYSMEM,
          calls := [] }).texture.flags &&& WINED3D_TEXTURE_SRGB_VALID = 0
    ∧ (wined3d_texture_load (spec_externals 7 (sample_context true 0 0))
        (sample_context true 0 0) TRUE
        { texture := sample_texture 1 0 WINED3D_LOCATION_SYSMEM,
          calls := [] }).texture.flags &&& WINED3D_TEXTURE_RGB_VALID ≠ 0
    ∧ texture_ops_calls (wined3d_texture_load (spec_externals 7 (sample_context true 0 0))
        (sample_context true 0 0) TRUE
        { texture := sample_texture 1 0 WINED3D_LOCATION_SYSMEM, calls := [] }).calls
      = [Call.texture_sub_resource_load 0 FALSE] := by
  decide

/-- The flag of the request is set when `wined3d_texture_load` returns. -/
theorem load_sets_flag (ext : wined3d_externals) (context : wined3d_context) (srgb : Nat)
    (m : Machine) :
    (wined3d_texture_load ext context srgb m).texture.flags
      &&& load_flag (effective_srgb ext context srgb) ≠ 0 := by
  unfold wined3d_texture_load
  dsimp only
  split_ifs with h1 h2 h3
  · exact h2
  · unfold load_sub_resources
    dsimp only
    rw [or_and_self_right]
    exact load_flag_ne_zero _
  · exact h3
  · unfold load_sub_resources
    dsimp only
    rw [or_and_self_right]
    exact load_flag_ne_zero _

/-- C3 (amended): on a device that does not key in shaders, when colour-key
usage was toggled since the last load or the source-blit key differs from the
recorded one while colour keying is in use, `wined3d_texture_load` calls the
dirty-region hook for every sub-resource, then has both valid flags clear and
the new key recorded, and from that state runs the load hook over every
sub-resource and sets the valid flag of the request. -/
theorem load_color_key_change (ext : wined3d_externals) (context : wined3d_context)
    (srgb : Nat) (m : Machine)
    (h32 : m.texture.level_count * m.texture.layer_count < 2 ^ 32)
    (hshader : BOOL_true context.d3d_info.shader_color_key = false)
    (hchg : (color_key_toggled m.texture
      || (m.texture.async.flags &&& WINED3D_TEXTURE_ASYNC_COLOR_KEY != 0
        && !color_key_equal m.texture.async.gl_color_key m.texture.async.src_blt_color_key))
      = true) :
    texture_ops_calls (wined3d_texture_load ext context srgb m).calls
        = texture_ops_calls m.calls
          ++ (List.range (m.texture.level_count * m.texture.layer_count)).map
              (fun i => Call.texture_sub_resource_add_dirty_region i)
          ++ (List.range (m.texture.level_count * m.texture.layer_count)).map
              (fun i => Call.texture_sub_resource_load i (effective_srgb ext context srgb))
    ∧ (∃ m2 : Machine,
        texture_ops_calls m2.calls = texture_ops_calls m.calls
          ++ (List.range (m.texture.level_count * m.texture.layer_count)).map
              (fun i => Call.texture_sub_resource_add_dirty_region i)
        ∧ m2.texture.flags &&& WINED3D_TEXTURE_RGB_VALID = 0
        ∧ m2.texture.flags &&& WINED3D_TEXTURE_SRGB_VALID = 0
        ∧ m2.texture.async.gl_color_key = m2.texture.async.src_blt_color_key
        ∧ wined3d_texture_load ext context srgb m
            = load_sub_resources ext context (effective_srgb ext context srgb)
                (load_flag (effective_srgb ext context srgb))
                (m.texture.level_count * m.texture.layer_count) m2)
    ∧ (wined3d_texture_load ext context srgb m).texture.flags
          &&& load_flag (effective_srgb ext context srgb) ≠ 0 := by
  have hsc : sub_count m.texture = m.texture.level_count * m.texture.layer_count :=
    Nat.mod_eq_of_lt h32
  have hck : load_color_key_changed context m.texture = true := by
    unfold load_color_key_changed
    rw [hshader, hchg]
    rfl
  have hd := set_dirty_flags
    ((List.range (sub_count m.texture)).foldl (texture_sub_resource_add_dirty_region ext)
      m).texture
  have hflag0 : (load_color_key_reload ext m).texture.flags
      &&& load_flag (effective_srgb ext context srgb) = 0 := by
    unfold load_flag load_color_key_reload
    cases BOOL_true (effective_srgb ext context srgb)
    · exact hd.1
    · exact hd.2
  have hload : wined3d_texture_load ext context srgb m
      = load_sub_resources ext context (effective_srgb ext context srgb)
          (load_flag (effective_srgb ext context srgb))
          (m.texture.level_count * m.texture.layer_count) (load_color_key_reload ext m) := by
    unfold wined3d_texture_load
    simp only [hck, if_true, hflag0, ne_eq, not_true_eq_false, if_false, hsc]
  have hcalls : texture_ops_calls (load_color_key_reload ext m).calls
      = texture_ops_calls m.calls
        ++ (List.range (m.texture.level_count * m.texture.layer_count)).map
            (fun i => Call.texture_sub_resource_add_dirty_region i) := by
    unfold load_color_key_reload
    dsimp only
    rw [dirty_loop_ops_calls, hsc]
  refine ⟨?_, ⟨load_color_key_reload ext m, hcalls, ?_, ?_, ?_, hload⟩,
    load_sets_flag ext context srgb m⟩
  · rw [hload]
    unfold load_sub_resources
    dsimp only
    rw [load_loop_ops_calls, hcalls]
  · exact hd.1
  · exact hd.2
  · rfl

/-- Witness of C3: the sample texture with a colour key set since the last load,
already valid for linear sampling. -/
theorem load_color_key_change_witness :
    texture_ops_calls (wined3d_texture_load (spec_externals 7 (sample_context true 0 0))
        (sample_context true 0 0) 0
        { texture := sample_texture_color_key 1 WINED3D_TEXTURE_RGB_VALID
            WINED3D_LOCATION_SYSMEM,
          calls := [] }).calls
      = [Call.texture_sub_resource_add_dirty_region 0, Call.texture_sub_resource_load 0 0] :=
  (load_color_key_change (spec_externals 7 (sample_context true 0 0)) (sample_context true 0 0) 0
    { texture := sample_texture_color_key 1 WINED3D_TEXTURE_RGB_VALID WINED3D_LOCATION_SYSMEM,
      calls := [] }
    (by decide) (by decide) (by decide)).1

/-- Counterexample to C3 as stated: on a device that keys in shaders the
colour-key test is skipped, so a valid texture whose colour-key usage was
toggled takes the fast path: no hook runs and the texture is unchanged. -/
theorem load_color_key_change_counterexample :
    color_key_toggled (sample_texture_color_key 1 WINED3D_TEXTURE_RGB_VALID
        WINED3D_LOCATION_SYSMEM) = true
    ∧ (wined3d_texture_load (spec_externals 7 (sample_context true 1 0))
        (sample_context true 1 0) 0
        { texture := sample_texture_color_key 1 WINED3D_TEXTURE_RGB_VALID
            WINED3D_LOCATION_SYSMEM,
          calls := [] }).calls = []
    ∧ (wined3d_texture_load (spec_externals 7 (sample_context true 1 0))
        (sample_context true 1 0) 0
        { texture := sample_texture_color_key 1 WINED3D_TEXTURE_RGB_VALID
            WINED3D_LOCATION_SYSMEM,
          calls := [] }).texture
      = sample_texture_color_key 1 WINED3D_TEXTURE_RGB_VALID WINED3D_LOCATION_SYSMEM := by
  decide

/-! ## Preparing: facts -/

theorem invalidate_location_async (t : wined3d_texture) (i m : Nat) :
    (wined3d_texture_invalidate_location t i m).async = t.async := by
  unfold wined3d_texture_invalidate_location wined3d_texture_set_dirty
  dsimp only
  split_ifs <;> rfl

theorem invalidate_range_async (m n : Nat) (t : wined3d_texture) :
    ((List.range n).foldl (fun t i => wined3d_texture_invalidate_location t i m) t).async
      = t.async := by
  induction n with
  | zero => simp
  | succ n ih =>
    rw [List.range_succ, List.foldl_append]
    simp only [List.foldl_cons, List.foldl_nil]
    rw [invalidate_location_async, ih]

theorem force_reload_async (t : wined3d_texture) :
    (wined3d_texture_force_reload t).async
      = { t.async with
          flags := t.async.flags &&& DWORD_not WINED3D_TEXTURE_ASYNC_COLOR_KEY } := by
  unfold wined3d_texture_force_reload
  dsimp only
  rw [invalidate_range_async]

theorem set_gl_texture_async (t : wined3d_texture) (srgb : Nat) (g : gl_texture) :
    (wined3d_texture_set_gl_texture t srgb g).async = t.async := by
  unfold wined3d_texture_set_gl_texture
  cases BOOL_true srgb <;> rfl

theorem bind_async (ext : wined3d_externals) (context : wined3d_context) (srgb : Nat)
    (m : Machine) :
    (wined3d_texture_bind ext context srgb m).texture.async = m.texture.async := by
  unfold wined3d_texture_bind
  dsimp only
  split_ifs <;> simp [set_gl_texture_async, wined3d_texture_set_dirty]

theorem bind_and_dirtify_async (ext : wined3d_externals) (context : wined3d_context)
    (srgb : Nat) (m : Machine) :
    (wined3d_texture_bind_and_dirtify ext context srgb m).texture.async = m.texture.async := by
  unfold wined3d_texture_bind_and_dirtify
  dsimp only
  rw [bind_async]
  split_ifs <;> rfl

theorem texture_prepare_texture_async (ext : wined3d_externals) (context : wined3d_context)
    (srgb : Nat) (m : Machine) :
    (texture_prepare_texture ext context srgb m).texture.async = m.texture.async := by
  unfold texture_prepare_texture
  cases h : m.texture.texture_ops
  · simp only [Machine.call, h, texture2d_prepare_texture]
    rw [bind_and_dirtify_async]
    dsimp only
    split
    · rfl
    · split <;> rfl
  · simp only [Machine.call, h, texture3d_prepare_texture]
    rw [bind_and_dirtify_async]

/-- After the colour-key block of `wined3d_texture_prepare_texture` the flag
`WINED3D_TEXTURE_ASYNC_COLOR_KEY` agrees with `WINED3D_CKEY_SRC_BLT`. -/
theorem prepare_reconciles_color_key (t : wined3d_texture) :
    color_key_toggled (prepare_color_key_reload t) = false := by
  have ha := force_reload_async t
  unfold prepare_color_key_reload
  dsimp only
  by_cases hc : t.async.color_key_flags &&& WINED3D_CKEY_SRC_BLT = 0
  · have hc2 : (wined3d_texture_force_reload t).async.color_key_flags
        &&& WINED3D_CKEY_SRC_BLT = 0 := by rw [ha]; exact hc
    rw [if_neg (by simpa using hc2)]
    unfold color_key_toggled
    rw [hc2, ha]
    dsimp only
    rw [and_DWORD_not_and_eq_zero _ _ _ (by decide)]
    rfl
  · have hc2 : (wined3d_texture_force_reload t).async.color_key_flags
        &&& WINED3D_CKEY_SRC_BLT ≠ 0 := by rw [ha]; exact hc
    rw [if_pos hc2]
    unfold color_key_toggled
    dsimp only
    rw [or_and_self_right]
    simp [hc2]
    decide

theorem prepare_alloc_flag_ne_zero (srgb : Nat) : prepare_alloc_flag srgb ≠ 0 := by
  unfold prepare_alloc_flag
  cases BOOL_true srgb <;> decide

/-- The second half of `wined3d_texture_prepare_texture` keeps the colour-key
members and sets the allocation flag. -/
theorem prepare_tail (ext : wined3d_externals) (context : wined3d_context) (srgb : Nat)
    (m : Machine) :
    ∃ m2 : Machine,
      (if m.texture.flags &&& prepare_alloc_flag srgb ≠ 0 then m
        else
          { texture_prepare_texture ext context srgb m with
            texture :=
              { (texture_prepare_texture ext context srgb m).texture with
                flags := (texture_prepare_texture ext context srgb m).texture.flags
                  ||| prepare_alloc_flag srgb } }) = m2
      ∧ m2.texture.async = m.texture.async
      ∧ m2.texture.flags &&& prepare_alloc_flag srgb ≠ 0 := by
  refine ⟨_, rfl, ?_, ?_⟩
  · split_ifs with h
    · rfl
    · exact texture_prepare_texture_async ext context srgb m
  · split_ifs with h
    · exact h
    · dsimp only
      rw [or_and_self_right]
      exact prepare_alloc_flag_ne_zero srgb

/-- C8: after `wined3d_texture_prepare_texture` the allocation flag of the
chosen variant is set, and an immediately repeated call with the same arguments
finds no colour-key toggle (it forces no reload) and changes neither the texture
nor the call log: the hook `texture_ops->texture_prepare_texture` is not
invoked. -/
theorem prepare_texture_idempotent (ext : wined3d_externals) (context : wined3d_context)
    (srgb : Nat) (m : Machine) :
    (wined3d_texture_prepare_texture ext context srgb m).texture.flags
        &&& prepare_alloc_flag srgb ≠ 0
    ∧ (!BOOL_true context.d3d_info.shader_color_key
        && color_key_toggled (wined3d_texture_prepare_texture ext context srgb m).texture) = false
    ∧ wined3d_texture_prepare_texture ext context srgb
        (wined3d_texture_prepare_texture ext context srgb m)
      = wined3d_texture_prepare_texture ext context srgb m := by
  have hfirst : ∃ m0 : Machine,
      (!BOOL_true context.d3d_info.shader_color_key && color_key_toggled m0.texture) = false
      ∧ ∃ m2, wined3d_texture_prepare_texture ext context srgb m = m2
        ∧ m2.texture.async = m0.texture.async
        ∧ m2.texture.flags &&& prepare_alloc_flag srgb ≠ 0 := by
    by_cases hc : (!BOOL_true context.d3d_info.shader_color_key
        && color_key_toggled m.texture) = true
    · refine ⟨{ m with texture := prepare_color_key_reload m.texture }, ?_, ?_⟩
      · rw [prepare_reconciles_color_key]
        simp
      · obtain ⟨m2, h2, h3, h4⟩ := prepare_tail ext context srgb
          { m with texture := prepare_color_key_reload m.texture }
        refine ⟨m2, ?_, h3, h4⟩
        rw [← h2]
        unfold wined3d_texture_prepare_texture
        simp only [hc, if_true]
    · have hc2 := Bool.of_not_eq_true hc
      refine ⟨m, hc2, ?_⟩
      obtain ⟨m2, h2, h3, h4⟩ := prepare_tail ext context srgb m
      refine ⟨m2, ?_, h3, h4⟩
      rw [← h2]
      unfold wined3d_texture_prepare_texture
      simp only [hc2, Bool.false_eq_true, if_false]
  obtain ⟨m0, h0, m1, hm1, hasync, halloc⟩ := hfirst
  have h2 : (!BOOL_true context.d3d_info.shader_color_key
      && color_key_toggled m1.texture) = false := by
    unfold color_key_toggled at h0 ⊢
    rw [hasync]
    exact h0
  rw [hm1]
  refine ⟨halloc, h2, ?_⟩
  unfold wined3d_texture_prepare_texture
  simp only [h2, Bool.false_eq_true, if_false, halloc, ne_eq, not_false_eq_true, if_true]

/-! ## Creation: facts -/

theorem set_dirty_shape (t : wined3d_texture) :
    texture_shape (wined3d_texture_set_dirty t) = texture_shape t := rfl

theorem validate_location_shape (t : wined3d_texture) (i l : Nat) :
    texture_shape (wined3d_texture_validate_location t i l) = texture_shape t := rfl

theorem invalidate_location_shape (t : wined3d_texture) (i l : Nat) :
    texture_shape (wined3d_texture_invalidate_location t i l) = texture_shape t := by
  unfold wined3d_texture_invalidate_location
  dsimp only
  split_ifs <;> rfl

theorem cleanup_sub_resource_shape (m : Machine) (i : Nat) :
    texture_shape (cleanup_sub_resource m i).texture = texture_shape m.texture := by
  unfold cleanup_sub_resource texture_sub_resource_cleanup
  dsimp only [Machine.call]
  repeat' (first | rfl | split)

theorem cleanup_loop_shape (n : Nat) (m : Machine) :
    texture_shape ((List.range n).foldl cleanup_sub_resource m).texture
      = texture_shape m.texture := by
  induction n with
  | zero => rfl
  | succ n ih =>
    rw [List.range_succ, List.foldl_append]
    simp only [List.foldl_cons, List.foldl_nil]
    rw [cleanup_sub_resource_shape, ih]

theorem unload_gl_texture_shape (m : Machine) :
    texture_shape (wined3d_texture_unload_gl_texture m).texture = texture_shape m.texture := by
  unfold wined3d_texture_unload_gl_texture
  dsimp only [Machine.call]
  repeat' (first | rfl | split)

theorem cleanup_shape (m : Machine) :
    texture_shape (wined3d_texture_cleanup m).texture = texture_shape m.texture := by
  unfold wined3d_texture_cleanup
  dsimp only [Machine.call]
  rw [unload_gl_texture_shape, cleanup_loop_shape]

theorem create_dib_section_shape (ext : wined3d_externals) (m : Machine) (i : Nat) :
    texture_shape (wined3d_texture_create_dib_section ext m i).2.texture
      = texture_shape m.texture := by
  unfold wined3d_texture_create_dib_section
  dsimp only [Machine.call]
  repeat' (first | rfl | split)

theorem texture_init_store_shape (ext : wined3d_externals) (desc : wined3d_resource_desc)
    (i : Nat) (surface : Option wined3d_surface) (m : Machine) :
    texture_shape (texture_init_store ext desc i surface m).texture = texture_shape m.texture := by
  unfold texture_init_store
  dsimp only [Machine.call]
  have hdib := create_dib_section_shape ext
    { m with texture := { m.texture with
        sub_resources := List.modify (fun sr => { sr with old := surface })
          i m.texture.sub_resources } } i
  repeat' (first
    | rfl
    | exact hdib
    | rw [invalidate_location_shape, validate_location_shape]
    | split)

theorem texture_init_layers_shape (ext : wined3d_externals)
    (desc surface_desc : wined3d_resource_desc) (flags i : Nat) (js : List Nat) (m : Machine)
    (surface : Option wined3d_surface) :
    texture_shape (texture_init_layers ext desc surface_desc flags i js m surface).2.1.texture
      = texture_shape m.texture := by
  induction js generalizing m surface with
  | nil => rfl
  | cons j js ih =>
    unfold texture_init_layers
    dsimp only
    repeat' (first
      | rfl
      | (rw [cleanup_shape]; rfl)
      | (rw [ih]; rfl)
      | split)

theorem texture_init_levels_shape (ext : wined3d_externals) (desc : wined3d_resource_desc)
    (flags : Nat) (is : List Nat) (surface_desc : wined3d_resource_desc) (m : Machine) :
    texture_shape (texture_init_levels ext desc flags is surface_desc m).2.texture
      = texture_shape m.texture := by
  induction is generalizing m surface_desc with
  | nil => rfl
  | cons i is ih =>
    unfold texture_init_levels
    dsimp only
    split
    · exact texture_init_layers_shape _ _ _ _ _ _ _ _
    · rw [ih, texture_init_store_shape]
      exact texture_init_layers_shape _ _ _ _ _ _ _ _

theorem texture_init_pow2_matrix_shape (gl_info : wined3d_gl_info) (desc : wined3d_resource_desc)
    (w h : Nat) (t : wined3d_texture) :
    texture_shape (texture_init_pow2_matrix gl_info desc w h t) = texture_shape t := by
  unfold texture_init_pow2_matrix
  dsimp only
  repeat' (first | rfl | split)

theorem wined3d_texture_init_shape (ext : wined3d_externals) (ops : wined3d_texture_ops)
    (layers levels : Nat) (desc : wined3d_resource_desc) (flags : Nat) (m : Machine)
    (hok : FAILED (wined3d_texture_init ext ops layers levels desc flags m).1 = false) :
    texture_shape (wined3d_texture_init ext ops layers levels desc flags m).2.texture
      = (levels, layers) := by
  unfold wined3d_texture_init at hok ⊢
  dsimp only [Machine.call] at hok ⊢
  by_cases h1 : FAILED (HRESULT.of_helper
      (ext.resource_init desc (ext.wined3d_get_format desc.format)).1) = true
  · rw [if_pos h1] at hok
    dsimp only at hok
    rw [h1] at hok
    exact absurd hok (by decide)
  · rw [if_neg h1]
    dsimp only
    repeat' (first | rfl | split)

theorem texture_init_body_shape (ext : wined3d_externals) (gl_info : wined3d_gl_info)
    (desc : wined3d_resource_desc) (level_count flags w h : Nat) (m : Machine)
    (hok : FAILED (texture_init_body ext gl_info desc level_count flags w h m).1 = false) :
    texture_shape (texture_init_body ext gl_info desc level_count flags w h m).2.texture
      = (level_count, if desc.usage &&& WINED3DUSAGE_LEGACY_CUBEMAP ≠ 0 then 6 else 1) := by
  unfold texture_init_body at hok ⊢
  dsimp only at hok ⊢
  by_cases h1 : FAILED (wined3d_texture_init ext wined3d_texture_ops.texture2d_ops
      (if desc.usage &&& WINED3DUSAGE_LEGACY_CUBEMAP ≠ 0 then 6 else 1)
      level_count desc flags m).1 = true
  · rw [if_pos h1] at hok
    rw [h1] at hok
    exact absurd hok (by decide)
  · rw [if_neg h1]
    rw [texture_init_levels_shape, texture_init_pow2_matrix_shape]
    exact wined3d_texture_init_shape _ _ _ _ _ _ _ (Bool.of_not_eq_true h1)

/-- A successful `texture_init` leaves the level count it was given and 6
layers for a legacy cubemap, 1 otherwise. -/
theorem texture_init_shape (ext : wined3d_externals) (gl_info : wined3d_gl_info)
    (desc : wined3d_resource_desc) (level_count flags : Nat) (m : Machine)
    (hr : HRESULT) (m2 : Machine)
    (h : texture_init ext gl_info desc level_count flags m = some (hr, m2))
    (hok : FAILED hr = false) :
    texture_shape m2.texture
      = (level_count, if desc.usage &&& WINED3DUSAGE_LEGACY_CUBEMAP ≠ 0 then 6 else 1) := by
  unfold texture_init at h
  by_cases h1 : desc.format ≤ WINED3DFMT_UNKNOWN
  · rw [if_pos h1] at h
    simp only [Option.some.injEq, Prod.mk.injEq] at h
    rw [← h.1] at hok
    exact absurd hok (by decide)
  · rw [if_neg h1] at h
    cases hp : texture_init_pow2_size gl_info desc with
    | none =>
      rw [hp] at h
      exact absurd h (by simp)
    | some pow2 =>
      rw [hp] at h
      dsimp only at h
      by_cases h2 : texture_init_npot_rejected gl_info desc level_count pow2.1 pow2.2 = true
      · rw [if_pos h2] at h
        simp only [Option.some.injEq, Prod.mk.injEq] at h
        rw [← h.1] at hok
        exact absurd hok (by decide)
      · rw [if_neg h2] at h
        by_cases h3 : init_autogen_rejected gl_info desc level_count = true
        · rw [if_pos h3] at h
          simp only [Option.some.injEq, Prod.mk.injEq] at h
          rw [← h.1] at hok
          exact absurd hok (by decide)
        · rw [if_neg h3] at h
          simp only [Option.some.injEq] at h
          have hb := texture_init_body_shape ext gl_info desc level_count flags pow2.1 pow2.2 m
          rw [h] at hb
          exact hb hok

theorem bind_sub_resources (ext : wined3d_externals) (context : wined3d_context) (srgb : Nat)
    (m : Machine) :
    (wined3d_texture_bind ext context srgb m).texture.sub_resources = m.texture.sub_resources := by
  unfold wined3d_texture_bind wined3d_texture_set_gl_texture wined3d_texture_set_dirty
  dsimp only
  repeat' (first | rfl | split)

/-- The location set one round of the upload loop leaves in its slot. -/
theorem upload_locations (l : Nat) :
    (l ||| WINED3D_LOCATION_TEXTURE_RGB) &&& DWORD_not (DWORD_not WINED3D_LOCATION_TEXTURE_RGB)
      = WINED3D_LOCATION_TEXTURE_RGB := by
  rw [show DWORD_not (DWORD_not WINED3D_LOCATION_TEXTURE_RGB) = WINED3D_LOCATION_TEXTURE_RGB
    by decide]
  exact or_and_self_right _ _

/-- One round of the upload loop leaves `TEXTURE_RGB` as the only location of
its slot, whatever the upload helper does. -/
theorem upload_sub_resource_slot (ext : wined3d_externals) (context : wined3d_context)
    (m : Machine) (i : Nat) (sr : wined3d_sub_resource)
    (h : (upload_sub_resource ext context m i).texture.sub_resources[i]? = some sr) :
    sr.locations = WINED3D_LOCATION_TEXTURE_RGB := by
  unfold upload_sub_resource at h
  dsimp only at h
  rw [invalidate_location_sub_resources, List.getElem?_modify_eq] at h
  unfold wined3d_texture_validate_location at h
  dsimp only at h
  rw [List.getElem?_modify_eq] at h
  cases hs : (texture_sub_resource_upload_data ext context m i).texture.sub_resources[i]? with
  | none => rw [hs] at h; exact absurd h (by simp)
  | some sr0 =>
    rw [hs] at h
    simp only [Option.map_eq_map, Option.map_some', Option.some.injEq] at h
    rw [← h]
    exact upload_locations _

/-- A successful `wined3d_texture_upload_data` on a texture with one
sub-resource leaves `TEXTURE_RGB` as the only location of slot 0. -/
theorem upload_data_single (ext : wined3d_externals) (data : List wined3d_sub_resource_data)
    (m : Machine) (hsc : sub_count m.texture = 1)
    (hok : FAILED (wined3d_texture_upload_data ext data m).1 = false)
    (sr : wined3d_sub_resource)
    (h : (wined3d_texture_upload_data ext data m).2.texture.sub_resources[0]? = some sr) :
    sr.locations = WINED3D_LOCATION_TEXTURE_RGB := by
  unfold wined3d_texture_upload_data at hok h
  rw [hsc] at hok h
  dsimp only at hok h
  split_ifs at hok h with hany
  · simp [FAILED] at hok
  · rw [show List.range 1 = [0] from rfl] at h
    simp only [List.foldl_cons, List.foldl_nil, Machine.call] at h
    exact upload_sub_resource_slot _ _ _ _ _ h

/-- C5 (amended): when `wined3d_texture_create` succeeds for a 2D, single-level
texture that is not a cubemap, with initial data, and the texture is then bound
for linear sampling, `TEXTURE_RGB` is the only location of its sub-resource:
`TEXTURE_RGB` is valid, `SYSMEM` and `TEXTURE_SRGB` are not. -/
theorem create_with_data_then_bind (ext : wined3d_externals) (gl_info : wined3d_gl_info)
    (desc : wined3d_resource_desc) (flags : Nat) (data : List wined3d_sub_resource_data)
    (context : wined3d_context) (r : create_result)
    (hcreate : wined3d_texture_create ext gl_info desc 1 flags (some data) = some r)
    (hok : r.hr = HRESULT.WINED3D_OK)
    (h2d : desc.resource_type = WINED3D_RTYPE_TEXTURE_2D)
    (hcube : desc.usage &&& WINED3DUSAGE_LEGACY_CUBEMAP = 0) :
    ∃ t, r.texture = some t
      ∧ ∀ sr,
        (wined3d_texture_bind ext context FALSE
          { texture := t, calls := r.calls }).texture.sub_resources[0]? = some sr →
        sr.locations = WINED3D_LOCATION_TEXTURE_RGB
        ∧ sr.locations &&& WINED3D_LOCATION_TEXTURE_RGB ≠ 0
        ∧ sr.locations &&& WINED3D_LOCATION_SYSMEM = 0
        ∧ sr.locations &&& WINED3D_LOCATION_TEXTURE_SRGB = 0 := by
  unfold wined3d_texture_create at hcreate
  rw [if_neg (by decide)] at hcreate
  by_cases hms : create_multisample_unavailable ext desc = true
  · rw [if_pos hms] at hcreate
    simp only [Option.some.injEq] at hcreate
    rw [← hcreate] at hok
    exact absurd hok (by decide)
  rw [if_neg hms] at hcreate
  by_cases hha : (!ext.HeapAlloc []) = true
  · rw [if_pos hha] at hcreate
    simp only [Option.some.injEq] at hcreate
    rw [← hcreate] at hok
    exact absurd hok (by decide)
  rw [if_neg hha] at hcreate
  dsimp only at hcreate
  rw [if_pos h2d] at hcreate
  cases hinit : texture_init ext gl_info desc 1 flags
      { texture := zero_texture (1 * create_layer_count desc.resource_type),
        calls := [Call.HeapAlloc] } with
  | none =>
    rw [hinit] at hcreate
    exact absurd hcreate (by simp)
  | some p =>
    obtain ⟨hr, object⟩ := p
    rw [hinit] at hcreate
    dsimp only at hcreate
    by_cases hf : FAILED hr = true
    · rw [if_pos hf] at hcreate
      simp only [Option.some.injEq] at hcreate
      rw [← hcreate] at hok
      dsimp only at hok
      rw [hok] at hf
      exact absurd hf (by decide)
    rw [if_neg hf] at hcreate
    have hshape := texture_init_shape ext gl_info desc 1 flags _ hr object hinit
      (Bool.of_not_eq_true hf)
    have hsc : sub_count object.texture = 1 := by
      unfold texture_shape at hshape
      rw [if_neg (by simpa using hcube)] at hshape
      simp only [Prod.mk.injEq] at hshape
      unfold sub_count
      rw [hshape.1, hshape.2]
      rfl
    by_cases hu : FAILED (wined3d_texture_upload_data ext data object).1 = true
    · rw [if_pos hu] at hcreate
      simp only [Option.some.injEq] at hcreate
      rw [← hcreate] at hok
      dsimp only at hok
      rw [hok] at hu
      exact absurd hu (by decide)
    rw [if_neg hu] at hcreate
    simp only [Option.some.injEq] at hcreate
    rw [← hcreate]
    refine ⟨_, rfl, ?_⟩
    intro sr hsr
    rw [bind_sub_resources] at hsr
    have hloc := upload_data_single ext data object hsc (Bool.of_not_eq_true hu) sr hsr
    rw [hloc]
    decide

/-- Witness of C5: scenario A, a 4x4 single-level 2D texture created with
initial data. -/
theorem create_with_data_then_bind_witness :
    ∃ t, ((wined3d_texture_create (spec_externals 7 (sample_context true 0 0))
        (sample_context true 0 0).gl_info scenario_desc 1 0 (some scenario_data)).get
          (by decide)).texture = some t :=
  (create_with_data_then_bind (spec_externals 7 (sample_context true 0 0))
    (sample_context true 0 0).gl_info scenario_desc 0 scenario_data (sample_context true 0 0)
    ((wined3d_texture_create (spec_externals 7 (sample_context true 0 0))
      (sample_context true 0 0).gl_info scenario_desc 1 0 (some scenario_data)).get (by decide))
    (Option.some_get _).symm (by decide) (by decide) (by decide)).imp (fun _ ht => ht.1)

/-- Counterexample to C5 as stated: in scenario A the surface starts out valid
in host memory, and after creation with initial data and a bind for linear
sampling its location set holds `TEXTURE_RGB` but no longer `SYSMEM`. -/
theorem create_with_data_then_bind_counterexample :
    (wined3d_texture_create (spec_externals 7 (sample_context true 0 0))
        (sample_context true 0 0).gl_info scenario_desc 1 0 none).bind
          (fun r => r.texture.bind (fun t =>
            (t.sub_resources[0]?).map (fun sr => sr.locations)))
      = some WINED3D_LOCATION_SYSMEM
    ∧ (wined3d_texture_create (spec_externals 7 (sample_context true 0 0))
        (sample_context true 0 0).gl_info scenario_desc 1 0 (some scenario_data)).bind
          (fun r => r.texture.bind (fun t =>
            ((wined3d_texture_bind (spec_externals 7 (sample_context true 0 0))
              (sample_context true 0 0) FALSE
              { texture := t, calls := r.calls }).texture.sub_resources[0]?).map
                (fun sr => (sr.locations, sr.locations &&& WINED3D_LOCATION_SYSMEM))))
      = some (WINED3D_LOCATION_TEXTURE_RGB, 0) := by
  decide

/-! ## Location sets: what an upload leaves -/

theorem ne_zero_iff_exists_testBit (x : Nat) : x ≠ 0 ↔ ∃ k, x.testBit k = true := by
  constructor
  · exact Nat.ne_zero_implies_bit_true
  · rintro ⟨k, hk⟩ h0
    rw [h0, Nat.zero_testBit] at hk
    exact absurd hk (by decide)

theorem bind_and_dirtify_sub_resources (ext : wined3d_externals) (context : wined3d_context)
    (srgb : Nat) (m : Machine) :
    (wined3d_texture_bind_and_dirtify ext context srgb m).texture.sub_resources
      = m.texture.sub_resources := by
  unfold wined3d_texture_bind_and_dirtify
  dsimp only
  rw [bind_sub_resources]
  split_ifs <;> rfl

theorem texture_prepare_texture_sub_resources (ext : wined3d_externals)
    (context : wined3d_context) (srgb : Nat) (m : Machine) :
    (texture_prepare_texture ext context srgb m).texture.sub_resources
      = m.texture.sub_resources := by
  unfold texture_prepare_texture
  cases h : m.texture.texture_ops
  · simp only [Machine.call, h, texture2d_prepare_texture]
    rw [bind_and_dirtify_sub_resources]
    dsimp only
    split
    · rfl
    · split <;> rfl
  · simp only [Machine.call, h, texture3d_prepare_texture]
    rw [bind_and_dirtify_sub_resources]

/-! ## The legacy DC: facts -/

theorem invalidate_location_slot (t : wined3d_texture) (i m : Nat) :
    (wined3d_texture_invalidate_location t i m).sub_resources[i]?
      = (t.sub_resources[i]?).map
          (fun sr => { sr with locations := sr.locations &&& DWORD_not m }) := by
  rw [invalidate_location_sub_resources, List.getElem?_modify_eq]
  rfl

theorem set_dib_in_use_slot (t : wined3d_texture) (i v : Nat) :
    (set_dib_in_use t i v).sub_resources[i]?
      = (t.sub_resources[i]?).map (fun sr => { sr with dib := { sr.dib with in_use := v } }) := by
  unfold set_dib_in_use
  exact List.getElem?_modify_eq _ _ _

theorem set_map_count_slot (t : wined3d_texture) (i v : Nat) :
    (set_map_count t i v).sub_resources[i]?
      = (t.sub_resources[i]?).map (fun sr => { sr with
          old := sr.old.map (fun surface =>
            { surface with resource := { surface.resource with map_count := v } }) }) := by
  unfold set_map_count
  exact List.getElem?_modify_eq _ _ _

theorem set_map_binding_slot (t : wined3d_texture) (i v : Nat) :
    (set_map_binding t i v).sub_resources[i]?
      = (t.sub_resources[i]?).map (fun sr => { sr with
          old := sr.old.map (fun surface =>
            { surface with resource := { surface.resource with map_binding := v } }) }) := by
  unfold set_map_binding
  exact List.getElem?_modify_eq _ _ _

theorem dc_context_release_texture (c : Option wined3d_context) (m : Machine) :
    (dc_context_release c m).texture = m.texture := by
  unfold dc_context_release
  split <;> rfl

theorem dc_context_acquire_texture (ext : wined3d_externals) (device : wined3d_device)
    (m : Machine) : (dc_context_acquire ext device m).2.texture = m.texture := by
  unfold dc_context_acquire
  split <;> rfl

theorem sub_resource_objects_slot (t t2 : wined3d_texture)
    (h : sub_resource_objects t2 = sub_resource_objects t) (i : Nat) :
    (t2.sub_resources[i]?).map (fun sr => (sr.old, sr.dib))
      = (t.sub_resources[i]?).map (fun sr => (sr.old, sr.dib)) := by
  have h2 := congrArg (fun p => p.2.2[i]?) h
  simpa [sub_resource_objects] using h2

theorem and_DIB_cases (l : Nat) :
    l &&& DWORD_not (DWORD_not WINED3D_LOCATION_DIB) = 0
      ∨ l &&& DWORD_not (DWORD_not WINED3D_LOCATION_DIB) = WINED3D_LOCATION_DIB := by
  have h : DWORD_not (DWORD_not WINED3D_LOCATION_DIB) = 2 ^ 3 := by decide
  rw [h]
  by_cases hb : l.testBit 3 = true
  · right
    apply Nat.eq_of_testBit_eq
    intro k
    rw [Nat.testBit_and, Nat.testBit_two_pow]
    by_cases hk : 3 = k
    · subst hk
      simp [hb, WINED3D_LOCATION_DIB]
      decide
    · have : (WINED3D_LOCATION_DIB).testBit k = false := by
        rw [show WINED3D_LOCATION_DIB = 2 ^ 3 from rfl, Nat.testBit_two_pow]
        simp [hk]
      simp [hk, this]
  · left
    apply Nat.eq_of_testBit_eq
    intro k
    rw [Nat.testBit_and, Nat.testBit_two_pow]
    by_cases hk : 3 = k
    · subst hk
      simp [hb]
    · simp [hk]


theorem create_dib_section_slot (ext : wined3d_externals) (m : Machine) (i : Nat)
    (sr0 : wined3d_sub_resource) (h : m.texture.sub_resources[i]? = some sr0) :
    ∃ sr1, (wined3d_texture_create_dib_section ext m i).2.texture.sub_resources[i]? = some sr1
      ∧ sr1.old = sr0.old ∧ sr1.dib.in_use = sr0.dib.in_use ∧ sr1.locations = sr0.locations := by
  unfold wined3d_texture_create_dib_section
  dsimp only [Machine.call]
  repeat' (first
    | exact ⟨sr0, h, rfl, rfl, rfl⟩
    | split)
  all_goals simp [List.getElem?_modify_eq, h]

theorem create_dib_section_flags (ext : wined3d_externals) (m : Machine) (i : Nat) :
    (wined3d_texture_create_dib_section ext m i).2.texture.flags = m.texture.flags := by
  unfold wined3d_texture_create_dib_section
  dsimp only [Machine.call]
  repeat' (first | rfl | split)


theorem sub_resource_objects_shape (t t2 : wined3d_texture)
    (h : sub_resource_objects t2 = sub_resource_objects t) :
    texture_shape t2 = texture_shape t := by
  have h1 := congrArg (fun p => p.1) h
  have h2 := congrArg (fun p => p.2.1) h
  simp only [sub_resource_objects] at h1 h2
  simp [texture_shape, h1, h2]

theorem sub_resource_objects_get (t t2 : wined3d_texture)
    (h : sub_resource_objects t2 = sub_resource_objects t) (i : Nat)
    (sr : wined3d_sub_resource) (hsr : t.sub_resources[i]? = some sr) :
    ∃ sr2, t2.sub_resources[i]? = some sr2 ∧ sr2.old = sr.old ∧ sr2.dib = sr.dib := by
  have h2 := sub_resource_objects_slot t t2 h i
  rw [hsr] at h2
  cases h3 : t2.sub_resources[i]? with
  | none => rw [h3] at h2; simp at h2
  | some sr2 =>
    rw [h3] at h2
    simp only [Option.map_some', Option.some.injEq, Prod.mk.injEq] at h2
    exact ⟨sr2, rfl, h2.1, h2.2⟩

theorem sub_resource_old_of_slot (t : wined3d_texture) (i : Nat) (sr : wined3d_sub_resource)
    (h : t.sub_resources[i]? = some sr) : sub_resource_old t i = sr.old := by
  unfold sub_resource_old
  rw [h]
  rfl

theorem get_dc_finish_slot (ext : wined3d_externals) (c : Option wined3d_context) (m : Machine)
    (i : Nat) (sr1 : wined3d_sub_resource) (s1 : wined3d_surface)
    (hload : ∀ s c l t,
      sub_resource_objects (ext.surface_load_location s c l t) = sub_resource_objects t)
    (h : m.texture.sub_resources[i]? = some sr1) (hold : sr1.old = some s1) :
    ∃ sr s2, (get_dc_finish ext c m i).m.texture.sub_resources[i]? = some sr
      ∧ (sr.locations = 0 ∨ sr.locations = WINED3D_LOCATION_DIB)
      ∧ sr.dib = { sr1.dib with in_use := TRUE }
      ∧ sr.old = some s2
      ∧ s2.resource.type = s1.resource.type
      ∧ s2.resource.map_count = (s1.resource.map_count + 1) % 2 ^ 32
      ∧ (get_dc_finish ext c m i).dc = some sr.dib.dc
      ∧ (get_dc_finish ext c m i).hr = HRESULT.WINED3D_OK
      ∧ texture_shape (get_dc_finish ext c m i).m.texture = texture_shape m.texture := by
  obtain ⟨sr2, h2, h2old, h2dib⟩ := sub_resource_objects_get m.texture _
    (hload (sub_resource_old m.texture i) c WINED3D_LOCATION_DIB m.texture) i sr1 h
  have hshape := sub_resource_objects_shape m.texture _
    (hload (sub_resource_old m.texture i) c WINED3D_LOCATION_DIB m.texture)
  have hslot : (set_dib_in_use (wined3d_texture_invalidate_location
        (ext.surface_load_location (sub_resource_old m.texture i) c WINED3D_LOCATION_DIB m.texture)
        i (DWORD_not WINED3D_LOCATION_DIB)) i TRUE).sub_resources[i]?
      = some { old := some s1
               locations := sr2.locations &&& DWORD_not (DWORD_not WINED3D_LOCATION_DIB)
               dib := { sr1.dib with in_use := TRUE } } := by
    rw [set_dib_in_use_slot, invalidate_location_slot, h2]
    simp [h2old, h2dib, hold]
  have hold2 := sub_resource_old_of_slot _ _ _ hslot
  unfold get_dc_finish
  simp only [dc_context_release_texture, hold2]
  refine ⟨{ old := some { s1 with resource := { s1.resource with
              map_count := (s1.resource.map_count + 1) % 2 ^ 32 } }
            locations := sr2.locations &&& DWORD_not (DWORD_not WINED3D_LOCATION_DIB)
            dib := { sr1.dib with in_use := TRUE } },
    { s1 with resource := { s1.resource with
        map_count := (s1.resource.map_count + 1) % 2 ^ 32 } },
    ?_, and_DIB_cases sr2.locations, rfl, rfl, rfl, rfl, ?_, trivial, ?_⟩
  · rw [set_map_count_slot, hslot]
    rfl
  · unfold sub_resource_dib
    rw [set_map_count_slot, hslot]
    rfl
  · rw [← hshape]
    rfl


theorem sub_count_of_shape (t t2 : wined3d_texture) (h : texture_shape t2 = texture_shape t) :
    sub_count t2 = sub_count t := by
  have h1 := congrArg (fun p => p.1) h
  have h2 := congrArg (fun p => p.2) h
  simp only [texture_shape] at h1 h2
  simp [sub_count, h1, h2]

theorem get_sub_resource_some (t : wined3d_texture) (i : Nat) (surface : wined3d_surface)
    (h : wined3d_texture_get_sub_resource t i = some surface) :
    i < sub_count t ∧ ∃ sr, t.sub_resources[i]? = some sr ∧ sr.old = some surface := by
  unfold wined3d_texture_get_sub_resource at h
  dsimp only at h
  by_cases hi : i ≥ sub_count t
  · rw [if_pos hi] at h
    exact absurd h (by simp)
  · rw [if_neg hi] at h
    refine ⟨Nat.lt_of_not_ge hi, ?_⟩
    unfold sub_resource_old at h
    cases hsr : t.sub_resources[i]? with
    | none => rw [hsr] at h; exact absurd h (by simp)
    | some sr => rw [hsr] at h; exact ⟨sr, rfl, h⟩

theorem get_sub_resource_of_slot (t : wined3d_texture) (i : Nat) (sr : wined3d_sub_resource)
    (hi : i < sub_count t) (h : t.sub_resources[i]? = some sr) :
    wined3d_texture_get_sub_resource t i = sr.old := by
  unfold wined3d_texture_get_sub_resource
  dsimp only
  rw [if_neg (Nat.not_le_of_lt hi)]
  exact sub_resource_old_of_slot t i sr h

theorem sub_resource_dib_of_slot (t : wined3d_texture) (i : Nat) (sr : wined3d_sub_resource)
    (h : t.sub_resources[i]? = some sr) : sub_resource_dib t i = sr.dib := by
  unfold sub_resource_dib
  rw [h]

theorem get_dc_create_dib_shape (ext : wined3d_externals) (surface : wined3d_surface)
    (m : Machine) (i : Nat) :
    texture_shape (get_dc_create_dib ext surface m i).2.texture = texture_shape m.texture := by
  unfold get_dc_create_dib
  dsimp only
  repeat' (first | rfl | exact create_dib_section_shape ext m i | split)

theorem get_dc_create_dib_slot (ext : wined3d_externals) (surface : wined3d_surface)
    (m : Machine) (i : Nat) (sr0 : wined3d_sub_resource) (s0 : wined3d_surface)
    (h : m.texture.sub_resources[i]? = some sr0) (hold : sr0.old = some s0) :
    ∃ sr1 s1, (get_dc_create_dib ext surface m i).2.texture.sub_resources[i]? = some sr1
      ∧ sr1.old = some s1
      ∧ s1.resource.type = s0.resource.type
      ∧ s1.resource.map_count = s0.resource.map_count
      ∧ sr1.dib.in_use = sr0.dib.in_use := by
  obtain ⟨sr1, h1, h1old, h1use, _⟩ := create_dib_section_slot ext m i sr0 h
  unfold get_dc_create_dib
  dsimp only
  repeat' (first
    | exact ⟨sr0, s0, h, hold, rfl, rfl, rfl⟩
    | exact ⟨sr1, s0, h1, h1old.trans hold, rfl, rfl, h1use⟩
    | split)
  refine ⟨{ sr1 with old := some { s0 with resource := { s0.resource with
      map_binding := WINED3D_LOCATION_DIB } } }, _, ?_, rfl, rfl, rfl, h1use⟩
  rw [set_map_binding_slot, h1]
  simp [h1old, hold]


theorem get_sub_resource_none_iff (t : wined3d_texture) (i : Nat) :
    wined3d_texture_get_sub_resource t i = none
      ↔ (sub_count t ≤ i ∨ sub_resource_old t i = none) := by
  unfold wined3d_texture_get_sub_resource
  dsimp only
  by_cases h : i ≥ sub_count t
  · rw [if_pos h]
    exact ⟨fun _ => Or.inl h, fun _ => rfl⟩
  · rw [if_neg h]
    exact ⟨fun h2 => Or.inr h2, fun h2 => h2.elim (fun h3 => absurd h3 h) id⟩

theorem get_dc_no_sub_resource (ext : wined3d_externals) (device : wined3d_device) (m : Machine)
    (i : Nat) (h : wined3d_texture_get_sub_resource m.texture i = none) :
    wined3d_texture_get_dc ext device m i
      = { hr := HRESULT.WINED3DERR_INVALIDCALL, dc := none, m := m } := by
  unfold wined3d_texture_get_dc
  rw [h]

theorem get_dc_not_surface (ext : wined3d_externals) (device : wined3d_device) (m : Machine)
    (i : Nat) (s : wined3d_surface) (h : wined3d_texture_get_sub_resource m.texture i = some s)
    (ht : s.resource.type ≠ WINED3D_RTYPE_SURFACE) :
    wined3d_texture_get_dc ext device m i
      = { hr := HRESULT.WINED3DERR_INVALIDCALL, dc := none, m := m } := by
  unfold wined3d_texture_get_dc
  rw [h]
  dsimp only
  rw [if_pos ht]

theorem get_dc_in_use (ext : wined3d_externals) (device : wined3d_device) (m : Machine)
    (i : Nat) (s : wined3d_surface) (h : wined3d_texture_get_sub_resource m.texture i = some s)
    (ht : s.resource.type = WINED3D_RTYPE_SURFACE)
    (hu : (sub_resource_dib m.texture i).in_use ≠ 0) :
    wined3d_texture_get_dc ext device m i
      = { hr := HRESULT.WINEDDERR_DCALREADYCREATED, dc := none, m := m } := by
  unfold wined3d_texture_get_dc
  rw [h]
  dsimp only
  rw [if_neg (not_not.mpr ht), if_pos hu]

theorem get_dc_mapped (ext : wined3d_externals) (device : wined3d_device) (m : Machine)
    (i : Nat) (s : wined3d_surface) (h : wined3d_texture_get_sub_resource m.texture i = some s)
    (ht : s.resource.type = WINED3D_RTYPE_SURFACE)
    (hu : (sub_resource_dib m.texture i).in_use = 0)
    (hm : s.resource.map_count ≠ 0) :
    wined3d_texture_get_dc ext device m i
      = { hr := HRESULT.WINED3DERR_INVALIDCALL, dc := none, m := m } := by
  unfold wined3d_texture_get_dc
  rw [h]
  dsimp only
  rw [if_neg (not_not.mpr ht), if_neg (not_not.mpr hu), if_pos hm]

/-- C12: `wined3d_texture_get_dc` fails without changing the texture, any
sub-resource or the call log and without writing `*dc` when the sub-resource
index is out of range or the slot holds no object (`WINED3DERR_INVALIDCALL`),
when the sub-resource is not a surface (`WINED3DERR_INVALIDCALL`), when a DC is
already checked out for the sub-resource (`WINEDDERR_DCALREADYCREATED`), and
when the surface is mapped, its `map_count` not being zero
(`WINED3DERR_INVALIDCALL`); the tests run in this order, so a mapped surface
whose DC is checked out is reported as `WINEDDERR_DCALREADYCREATED`. -/
theorem get_dc_rejects (ext : wined3d_externals) (device : wined3d_device) (m : Machine)
    (i : Nat) :
    ((sub_count m.texture ≤ i ∨ sub_resource_old m.texture i = none) →
        (wined3d_texture_get_dc ext device m i).hr = HRESULT.WINED3DERR_INVALIDCALL
        ∧ (wined3d_texture_get_dc ext device m i).dc = none
        ∧ (wined3d_texture_get_dc ext device m i).m = m)
    ∧ (∀ sub_resource, wined3d_texture_get_sub_resource m.texture i = some sub_resource →
        (sub_resource.resource.type ≠ WINED3D_RTYPE_SURFACE →
          (wined3d_texture_get_dc ext device m i).hr = HRESULT.WINED3DERR_INVALIDCALL
          ∧ (wined3d_texture_get_dc ext device m i).dc = none
          ∧ (wined3d_texture_get_dc ext device m i).m = m)
        ∧ (sub_resource.resource.type = WINED3D_RTYPE_SURFACE →
            (sub_resource_dib m.texture i).in_use ≠ 0 →
          (wined3d_texture_get_dc ext device m i).hr = HRESULT.WINEDDERR_DCALREADYCREATED
          ∧ (wined3d_texture_get_dc ext device m i).dc = none
          ∧ (wined3d_texture_get_dc ext device m i).m = m)
        ∧ (sub_resource.resource.type = WINED3D_RTYPE_SURFACE →
            (sub_resource_dib m.texture i).in_use = 0 →
            sub_resource.resource.map_count ≠ 0 →
          (wined3d_texture_get_dc ext device m i).hr = HRESULT.WINED3DERR_INVALIDCALL
          ∧ (wined3d_texture_get_dc ext device m i).dc = none
          ∧ (wined3d_texture_get_dc ext device m i).m = m)) := by
  refine ⟨fun h => ?_, fun sub_resource hs => ⟨fun ht => ?_, fun ht hu => ?_, fun ht hu hm => ?_⟩⟩
  · rw [get_dc_no_sub_resource ext device m i ((get_sub_resource_none_iff _ _).mpr h)]
    exact ⟨rfl, rfl, rfl⟩
  · rw [get_dc_not_surface ext device m i sub_resource hs ht]
    exact ⟨rfl, rfl, rfl⟩
  · rw [get_dc_in_use ext device m i sub_resource hs ht hu]
    exact ⟨rfl, rfl, rfl⟩
  · rw [get_dc_mapped ext device m i sub_resource hs ht hu hm]
    exact ⟨rfl, rfl, rfl⟩

theorem get_dc_ok_cases (ext : wined3d_externals) (device : wined3d_device) (m : Machine)
    (i : Nat) (hok : (wined3d_texture_get_dc ext device m i).hr = HRESULT.WINED3D_OK) :
    ∃ surface, wined3d_texture_get_sub_resource m.texture i = some surface
      ∧ surface.resource.type = WINED3D_RTYPE_SURFACE
      ∧ (sub_resource_dib m.texture i).in_use = 0
      ∧ surface.resource.map_count = 0
      ∧ wined3d_texture_get_dc ext device m i
          = get_dc_finish ext (dc_context_acquire ext device m).1
              (get_dc_create_dib ext surface (dc_context_acquire ext device m).2 i).2 i := by
  cases hs : wined3d_texture_get_sub_resource m.texture i with
  | none =>
    rw [get_dc_no_sub_resource ext device m i hs] at hok
    simp at hok
  | some surface =>
    by_cases ht : surface.resource.type = WINED3D_RTYPE_SURFACE
    · by_cases hu : (sub_resource_dib m.texture i).in_use = 0
      · by_cases hm : surface.resource.map_count = 0
        · refine ⟨surface, rfl, ht, hu, hm, ?_⟩
          unfold wined3d_texture_get_dc at hok ⊢
          rw [hs] at hok ⊢
          dsimp only at hok ⊢
          rw [if_neg (not_not.mpr ht), if_neg (not_not.mpr hu), if_neg (not_not.mpr hm)] at hok ⊢
          by_cases hf : FAILED (get_dc_create_dib ext surface
              (dc_context_acquire ext device m).2 i).1 = true
          · rw [if_pos hf] at hok
            simp at hok
          · rw [if_neg hf]
        · rw [get_dc_mapped ext device m i surface hs ht hu hm] at hok
          simp at hok
      · rw [get_dc_in_use ext device m i surface hs ht hu] at hok
        simp at hok
    · rw [get_dc_not_surface ext device m i surface hs ht] at hok
      simp at hok

/-- C13: after a successful `wined3d_texture_get_dc` on sub-resource `i`, with a
helper `surface_load_location` that leaves the objects and bitmaps of the slots
alone, the location set of sub-resource `i` holds no location other than `DIB`,
`in_use` is set, the `map_count` of the surface is one higher than before, the
DC handed out is the one stored in the slot, and a second
`wined3d_texture_get_dc` on the same sub-resource is rejected with
`WINEDDERR_DCALREADYCREATED` and changes nothing. -/
theorem get_dc_success (ext : wined3d_externals) (device : wined3d_device) (m : Machine)
    (i : Nat)
    (hload : ∀ s c l t,
      sub_resource_objects (ext.surface_load_location s c l t) = sub_resource_objects t)
    (hok : (wined3d_texture_get_dc ext device m i).hr = HRESULT.WINED3D_OK) :
    ∃ surface sr surface2,
      wined3d_texture_get_sub_resource m.texture i = some surface
      ∧ (wined3d_texture_get_dc ext device m i).m.texture.sub_resources[i]? = some sr
      ∧ (sr.locations = 0 ∨ sr.locations = WINED3D_LOCATION_DIB)
      ∧ sr.dib.in_use = TRUE
      ∧ sr.old = some surface2
      ∧ surface2.resource.map_count = surface.resource.map_count + 1
      ∧ (wined3d_texture_get_dc ext device m i).dc = some sr.dib.dc
      ∧ (wined3d_texture_get_dc ext device (wined3d_texture_get_dc ext device m i).m i).hr
          = HRESULT.WINEDDERR_DCALREADYCREATED
      ∧ (wined3d_texture_get_dc ext device (wined3d_texture_get_dc ext device m i).m i).dc = none
      ∧ (wined3d_texture_get_dc ext device (wined3d_texture_get_dc ext device m i).m i).m
          = (wined3d_texture_get_dc ext device m i).m := by
  obtain ⟨surface, hs, ht, hu, hm, heq⟩ := get_dc_ok_cases ext device m i hok
  obtain ⟨hi, sr0, hsr0, hold0⟩ := get_sub_resource_some m.texture i surface hs
  have hsr0a : (dc_context_acquire ext device m).2.texture.sub_resources[i]? = some sr0 := by
    rw [dc_context_acquire_texture]; exact hsr0
  obtain ⟨sr1, s1, hsr1, hold1, htype1, hmap1, huse1⟩ :=
    get_dc_create_dib_slot ext surface (dc_context_acquire ext device m).2 i sr0 surface
      hsr0a hold0
  obtain ⟨sr, s2, hsr, hloc, hdib, hold, htype2, hmap2, hdc, _, hshape⟩ :=
    get_dc_finish_slot ext (dc_context_acquire ext device m).1
      (get_dc_create_dib ext surface (dc_context_acquire ext device m).2 i).2 i sr1 s1 hload
      hsr1 hold1
  rw [← heq] at hsr hdc hshape
  have hshape2 : texture_shape (wined3d_texture_get_dc ext device m i).m.texture
      = texture_shape m.texture := by
    rw [hshape, get_dc_create_dib_shape, dc_context_acquire_texture]
  have hi2 : i < sub_count (wined3d_texture_get_dc ext device m i).m.texture := by
    rw [sub_count_of_shape _ _ hshape2]; exact hi
  have hs2 : wined3d_texture_get_sub_resource (wined3d_texture_get_dc ext device m i).m.texture i
      = some s2 := by
    rw [get_sub_resource_of_slot _ i sr hi2 hsr, hold]
  have huse2 : (sub_resource_dib (wined3d_texture_get_dc ext device m i).m.texture i).in_use ≠ 0 := by
    rw [sub_resource_dib_of_slot _ i sr hsr, hdib]
    simp [TRUE]
  have hsecond := get_dc_in_use ext device (wined3d_texture_get_dc ext device m i).m i s2 hs2
    (htype2.trans (htype1.trans ht)) huse2
  refine ⟨surface, sr, s2, hs, hsr, hloc, ?_, hold, ?_, hdc, ?_, ?_, ?_⟩
  · rw [hdib]
  · rw [hmap2, hmap1, hm]; rfl
  · rw [hsecond]
  · rw [hsecond]
  · rw [hsecond]


theorem map_modify_of_invariant {α β : Type} (f : α → β) (g : α → α) (h : ∀ a, f (g a) = f a)
    (n : Nat) (l : List α) : (List.modify g n l).map f = l.map f := by
  apply List.ext_getElem?
  intro k
  rw [List.getElem?_map, List.getElem?_map, List.getElem?_modify]
  cases l[k]? with
  | none => rfl
  | some a =>
    by_cases hk : n = k
    · simp [hk, h]
    · simp [hk]

theorem validate_location_objects (t : wined3d_texture) (i l : Nat) :
    sub_resource_objects (wined3d_texture_validate_location t i l) = sub_resource_objects t := by
  unfold sub_resource_objects wined3d_texture_validate_location
  dsimp only
  rw [map_modify_of_invariant (fun sr : wined3d_sub_resource => (sr.old, sr.dib))
    (fun sr => { sr with locations := sr.locations ||| l }) (fun _ => rfl)]

theorem spec_ensure_objects (s : Option wined3d_surface) (l : Nat) (t : wined3d_texture) :
    sub_resource_objects (spec_ensure s l t) = sub_resource_objects t := by
  unfold spec_ensure
  repeat' (first | rfl | exact validate_location_objects _ _ _ | split)

theorem release_dc_nodc (ext : wined3d_externals) (device : wined3d_device) (m : Machine)
    (i dc : Nat) (s : wined3d_surface)
    (hs : wined3d_texture_get_sub_resource m.texture i = some s)
    (ht : s.resource.type = WINED3D_RTYPE_SURFACE)
    (h : (sub_resource_dib m.texture i).in_use = 0 ∨ (sub_resource_dib m.texture i).dc ≠ dc) :
    wined3d_texture_release_dc ext device m i dc = (HRESULT.WINEDDERR_NODC, m) := by
  unfold wined3d_texture_release_dc
  rw [hs]
  dsimp only
  rw [if_neg (not_not.mpr ht)]
  by_cases hu : (sub_resource_dib m.texture i).in_use = 0
  · rw [if_pos hu]
  · rw [if_neg hu, if_pos (h.resolve_left hu)]

/-- The texture after the two writes of a successful `wined3d_texture_release_dc`. -/
theorem release_dc_ok (ext : wined3d_externals) (device : wined3d_device) (m : Machine)
    (i dc : Nat) (s : wined3d_surface)
    (hs : wined3d_texture_get_sub_resource m.texture i = some s)
    (ht : s.resource.type = WINED3D_RTYPE_SURFACE)
    (hu : (sub_resource_dib m.texture i).in_use ≠ 0)
    (hdc : (sub_resource_dib m.texture i).dc = dc) :
    wined3d_texture_release_dc ext device m i dc
      = if s.resource.map_binding = WINED3D_LOCATION_USER_MEMORY
            ∨ (m.texture.flags &&& WINED3D_TEXTURE_PIN_SYSMEM ≠ 0
              ∧ s.resource.map_binding ≠ WINED3D_LOCATION_DIB) then
          (HRESULT.WINED3D_OK, release_dc_sync ext device
            { m with texture := set_dib_in_use (set_map_count m.texture i
                ((s.resource.map_count + 2 ^ 32 - 1) % 2 ^ 32)) i FALSE }
            i s.resource.map_binding)
        else
          (HRESULT.WINED3D_OK,
            { m with texture := set_dib_in_use (set_map_count m.texture i
                ((s.resource.map_count + 2 ^ 32 - 1) % 2 ^ 32)) i FALSE }) := by
  unfold wined3d_texture_release_dc
  rw [hs]
  dsimp only
  rw [if_neg (not_not.mpr ht), if_neg hu, if_neg (not_not.mpr hdc)]
  rfl

theorem release_dc_writes_slot (t : wined3d_texture) (i v : Nat) (sr : wined3d_sub_resource)
    (s : wined3d_surface) (h : t.sub_resources[i]? = some sr) (hold : sr.old = some s) :
    (set_dib_in_use (set_map_count t i v) i FALSE).sub_resources[i]?
      = some { old := some { s with resource := { s.resource with map_count := v } }
               locations := sr.locations
               dib := { sr.dib with in_use := FALSE } } := by
  rw [set_dib_in_use_slot, set_map_count_slot, h]
  simp [hold]

theorem release_dc_sync_calls (ext : wined3d_externals) (device : wined3d_device) (m : Machine)
    (i b : Nat) :
    (release_dc_sync ext device m i b).calls
      = m.calls ++ (if BOOL_true device.d3d_initialized then [Call.context_acquire] else [])
        ++ [Call.surface_load_location i b]
        ++ (if BOOL_true device.d3d_initialized then [Call.context_release] else []) := by
  unfold release_dc_sync dc_context_acquire dc_context_release
  by_cases h : BOOL_true device.d3d_initialized = true
  · simp [h, Machine.call]
  · simp [h]

theorem release_dc_sync_texture (ext : wined3d_externals) (device : wined3d_device) (m : Machine)
    (i b : Nat) :
    (release_dc_sync ext device m i b).texture
      = wined3d_texture_invalidate_location
          (ext.surface_load_location (sub_resource_old m.texture i)
            (dc_context_acquire ext device m).1 b m.texture) i WINED3D_LOCATION_DIB := by
  unfold release_dc_sync
  simp only [dc_context_release_texture, dc_context_acquire_texture]


theorem set_dib_in_use_locations (t : wined3d_texture) (i v : Nat) :
    (set_dib_in_use t i v).sub_resources.map (fun sr => sr.locations)
      = t.sub_resources.map (fun sr => sr.locations) := by
  unfold set_dib_in_use
  exact map_modify_of_invariant (fun sr : wined3d_sub_resource => sr.locations)
    (fun sr => { sr with dib := { sr.dib with in_use := v } }) (fun _ => rfl) _ _

theorem set_map_count_locations (t : wined3d_texture) (i v : Nat) :
    (set_map_count t i v).sub_resources.map (fun sr => sr.locations)
      = t.sub_resources.map (fun sr => sr.locations) := by
  unfold set_map_count
  exact map_modify_of_invariant (fun sr : wined3d_sub_resource => sr.locations)
    (fun sr => { sr with
      old := sr.old.map (fun surface =>
        { surface with resource := { surface.resource with map_count := v } }) })
    (fun _ => rfl) _ _

theorem release_dc_no_sub_resource (ext : wined3d_externals) (device : wined3d_device)
    (m : Machine) (i dc : Nat) (h : wined3d_texture_get_sub_resource m.texture i = none) :
    wined3d_texture_release_dc ext device m i dc = (HRESULT.WINED3DERR_INVALIDCALL, m) := by
  unfold wined3d_texture_release_dc
  rw [h]

theorem release_dc_not_surface (ext : wined3d_externals) (device : wined3d_device)
    (m : Machine) (i dc : Nat) (s : wined3d_surface)
    (h : wined3d_texture_get_sub_resource m.texture i = some s)
    (ht : s.resource.type ≠ WINED3D_RTYPE_SURFACE) :
    wined3d_texture_release_dc ext device m i dc = (HRESULT.WINED3DERR_INVALIDCALL, m) := by
  unfold wined3d_texture_release_dc
  rw [h]
  dsimp only
  rw [if_pos ht]

/-- C14 (amended): for a sub-resource that is a surface,
`wined3d_texture_release_dc` returns `WINEDDERR_NODC` and changes nothing (so
`in_use`, `map_count` and every location set stay as they are) when no DC is
checked out for the sub-resource or the DC passed is not the one stored for it;
when the checked-out DC is passed it succeeds, clears `in_use` and takes one
off `map_count` (in `UINT` arithmetic; exactly one less for a count that is not
zero).  For an index that is out of range, a slot without an object and a
sub-resource that is not a surface it returns `WINED3DERR_INVALIDCALL` and
changes nothing.  The helper `surface_load_location` is taken to leave the
objects and bitmaps of the slots alone. -/
theorem release_dc_contract (ext : wined3d_externals) (device : wined3d_device) (m : Machine)
    (i dc : Nat)
    (hload : ∀ s c l t,
      sub_resource_objects (ext.surface_load_location s c l t) = sub_resource_objects t) :
    ((sub_count m.texture ≤ i ∨ sub_resource_old m.texture i = none) →
        wined3d_texture_release_dc ext device m i dc = (HRESULT.WINED3DERR_INVALIDCALL, m))
    ∧ ∀ surface, wined3d_texture_get_sub_resource m.texture i = some surface →
      (surface.resource.type ≠ WINED3D_RTYPE_SURFACE →
        wined3d_texture_release_dc ext device m i dc = (HRESULT.WINED3DERR_INVALIDCALL, m))
      ∧ (surface.resource.type = WINED3D_RTYPE_SURFACE →
        (((sub_resource_dib m.texture i).in_use = 0 ∨ (sub_resource_dib m.texture i).dc ≠ dc) →
          wined3d_texture_release_dc ext device m i dc = (HRESULT.WINEDDERR_NODC, m))
        ∧ ((sub_resource_dib m.texture i).in_use ≠ 0 → (sub_resource_dib m.texture i).dc = dc →
          (wined3d_texture_release_dc ext device m i dc).1 = HRESULT.WINED3D_OK
          ∧ ∃ sr surface2,
              (wined3d_texture_release_dc ext device m i dc).2.texture.sub_resources[i]? = some sr
              ∧ sr.dib.in_use = FALSE
              ∧ sr.old = some surface2
              ∧ surface2.resource.map_count = (surface.resource.map_count + 2 ^ 32 - 1) % 2 ^ 32
              ∧ (0 < surface.resource.map_count → surface.resource.map_count < 2 ^ 32 →
                  surface2.resource.map_count + 1 = surface.resource.map_count))) := by
  refine ⟨fun h => release_dc_no_sub_resource ext device m i dc
      ((get_sub_resource_none_iff _ _).mpr h),
    fun surface hs => ⟨release_dc_not_surface ext device m i dc surface hs, fun ht =>
      ⟨release_dc_nodc ext device m i dc surface hs ht, fun hu hdc => ?_⟩⟩⟩
  obtain ⟨_, sr0, hsr0, hold0⟩ := get_sub_resource_some m.texture i surface hs
  have hslot := release_dc_writes_slot m.texture i
    ((surface.resource.map_count + 2 ^ 32 - 1) % 2 ^ 32) sr0 surface hsr0 hold0
  have hmc : 0 < surface.resource.map_count → surface.resource.map_count < 2 ^ 32 →
      (surface.resource.map_count + 2 ^ 32 - 1) % 2 ^ 32 + 1 = surface.resource.map_count := by
    intro h0 h1
    rw [show surface.resource.map_count + 2 ^ 32 - 1
        = (surface.resource.map_count - 1) + 2 ^ 32 by omega, Nat.add_mod_right,
      Nat.mod_eq_of_lt (by omega)]
    omega
  rw [release_dc_ok ext device m i dc surface hs ht hu hdc]
  split
  · refine ⟨rfl, ?_⟩
    dsimp only
    obtain ⟨sr2, h2, h2old, h2dib⟩ := sub_resource_objects_get _ _
      (hload (sub_resource_old (set_dib_in_use (set_map_count m.texture i
          ((surface.resource.map_count + 2 ^ 32 - 1) % 2 ^ 32)) i FALSE) i)
        (dc_context_acquire ext device { m with texture := set_dib_in_use (set_map_count m.texture i
          ((surface.resource.map_count + 2 ^ 32 - 1) % 2 ^ 32)) i FALSE }).1
        surface.resource.map_binding _) i _ hslot
    refine ⟨{ sr2 with locations := sr2.locations &&& DWORD_not WINED3D_LOCATION_DIB }, _, ?_,
      ?_, h2old, rfl, hmc⟩
    · rw [release_dc_sync_texture, invalidate_location_slot]
      dsimp only
      rw [h2]
      rfl
    · dsimp only
      rw [h2dib]
  · exact ⟨rfl, _, _, hslot, rfl, rfl, rfl, hmc⟩

/-- C15 (amended): a successful `wined3d_texture_release_dc` copies the bitmap
back exactly when the map binding of the surface is `USER_MEMORY`, or the
texture has `WINED3D_TEXTURE_PIN_SYSMEM` and the map binding is not `DIB` (a
binding of `SYSMEM` on a pinned texture included): it then calls
`surface_load_location` with the map binding, inside a context when the device
is initialised, and afterwards the `DIB` location of the sub-resource is
invalid.  In every other case, a map binding of `SYSMEM` on a texture without
`WINED3D_TEXTURE_PIN_SYSMEM` among them, it makes no call and leaves every
location set as it is. -/
theorem release_dc_resync (ext : wined3d_externals) (device : wined3d_device) (m : Machine)
    (i dc : Nat) (surface : wined3d_surface)
    (hs : wined3d_texture_get_sub_resource m.texture i = some surface)
    (ht : surface.resource.type = WINED3D_RTYPE_SURFACE)
    (hu : (sub_resource_dib m.texture i).in_use ≠ 0)
    (hdc : (sub_resource_dib m.texture i).dc = dc) :
    (wined3d_texture_release_dc ext device m i dc).1 = HRESULT.WINED3D_OK
    ∧ ((surface.resource.map_binding = WINED3D_LOCATION_USER_MEMORY
          ∨ (m.texture.flags &&& WINED3D_TEXTURE_PIN_SYSMEM ≠ 0
            ∧ surface.resource.map_binding ≠ WINED3D_LOCATION_DIB)) →
        (wined3d_texture_release_dc ext device m i dc).2.calls
          = m.calls ++ (if BOOL_true device.d3d_initialized then [Call.context_acquire] else [])
            ++ [Call.surface_load_location i surface.resource.map_binding]
            ++ (if BOOL_true device.d3d_initialized then [Call.context_release] else [])
        ∧ ∀ sr, (wined3d_texture_release_dc ext device m i dc).2.texture.sub_resources[i]? = some sr →
            sr.locations &&& WINED3D_LOCATION_DIB = 0)
    ∧ (¬ (surface.resource.map_binding = WINED3D_LOCATION_USER_MEMORY
          ∨ (m.texture.flags &&& WINED3D_TEXTURE_PIN_SYSMEM ≠ 0
            ∧ surface.resource.map_binding ≠ WINED3D_LOCATION_DIB)) →
        (wined3d_texture_release_dc ext device m i dc).2.calls = m.calls
        ∧ (wined3d_texture_release_dc ext device m i dc).2.texture.sub_resources.map
            (fun sr => sr.locations)
          = m.texture.sub_resources.map (fun sr => sr.locations)) := by
  rw [release_dc_ok ext device m i dc surface hs ht hu hdc]
  refine ⟨by split <;> rfl, fun hc => ?_, fun hc => ?_⟩
  · rw [if_pos hc]
    refine ⟨release_dc_sync_calls ext device _ i _, fun sr hsr => ?_⟩
    dsimp only at hsr
    rw [release_dc_sync_texture, invalidate_location_slot] at hsr
    cases h2 : (ext.surface_load_location
        (sub_resource_old ({ m with texture := set_dib_in_use (set_map_count m.texture i
          ((surface.resource.map_count + 2 ^ 32 - 1) % 2 ^ 32)) i FALSE } : Machine).texture i)
        (dc_context_acquire ext device { m with texture := set_dib_in_use (set_map_count m.texture i
          ((surface.resource.map_count + 2 ^ 32 - 1) % 2 ^ 32)) i FALSE }).1
        surface.resource.map_binding
        ({ m with texture := set_dib_in_use (set_map_count m.texture i
          ((surface.resource.map_count + 2 ^ 32 - 1) % 2 ^ 32)) i FALSE } :
            Machine).texture).sub_resources[i]? with
    | none => rw [h2] at hsr; simp at hsr
    | some sr2 =>
      rw [h2] at hsr
      simp only [Option.map_some', Option.some.injEq] at hsr
      rw [← hsr]
      exact and_DWORD_not_and_eq_zero _ _ _ (by decide)
  · rw [if_neg hc]
    refine ⟨rfl, ?_⟩
    dsimp only
    rw [set_dib_in_use_locations, set_map_count_locations]


/-- The four rejections of C12 on the sample texture: index 1 of one
sub-resource, a volume, a DC that is checked out, a mapped surface. -/
theorem get_dc_rejects_witness :
    (wined3d_texture_get_dc (spec_externals 7 (sample_context true 0 0)) sample_device
        { texture := sample_dc_texture 0 WINED3D_RTYPE_SURFACE WINED3D_LOCATION_SYSMEM 0 zero_dib
          calls := [] } 1).hr = HRESULT.WINED3DERR_INVALIDCALL
    ∧ (wined3d_texture_get_dc (spec_externals 7 (sample_context true 0 0)) sample_device
        { texture := sample_volume_dc_texture, calls := [] } 0).hr
      = HRESULT.WINED3DERR_INVALIDCALL
    ∧ (wined3d_texture_get_dc (spec_externals 7 (sample_context true 0 0)) sample_device
        (sample_dc_checked_out 0 zero_dib) 0).hr = HRESULT.WINEDDERR_DCALREADYCREATED
    ∧ (wined3d_texture_get_dc (spec_externals 7 (sample_context true 0 0)) sample_device
        { texture := sample_dc_texture 0 WINED3D_RTYPE_SURFACE WINED3D_LOCATION_SYSMEM 1 zero_dib
          calls := [] } 0).hr = HRESULT.WINED3DERR_INVALIDCALL :=
  ⟨((get_dc_rejects _ _ _ 1).1 (Or.inl (by decide))).1,
   (((get_dc_rejects _ _ _ 0).2 (Option.get _ (by decide)) (Option.some_get _).symm).1
      (by decide)).1,
   (((get_dc_rejects _ _ _ 0).2 (Option.get _ (by decide)) (Option.some_get _).symm).2.1
      (by decide) (by decide)).1,
   (((get_dc_rejects _ _ _ 0).2 (Option.get _ (by decide)) (Option.some_get _).symm).2.2
      (by decide) (by decide) (by decide)).1⟩

/-- C13 on the sample texture, whose first `wined3d_texture_get_dc` succeeds. -/
theorem get_dc_success_witness :
    ∃ surface sr surface2,
      wined3d_texture_get_sub_resource
          (sample_dc_texture 0 WINED3D_RTYPE_SURFACE WINED3D_LOCATION_SYSMEM 0 zero_dib) 0
        = some surface
      ∧ (sample_dc_checked_out 0 zero_dib).texture.sub_resources[0]? = some sr
      ∧ (sr.locations = 0 ∨ sr.locations = WINED3D_LOCATION_DIB)
      ∧ sr.dib.in_use = TRUE
      ∧ sr.old = some surface2
      ∧ surface2.resource.map_count = surface.resource.map_count + 1
      ∧ (wined3d_texture_get_dc (spec_externals 7 (sample_context true 0 0)) sample_device
          { texture := sample_dc_texture 0 WINED3D_RTYPE_SURFACE WINED3D_LOCATION_SYSMEM 0 zero_dib
            calls := [] } 0).dc = some sr.dib.dc
      ∧ (wined3d_texture_get_dc (spec_externals 7 (sample_context true 0 0)) sample_device
          (sample_dc_checked_out 0 zero_dib) 0).hr = HRESULT.WINEDDERR_DCALREADYCREATED
      ∧ (wined3d_texture_get_dc (spec_externals 7 (sample_context true 0 0)) sample_device
          (sample_dc_checked_out 0 zero_dib) 0).dc = none
      ∧ (wined3d_texture_get_dc (spec_externals 7 (sample_context true 0 0)) sample_device
          (sample_dc_checked_out 0 zero_dib) 0).m = sample_dc_checked_out 0 zero_dib :=
  get_dc_success (spec_externals 7 (sample_context true 0 0)) sample_device
    { texture := sample_dc_texture 0 WINED3D_RTYPE_SURFACE WINED3D_LOCATION_SYSMEM 0 zero_dib
      calls := [] } 0
    (fun s _ l t => spec_ensure_objects s l t) (by decide)

/-- C14 (amended) on the sample texture with its DC 5 checked out: DC 9 is
refused, DC 5 is released. -/
theorem release_dc_contract_witness :
    wined3d_texture_release_dc (spec_externals 7 (sample_context true 0 0)) sample_device
        (sample_dc_checked_out 0 zero_dib) 0 9
      = (HRESULT.WINEDDERR_NODC, sample_dc_checked_out 0 zero_dib)
    ∧ (wined3d_texture_release_dc (spec_externals 7 (sample_context true 0 0)) sample_device
        (sample_dc_checked_out 0 zero_dib) 0 5).1 = HRESULT.WINED3D_OK :=
  ⟨(((release_dc_contract (spec_externals 7 (sample_context true 0 0)) sample_device
      (sample_dc_checked_out 0 zero_dib) 0 9
      (fun s _ l t => spec_ensure_objects s l t)).2 (Option.get _ (by decide))
      (Option.some_get _).symm).2 (by decide)).1 (Or.inr (by decide)),
   ((((release_dc_contract (spec_externals 7 (sample_context true 0 0)) sample_device
      (sample_dc_checked_out 0 zero_dib) 0 5
      (fun s _ l t => spec_ensure_objects s l t)).2 (Option.get _ (by decide))
      (Option.some_get _).symm).2 (by decide)).2 (by decide) (by decide)).1⟩

/-- Counterexample to C14 as stated: no DC is checked out for the volume of a
3D texture, and `wined3d_texture_release_dc` returns `WINED3DERR_INVALIDCALL`,
not `WINEDDERR_NODC`. -/
theorem release_dc_contract_counterexample :
    (sub_resource_dib sample_volume_dc_texture 0).in_use = 0
    ∧ (wined3d_texture_release_dc (spec_externals 7 (sample_context true 0 0)) sample_device
        { texture := sample_volume_dc_texture, calls := [] } 0 0).1
      = HRESULT.WINED3DERR_INVALIDCALL
    ∧ (wined3d_texture_release_dc (spec_externals 7 (sample_context true 0 0)) sample_device
        { texture := sample_volume_dc_texture, calls := [] } 0 0).1
      ≠ HRESULT.WINEDDERR_NODC := by
  decide

/-- C15 (amended) on a texture that pins system memory: the release copies the
bitmap back to `SYSMEM`. -/
theorem release_dc_resync_witness :
    (wined3d_texture_release_dc (spec_externals 7 (sample_context true 0 0)) sample_device
        (sample_dc_checked_out WINED3D_TEXTURE_PIN_SYSMEM zero_dib) 0 5).2.calls
      = (sample_dc_checked_out WINED3D_TEXTURE_PIN_SYSMEM zero_dib).calls
        ++ [Call.context_acquire, Call.surface_load_location 0 WINED3D_LOCATION_SYSMEM,
            Call.context_release] :=
  ((release_dc_resync (spec_externals 7 (sample_context true 0 0)) sample_device
      (sample_dc_checked_out WINED3D_TEXTURE_PIN_SYSMEM zero_dib) 0 5 (Option.get _ (by decide))
      (Option.some_get _).symm (by decide) (by decide) (by decide)).2.1
      (Or.inr (by decide))).1

/-- Counterexample to C15 as stated: the surface maps `SYSMEM`, the texture does
not pin system memory and its DC 7 is checked out with `DIB` as the only valid
location; the release succeeds, makes no call and leaves `DIB` valid. -/
theorem release_dc_resync_counterexample :
    (sample_dc_checked_out 0 { dc := 7, dib_section := 7, bitmap_data := 7, in_use := 0 }
        ).texture.sub_resources.map
        (fun sr => (sr.old.map (fun s => s.resource.map_binding), sr.dib.in_use, sr.locations))
      = [(some WINED3D_LOCATION_SYSMEM, TRUE, WINED3D_LOCATION_DIB)]
    ∧ (wined3d_texture_release_dc (spec_externals 7 (sample_context true 0 0)) sample_device
        (sample_dc_checked_out 0 { dc := 7, dib_section := 7, bitmap_data := 7, in_use := 0 })
        0 7).1 = HRESULT.WINED3D_OK
    ∧ (wined3d_texture_release_dc (spec_externals 7 (sample_context true 0 0)) sample_device
        (sample_dc_checked_out 0 { dc := 7, dib_section := 7, bitmap_data := 7, in_use := 0 })
        0 7).2.calls
      = (sample_dc_checked_out 0 { dc := 7, dib_section := 7, bitmap_data := 7, in_use := 0 }).calls
    ∧ (wined3d_texture_release_dc (spec_externals 7 (sample_context true 0 0)) sample_device
        (sample_dc_checked_out 0 { dc := 7, dib_section := 7, bitmap_data := 7, in_use := 0 })
        0 7).2.texture.sub_resources.map (fun sr => sr.locations) = [WINED3D_LOCATION_DIB] := by
  decide

/-! ## Power-of-two sizes and the sub-resources of a new texture -/

theorem pow2_loop_spec (fuel : Nat) : ∀ (k d : Nat), k ≤ 31 → d ≤ 2 ^ 31 → 32 ≤ fuel + k →
    (k = 0 ∨ 2 ^ (k - 1) < d) →
    ∃ j, j ≤ 31 ∧ pow2_loop fuel (2 ^ k) d = some (2 ^ j) ∧ d ≤ 2 ^ j
      ∧ (j = 0 ∨ 2 ^ (j - 1) < d) := by
  induction fuel with
  | zero => intro k d hk _ hf _; omega
  | succ fuel ih =>
    intro k d hk hd hf hlow
    unfold pow2_loop
    by_cases hlt : 2 ^ k < d
    · rw [if_pos hlt]
      have hk30 : k < 31 := by
        by_contra hge
        have : k = 31 := by omega
        subst this
        omega
      have hshift : (2 ^ k <<< 1) % 2 ^ 32 = 2 ^ (k + 1) := by
        rw [Nat.shiftLeft_eq, pow_one, ← pow_succ]
        apply Nat.mod_eq_of_lt
        exact Nat.pow_lt_pow_right (by decide) (by omega)
      rw [hshift]
      exact ih (k + 1) d (by omega) hd (by omega) (Or.inr (by simpa using hlt))
    · rw [if_neg hlt]
      exact ⟨k, hk, rfl, Nat.le_of_not_lt hlt, hlow⟩

theorem find_pow2_spec (d : Nat) (hd : d ≤ 2 ^ 31) :
    ∃ j, j ≤ 31 ∧ find_pow2 d = some (2 ^ j) ∧ d ≤ 2 ^ j ∧ (j = 0 ∨ 2 ^ (j - 1) < d) := by
  have h := pow2_loop_spec 34 0 d (by omega) hd (by omega) (Or.inl rfl)
  simpa [find_pow2] using h

theorem find_pow2_eq_iff (d j : Nat) (hle : d ≤ 2 ^ j) (hlow : j = 0 ∨ 2 ^ (j - 1) < d) :
    2 ^ j = d ↔ ∃ k, d = 2 ^ k := by
  constructor
  · intro h
    exact ⟨j, h.symm⟩
  · rintro ⟨k, rfl⟩
    rcases hlow with h0 | hlow
    · subst h0
      have hk : k = 0 := by
        by_contra hne
        have : 2 ^ 1 ≤ 2 ^ k := Nat.pow_le_pow_right (by decide) (by omega)
        omega
      rw [hk]
    · have h1 : j - 1 < k := (Nat.pow_lt_pow_iff_right (by decide)).mp hlow
      have h2 : k ≤ j := (Nat.pow_le_pow_iff_right (by decide)).mp hle
      have : k = j := by omega
      rw [this]

/-- C20: for every size `d` with `1 ≤ d ≤ 2 ^ 31` the power-of-two search of
`texture_init` and `volumetexture_init` ends and gives the next power of two: a
power of two `p` with `d ≤ p` that is the least one (`p = 1` or `p / 2 < d`), and
`p = d` exactly when `d` is a power of two. -/
theorem find_pow2_next (d : Nat) (h1 : 1 ≤ d) (h2 : d ≤ 2 ^ 31) :
    ∃ p, find_pow2 d = some p
      ∧ (∃ k, p = 2 ^ k)
      ∧ d ≤ p
      ∧ (p = 1 ∨ p / 2 < d)
      ∧ (p = d ↔ ∃ k, d = 2 ^ k) := by
  obtain ⟨j, _, hf, hle, hlow⟩ := find_pow2_spec d h2
  refine ⟨2 ^ j, hf, ⟨j, rfl⟩, hle, ?_, find_pow2_eq_iff d j hle hlow⟩
  rcases hlow with h0 | hlow
  · left; rw [h0]; rfl
  · right
    have hj : j = (j - 1) + 1 := by
      have : j ≠ 0 := by
        intro h0
        subst h0
        simp at hlow
        omega
      omega
    rw [hj, pow_succ, Nat.mul_div_cancel _ (by decide)]
    simpa using hlow

/-- C20 at the size 5. -/
theorem find_pow2_next_witness :
    ∃ p, find_pow2 5 = some p ∧ (∃ k, p = 2 ^ k) ∧ 5 ≤ p ∧ (p = 1 ∨ p / 2 < 5)
      ∧ (p = 5 ↔ ∃ k, 5 = 2 ^ k) :=
  find_pow2_next 5 (by decide) (by decide)


/-- Once the doubled value has left the 32 bits the search never ends: no
amount of fuel gives a result for a size above `2 ^ 31`. -/
theorem pow2_loop_large (fuel : Nat) : ∀ (k d : Nat), k ≤ 32 → 2 ^ 31 < d →
    pow2_loop fuel (2 ^ k % 2 ^ 32) d = none := by
  induction fuel with
  | zero => intro k d _ _; rfl
  | succ fuel ih =>
    intro k d hk hd
    unfold pow2_loop
    have hlt : 2 ^ k % 2 ^ 32 < d := by
      by_cases h32 : k = 32
      · subst h32
        simp
        omega
      · have : 2 ^ k ≤ 2 ^ 31 := Nat.pow_le_pow_right (by decide) (by omega)
        exact Nat.lt_of_le_of_lt (Nat.mod_le _ _) (Nat.lt_of_le_of_lt this hd)
    rw [if_pos hlt]
    by_cases h32 : k = 32
    · subst h32
      exact ih 32 d (by omega) hd
    · have hshift : ((2 ^ k % 2 ^ 32) <<< 1) % 2 ^ 32 = 2 ^ (k + 1) % 2 ^ 32 := by
        rw [Nat.mod_eq_of_lt (Nat.pow_lt_pow_right (by decide) (by omega)), Nat.shiftLeft_eq,
          pow_one, ← pow_succ]
      rw [hshift]
      exact ih (k + 1) d (by omega) hd

theorem find_pow2_large (d : Nat) (hd : 2 ^ 31 < d) : find_pow2 d = none := by
  have h := pow2_loop_large 34 0 d (by omega) hd
  simpa [find_pow2] using h


theorem texture_init_pow2_size_bounded (gl_info : wined3d_gl_info) (desc : wined3d_resource_desc)
    (hnpot : gl_info.supported gl_extension.ARB_TEXTURE_NON_POWER_OF_TWO = false)
    (hw : desc.width ≤ 2 ^ 31) (hh : desc.height ≤ 2 ^ 31) :
    ∃ jw jh, texture_init_pow2_size gl_info desc = some (2 ^ jw, 2 ^ jh)
      ∧ find_pow2 desc.width = some (2 ^ jw)
      ∧ find_pow2 desc.height = some (2 ^ jh)
      ∧ (2 ^ jw = desc.width ↔ ∃ k, desc.width = 2 ^ k)
      ∧ (2 ^ jh = desc.height ↔ ∃ k, desc.height = 2 ^ k) := by
  obtain ⟨jw, _, hfw, hlew, hloww⟩ := find_pow2_spec desc.width hw
  obtain ⟨jh, _, hfh, hleh, hlowh⟩ := find_pow2_spec desc.height hh
  refine ⟨jw, jh, ?_, hfw, hfh, find_pow2_eq_iff _ _ hlew hloww, find_pow2_eq_iff _ _ hleh hlowh⟩
  unfold texture_init_pow2_size
  simp [hnpot, hfw, hfh]

/-- On a device without `ARB_TEXTURE_NON_POWER_OF_TWO`, for sizes up to
`2 ^ 31`: a mipmapped or cube texture whose width or height is not a power of
two is rejected outside the scratch pool, and in the scratch pool the test lets
it pass to the tests that follow. -/
theorem texture_init_npot_rejection (ext : wined3d_externals) (gl_info : wined3d_gl_info)
    (desc : wined3d_resource_desc) (level_count flags : Nat) (m : Machine)
    (hnpot : gl_info.supported gl_extension.ARB_TEXTURE_NON_POWER_OF_TWO = false)
    (hw : desc.width ≤ 2 ^ 31) (hh : desc.height ≤ 2 ^ 31)
    (hnp2 : (¬ ∃ k, desc.width = 2 ^ k) ∨ (¬ ∃ k, desc.height = 2 ^ k))
    (hmip : level_count ≠ 1 ∨ desc.usage &&& WINED3DUSAGE_LEGACY_CUBEMAP ≠ 0) :
    (desc.pool ≠ WINED3D_POOL_SCRATCH →
        texture_init ext gl_info desc level_count flags m
          = some (HRESULT.WINED3DERR_INVALIDCALL, m))
    ∧ (desc.pool = WINED3D_POOL_SCRATCH →
        ∃ pow2, texture_init_pow2_size gl_info desc = some pow2
          ∧ texture_init_npot_rejected gl_info desc level_count pow2.1 pow2.2 = false
          ∧ texture_init ext gl_info desc level_count flags m
            = if desc.format ≤ WINED3DFMT_UNKNOWN then some (HRESULT.WINED3DERR_INVALIDCALL, m)
              else if init_autogen_rejected gl_info desc level_count then
                some (HRESULT.WINED3DERR_INVALIDCALL, m)
              else some (texture_init_body ext gl_info desc level_count flags pow2.1 pow2.2 m)) := by
  obtain ⟨jw, jh, hsize, _, _, hiw, hih⟩ := texture_init_pow2_size_bounded gl_info desc hnpot hw hh
  have hne : (2 ^ jw != desc.width || 2 ^ jh != desc.height) = true := by
    rcases hnp2 with h | h
    · have : 2 ^ jw ≠ desc.width := fun he => h (hiw.mp he)
      simp [this]
    · have : 2 ^ jh ≠ desc.height := fun he => h (hih.mp he)
      simp [this]
  have hm : (level_count != 1 || desc.usage &&& WINED3DUSAGE_LEGACY_CUBEMAP != 0) = true := by
    rcases hmip with h | h
    · simp [h]
    · simp [h]
  constructor
  · intro hpool
    have hrej : texture_init_npot_rejected gl_info desc level_count (2 ^ jw) (2 ^ jh) = true := by
      unfold texture_init_npot_rejected
      rw [hnpot, hne, hm]
      simp [hpool]
    unfold texture_init
    by_cases hf : desc.format ≤ WINED3DFMT_UNKNOWN
    · rw [if_pos hf]
    · rw [if_neg hf, hsize]
      dsimp only
      rw [if_pos hrej]
  · intro hpool
    have hrej : texture_init_npot_rejected gl_info desc level_count (2 ^ jw) (2 ^ jh) = false := by
      unfold texture_init_npot_rejected
      simp [hpool]
    refine ⟨(2 ^ jw, 2 ^ jh), hsize, hrej, ?_⟩
    unfold texture_init
    by_cases hf : desc.format ≤ WINED3DFMT_UNKNOWN
    · rw [if_pos hf, if_pos hf]
    · rw [if_neg hf, if_neg hf, hsize]
      dsimp only
      rw [hrej]
      simp

/-- C18, for a size above `2 ^ 31`: on a device without
`ARB_TEXTURE_NON_POWER_OF_TWO`, for every description of a known format whose
width or height is above `2 ^ 31`, the power-of-two search of `texture_init`
does not end, so `texture_init` returns nothing, `WINED3DERR_INVALIDCALL`
included, whatever the level count, the usage and the pool.  (For sizes up to
`2 ^ 31` the rejection is as C18 says, `texture_init_npot_rejection`.) -/
theorem texture_init_npot_no_return (ext : wined3d_externals) (gl_info : wined3d_gl_info)
    (desc : wined3d_resource_desc) (level_count flags : Nat) (m : Machine)
    (hnpot : gl_info.supported gl_extension.ARB_TEXTURE_NON_POWER_OF_TWO = false)
    (hfmt : WINED3DFMT_UNKNOWN < desc.format)
    (hlarge : 2 ^ 31 < desc.width ∨ 2 ^ 31 < desc.height) :
    texture_init ext gl_info desc level_count flags m = none := by
  have hsize : texture_init_pow2_size gl_info desc = none := by
    unfold texture_init_pow2_size
    rw [hnpot]
    simp only [Bool.false_eq_true, if_false]
    rcases hlarge with h | h
    · rw [find_pow2_large _ h]
    · cases find_pow2 desc.width with
      | none => rfl
      | some p => simp only [find_pow2_large _ h]
  unfold texture_init
  rw [if_neg (Nat.not_le_of_lt hfmt), hsize]


theorem create_dib_section_coordinates (ext : wined3d_externals) (m : Machine) (i : Nat) :
    texture_coordinates (wined3d_texture_create_dib_section ext m i).2.texture
      = texture_coordinates m.texture := by
  unfold wined3d_texture_create_dib_section
  dsimp only [Machine.call]
  repeat' (first | rfl | split)

theorem invalidate_sysmem_coordinates (t : wined3d_texture) (i : Nat) :
    texture_coordinates (wined3d_texture_invalidate_location t i WINED3D_LOCATION_SYSMEM)
      = texture_coordinates t := by
  unfold wined3d_texture_invalidate_location
  rw [if_neg (by decide)]
  rfl

theorem validate_location_coordinates (t : wined3d_texture) (i l : Nat) :
    texture_coordinates (wined3d_texture_validate_location t i l) = texture_coordinates t := rfl

theorem texture_init_store_coordinates (ext : wined3d_externals) (desc : wined3d_resource_desc)
    (i : Nat) (surface : Option wined3d_surface) (m : Machine) :
    texture_coordinates (texture_init_store ext desc i surface m).texture
      = texture_coordinates m.texture := by
  unfold texture_init_store
  dsimp only [Machine.call]
  have hdib := create_dib_section_coordinates ext
    { m with texture := { m.texture with
        sub_resources := List.modify (fun sr => { sr with old := surface })
          i m.texture.sub_resources } } i
  repeat' (first
    | rfl
    | exact hdib
    | rw [invalidate_sysmem_coordinates, validate_location_coordinates]
    | split)

theorem texture_init_layers_ok (ext : wined3d_externals)
    (desc surface_desc : wined3d_resource_desc) (flags i : Nat) (js : List Nat) (m : Machine)
    (surface : Option wined3d_surface)
    (hsurf : ∀ t d tg l j f, (ext.wined3d_surface_create t d tg l j f).hr_failed = none) :
    (texture_init_layers ext desc surface_desc flags i js m surface).1 = HRESULT.WINED3D_OK
    ∧ texture_coordinates (texture_init_layers ext desc surface_desc flags i js m surface).2.1.texture
      = texture_coordinates m.texture
    ∧ texture_shape (texture_init_layers ext desc surface_desc flags i js m surface).2.1.texture
      = texture_shape m.texture := by
  induction js generalizing m surface with
  | nil => exact ⟨rfl, rfl, rfl⟩
  | cons j js ih =>
    unfold texture_init_layers
    dsimp only
    rw [hsurf]
    rw [if_neg (by decide)]
    exact ih _ _

theorem texture_init_levels_ok (ext : wined3d_externals) (desc : wined3d_resource_desc)
    (flags : Nat) (is : List Nat) (surface_desc : wined3d_resource_desc) (m : Machine)
    (hsurf : ∀ t d tg l j f, (ext.wined3d_surface_create t d tg l j f).hr_failed = none) :
    (texture_init_levels ext desc flags is surface_desc m).1 = HRESULT.WINED3D_OK
    ∧ texture_coordinates (texture_init_levels ext desc flags is surface_desc m).2.texture
      = texture_coordinates m.texture := by
  induction is generalizing m surface_desc with
  | nil => exact ⟨rfl, rfl⟩
  | cons i is ih =>
    unfold texture_init_levels
    dsimp only
    have hl := texture_init_layers_ok ext desc surface_desc flags i
      (List.range m.texture.layer_count) m none hsurf
    rw [hl.1, if_neg (by decide)]
    refine ⟨(ih _ _).1, ?_⟩
    rw [(ih _ _).2, texture_init_store_coordinates, hl.2.1]


theorem wined3d_texture_init_ok (ext : wined3d_externals) (ops : wined3d_texture_ops)
    (layers levels : Nat) (desc : wined3d_resource_desc) (flags : Nat) (m : Machine)
    (hres : (ext.resource_init desc (ext.wined3d_get_format desc.format)).1 = none) :
    (wined3d_texture_init ext ops layers levels desc flags m).1 = HRESULT.WINED3D_OK
    ∧ (wined3d_texture_init ext ops layers levels desc flags m).2.texture.resource
        = (ext.resource_init desc (ext.wined3d_get_format desc.format)).2
    ∧ (wined3d_texture_init ext ops layers levels desc flags m).2.texture.level_count = levels
    ∧ ((wined3d_texture_init ext ops layers levels desc flags m).2.texture.flags
          = WINED3D_TEXTURE_POW2_MAT_IDENT ||| WINED3D_TEXTURE_NORMALIZED_COORDS
        ∨ (wined3d_texture_init ext ops layers levels desc flags m).2.texture.flags
          = WINED3D_TEXTURE_POW2_MAT_IDENT ||| WINED3D_TEXTURE_NORMALIZED_COORDS
              ||| WINED3D_TEXTURE_PIN_SYSMEM) := by
  unfold wined3d_texture_init
  dsimp only [Machine.call]
  rw [hres, if_neg (by decide)]
  dsimp only
  by_cases hp : flags &&& WINED3D_TEXTURE_CREATE_PIN_SYSMEM ≠ 0
  · rw [if_pos hp]
    exact ⟨rfl, rfl, rfl, Or.inr rfl⟩
  · rw [if_neg hp]
    exact ⟨rfl, rfl, rfl, Or.inl rfl⟩

theorem texture_init_body_ok (ext : wined3d_externals) (gl_info : wined3d_gl_info)
    (desc : wined3d_resource_desc) (level_count flags w h : Nat) (m : Machine)
    (hres : (ext.resource_init desc (ext.wined3d_get_format desc.format)).1 = none)
    (hsurf : ∀ t d tg l j f, (ext.wined3d_surface_create t d tg l j f).hr_failed = none) :
    (texture_init_body ext gl_info desc level_count flags w h m).1 = HRESULT.WINED3D_OK
    ∧ texture_coordinates (texture_init_body ext gl_info desc level_count flags w h m).2.texture
      = texture_coordinates (texture_init_pow2_matrix gl_info desc w h
          (wined3d_texture_init ext wined3d_texture_ops.texture2d_ops
            (if desc.usage &&& WINED3DUSAGE_LEGACY_CUBEMAP ≠ 0 then 6 else 1)
            level_count desc flags m).2.texture) := by
  have hok := (wined3d_texture_init_ok ext wined3d_texture_ops.texture2d_ops
    (if desc.usage &&& WINED3DUSAGE_LEGACY_CUBEMAP ≠ 0 then 6 else 1)
    level_count desc flags m hres).1
  unfold texture_init_body
  dsimp only
  rw [hok, if_neg (by decide)]
  exact texture_init_levels_ok ext desc flags _ _ _ hsurf

/-- C19 (amended): on a device without `ARB_TEXTURE_NON_POWER_OF_TWO`, for every
2D texture description of a known format (above `WINED3DFMT_UNKNOWN`) with
width and height up to `2 ^ 31`, one level, without `LEGACY_CUBEMAP` and without
`AUTOGENMIPMAP`, whose width or height is not a power of two, `texture_init`
succeeds when `resource_init` and every `wined3d_surface_create` succeed.  When
the GL type of the resource is a rectangle texture the texture gets the target
`GL_TEXTURE_RECTANGLE_ARB`, `WINED3D_TEXTURE_COND_NP2` and the matrix entries
width and height; otherwise, with `WINED3D_GL_NORMALIZED_TEXRECT`, it gets
`WINED3D_TEXTURE_COND_NP2`; otherwise `WINED3D_TEXTURE_POW2_MAT_IDENT` is
cleared and the matrix entries are width / pow2_width and
height / pow2_height. -/
theorem texture_init_pow2_fallback (ext : wined3d_externals) (gl_info : wined3d_gl_info)
    (desc : wined3d_resource_desc) (flags : Nat) (m : Machine)
    (hnpot : gl_info.supported gl_extension.ARB_TEXTURE_NON_POWER_OF_TWO = false)
    (hfmt : WINED3DFMT_UNKNOWN < desc.format)
    (hw : desc.width ≤ 2 ^ 31) (hh : desc.height ≤ 2 ^ 31)
    (hcube : desc.usage &&& WINED3DUSAGE_LEGACY_CUBEMAP = 0)
    (hauto : desc.usage &&& WINED3DUSAGE_AUTOGENMIPMAP = 0)
    (hnp2 : (¬ ∃ k, desc.width = 2 ^ k) ∨ (¬ ∃ k, desc.height = 2 ^ k))
    (hres : (ext.resource_init desc (ext.wined3d_get_format desc.format)).1 = none)
    (hsurf : ∀ t d tg l j f, (ext.wined3d_surface_create t d tg l j f).hr_failed = none) :
    ∃ m2 pow2_width pow2_height,
      texture_init ext gl_info desc 1 flags m = some (HRESULT.WINED3D_OK, m2)
      ∧ find_pow2 desc.width = some pow2_width
      ∧ find_pow2 desc.height = some pow2_height
      ∧ ((ext.resource_init desc (ext.wined3d_get_format desc.format)).2.gl_type
            = WINED3D_GL_RES_TYPE_TEX_RECT →
          m2.texture.flags &&& WINED3D_TEXTURE_COND_NP2 ≠ 0
          ∧ m2.texture.target = GL_TEXTURE_RECTANGLE_ARB
          ∧ m2.texture.pow2_matrix.m0 = float_expr.of_uint desc.width
          ∧ m2.texture.pow2_matrix.m5 = float_expr.of_uint desc.height)
      ∧ ((ext.resource_init desc (ext.wined3d_get_format desc.format)).2.gl_type
            ≠ WINED3D_GL_RES_TYPE_TEX_RECT →
          gl_info.supported gl_extension.WINED3D_GL_NORMALIZED_TEXRECT = true →
          m2.texture.flags &&& WINED3D_TEXTURE_COND_NP2 ≠ 0
          ∧ m2.texture.target = GL_TEXTURE_2D)
      ∧ ((ext.resource_init desc (ext.wined3d_get_format desc.format)).2.gl_type
            ≠ WINED3D_GL_RES_TYPE_TEX_RECT →
          gl_info.supported gl_extension.WINED3D_GL_NORMALIZED_TEXRECT = false →
          m2.texture.flags &&& WINED3D_TEXTURE_POW2_MAT_IDENT = 0
          ∧ m2.texture.flags &&& WINED3D_TEXTURE_COND_NP2 = 0
          ∧ m2.texture.target = GL_TEXTURE_2D
          ∧ m2.texture.pow2_matrix.m0 = float_expr.quotient desc.width pow2_width
          ∧ m2.texture.pow2_matrix.m5 = float_expr.quotient desc.height pow2_height) := by
  obtain ⟨jw, jh, hsize, hfw, hfh, hiw, hih⟩ :=
    texture_init_pow2_size_bounded gl_info desc hnpot hw hh
  have hne : ¬ (desc.width = 2 ^ jw ∧ desc.height = 2 ^ jh) := by
    rintro ⟨h1, h2⟩
    rcases hnp2 with h | h
    · exact h ⟨jw, h1⟩
    · exact h ⟨jh, h2⟩
  have hrej : texture_init_npot_rejected gl_info desc 1 (2 ^ jw) (2 ^ jh) = false := by
    unfold texture_init_npot_rejected
    simp [hcube]
  have hautorej : init_autogen_rejected gl_info desc 1 = false := by
    unfold init_autogen_rejected
    simp [hauto]
  obtain ⟨_, hresource, _, hflags⟩ := wined3d_texture_init_ok ext
    wined3d_texture_ops.texture2d_ops (if desc.usage &&& WINED3DUSAGE_LEGACY_CUBEMAP ≠ 0 then 6 else 1)
    1 desc flags m hres
  obtain ⟨hbok, hc⟩ := texture_init_body_ok ext gl_info desc 1 flags (2 ^ jw) (2 ^ jh) m hres hsurf
  have hbody : texture_init ext gl_info desc 1 flags m
      = some (HRESULT.WINED3D_OK,
          (texture_init_body ext gl_info desc 1 flags (2 ^ jw) (2 ^ jh) m).2) := by
    unfold texture_init
    rw [if_neg (Nat.not_le_of_lt hfmt), hsize]
    dsimp only
    rw [hrej, hautorej]
    simp only [Bool.false_eq_true, if_false]
    rw [← hbok]
  refine ⟨(texture_init_body ext gl_info desc 1 flags (2 ^ jw) (2 ^ jh) m).2, 2 ^ jw, 2 ^ jh,
    hbody, hfw, hfh, ?_⟩
  have hcf := congrArg (fun p => p.1) hc
  have hcm := congrArg (fun p => p.2.1) hc
  have hct := congrArg (fun p => p.2.2) hc
  simp only [texture_coordinates] at hcf hcm hct
  rw [hcf, hcm, hct]
  have hcube2 : ¬ (desc.usage &&& WINED3DUSAGE_LEGACY_CUBEMAP ≠ 0) := not_not.mpr hcube
  unfold texture_init_pow2_matrix
  rw [hresource]
  dsimp only
  refine ⟨fun hrect => ?_, fun hrect htex => ?_, fun hrect htex => ?_⟩
  · rw [if_pos hrect]
    refine ⟨?_, rfl, rfl, rfl⟩
    dsimp only
    rcases hflags with hf | hf <;> rw [hf] <;> decide
  · rw [if_neg hrect, if_neg hne, if_pos htex]
    refine ⟨?_, ?_⟩
    · dsimp only
      rcases hflags with hf | hf <;> rw [hf] <;> decide
    · dsimp only
      rw [if_neg hcube2]
  · have htex2 : ¬ (gl_info.supported gl_extension.WINED3D_GL_NORMALIZED_TEXRECT = true) := by
      simp [htex]
    rw [if_neg hrect, if_neg hne, if_neg htex2]
    refine ⟨?_, ?_, ?_, rfl, rfl⟩
    · dsimp only
      rcases hflags with hf | hf <;> rw [hf] <;> decide
    · dsimp only
      rcases hflags with hf | hf <;> rw [hf] <;> decide
    · dsimp only
      rw [if_neg hcube2]


/-- C16, at a legacy cubemap: `texture_init` creates the six faces of a level
and stores only the last of them, at the index of the level.  For a one-level
4x4 cubemap, on a zeroed texture with six slots, it succeeds with
`level_count * layer_count = 6`; index 0 then holds the face `NEGATIVE_Z`
(layer 5) and `wined3d_texture_get_sub_resource` returns `NULL` for the indices
1 to 5.  For a three-level texture with one layer every index holds the surface
of its own level. -/
theorem texture_init_cubemap_slots :
    (texture_init (spec_externals 7 (sample_context true 0 0)) (sample_context true 0 0).gl_info
        sample_cube_desc 1 0 { texture := zero_texture 6, calls := [] }).map
      (fun r => (r.1, r.2.texture.level_count, r.2.texture.layer_count,
        (List.range 6).map (fun i =>
          (wined3d_texture_get_sub_resource r.2.texture i).map (fun s => (s.texture_target : Nat)))))
      = some (HRESULT.WINED3D_OK, 1, 6,
          [some GL_TEXTURE_CUBE_MAP_NEGATIVE_Z_ARB, none, none, none, none, none])
    ∧ (texture_init (spec_externals 7 (sample_context true 0 0)) (sample_context true 0 0).gl_info
        scenario_desc 3 0 { texture := zero_texture 3, calls := [] }).map
      (fun r => (r.1, r.2.texture.level_count, r.2.texture.layer_count,
        (List.range 3).map (fun i =>
          (wined3d_texture_get_sub_resource r.2.texture i).map (fun s => s.texture_level))))
      = some (HRESULT.WINED3D_OK, 3, 1, [some 0, some 1, some 2]) := by
  decide

/-- C17, at a legacy cubemap: when the second face of a cubemap cannot be
created, `texture_init` cleans the texture up and returns the error without
invoking the cleanup hook on the first face, which was created and never
stored.  A texture with one layer and a volume texture whose third level cannot
be created have the hook invoked once on each of the two earlier
sub-resources. -/
theorem texture_init_cubemap_cleanup :
    (texture_init (failing_create_externals 0 1) (sample_context true 0 0).gl_info
        sample_cube_desc 1 0 { texture := zero_texture 6, calls := [] }).map
      (fun r => (r.1, r.2.calls))
      = some (HRESULT.failure 0x8007000E,
          [Call.resource_init, Call.wined3d_resource_update_draw_binding,
           Call.wined3d_surface_create 0 0, Call.wined3d_surface_create 0 1,
           Call.resource_unload, Call.resource_cleanup])
    ∧ (texture_init (failing_create_externals 2 0) (sample_context true 0 0).gl_info
        scenario_desc 3 0 { texture := zero_texture 3, calls := [] }).map
      (fun r => (r.1, r.2.calls))
      = some (HRESULT.failure 0x8007000E,
          [Call.resource_init, Call.wined3d_resource_update_draw_binding,
           Call.wined3d_surface_create 0 0, Call.wined3d_surface_create 1 0,
           Call.wined3d_surface_create 2 0,
           Call.texture_sub_resource_cleanup 0, Call.wined3d_surface_destroy 0,
           Call.texture_sub_resource_cleanup 1, Call.wined3d_surface_destroy 1,
           Call.resource_unload, Call.resource_cleanup])
    ∧ (volumetexture_init (failing_create_externals 2 0) (sample_context true 0 0).gl_info
        { scenario_desc with resource_type := WINED3D_RTYPE_TEXTURE_3D, depth := 4 } 3
        { texture := zero_texture 3, calls := [] }).map
      (fun r => (r.1, r.2.calls))
      = some (HRESULT.failure 0x8007000E,
          [Call.resource_init, Call.wined3d_resource_update_draw_binding,
           Call.wined3d_volume_create 0, Call.wined3d_volume_create 1,
           Call.wined3d_volume_create 2,
           Call.texture_sub_resource_cleanup 0, Call.wined3d_volume_destroy 0,
           Call.texture_sub_resource_cleanup 1, Call.wined3d_volume_destroy 1,
           Call.resource_unload, Call.resource_cleanup]) := by
  decide

/-- C18 at a mipmapped texture of width `2 ^ 31 + 1` in the default pool, which is
not a power of two: `texture_init` does not return. -/
theorem texture_init_npot_no_return_witness :
    texture_init (spec_externals 7 (sample_context true 0 0)) (sample_gl_info_pow2 false)
        { scenario_desc with width := 2 ^ 31 + 1 } 2 0 { texture := zero_texture 2, calls := [] }
      = none :=
  texture_init_npot_no_return _ _ _ _ _ _ rfl (by decide) (Or.inl (by decide))

theorem five_not_pow2 : ¬ ∃ k, 5 = 2 ^ k := by
  rintro ⟨k, hk⟩
  cases k with
  | zero => simp at hk
  | succ k => rw [pow_succ] at hk; omega

/-- C19 (amended) at a 5x4 texture on a device without
`WINED3D_GL_NORMALIZED_TEXRECT`: the stretch matrix is selected. -/
theorem texture_init_pow2_fallback_witness :
    ∃ m2 pow2_width pow2_height,
      texture_init (spec_externals 7 (sample_context true 0 0)) (sample_gl_info_pow2 false)
          { scenario_desc with width := 5 } 1 0 { texture := zero_texture 1, calls := [] }
        = some (HRESULT.WINED3D_OK, m2)
      ∧ find_pow2 5 = some pow2_width
      ∧ find_pow2 4 = some pow2_height
      ∧ m2.texture.flags &&& WINED3D_TEXTURE_POW2_MAT_IDENT = 0
      ∧ m2.texture.pow2_matrix.m0 = float_expr.quotient 5 pow2_width
      ∧ m2.texture.pow2_matrix.m5 = float_expr.quotient 4 pow2_height := by
  obtain ⟨m2, pw, ph, h1, h2, h3, _, _, h6⟩ :=
    texture_init_pow2_fallback (spec_externals 7 (sample_context true 0 0))
      (sample_gl_info_pow2 false) { scenario_desc with width := 5 } 0
      { texture := zero_texture 1, calls := [] } rfl (by decide) (by decide) (by decide)
      (by decide) (by decide) (Or.inl five_not_pow2) rfl (fun _ _ _ _ _ _ => rfl)
  have h7 := h6 (by decide) rfl
  exact ⟨m2, pw, ph, h1, h2, h3, h7.1, h7.2.2.2.1, h7.2.2.2.2⟩

/-- Counterexample to C19 as stated: a 5x4 one-level texture of the format
`WINED3DFMT_UNKNOWN` is rejected with `WINED3DERR_INVALIDCALL` before any helper
is called. -/
theorem texture_init_pow2_fallback_counterexample :
    (texture_init (spec_externals 7 (sample_context true 0 0)) (sample_gl_info_pow2 false)
        { scenario_desc with width := 5, format := WINED3DFMT_UNKNOWN } 1 0
        { texture := zero_texture 1, calls := [] }).map (fun r => (r.1, r.2.calls))
      = some (HRESULT.WINED3DERR_INVALIDCALL, []) := by
  decide

/-! ## Validation, multisampling and the power-of-two search -/

/-- C27: `wined3d_texture_validate_location(texture, i, location)` on an
in-range index `i` leaves the location set of sub-resource `i` equal to the
union of its previous set and `location` (its other members stay), leaves every
other sub-resource as it was, and changes nothing else: the texture flags,
`WINED3D_TEXTURE_RGB_VALID`, `WINED3D_TEXTURE_SRGB_VALID` and the allocation
flags among them, and every other member of the texture are unchanged. -/
theorem validate_location_frame (t : wined3d_texture) (i location : Nat)
    (hi : i < t.sub_resources.length) :
    (∃ sr sr2, t.sub_resources[i]? = some sr
        ∧ (wined3d_texture_validate_location t i location).sub_resources[i]? = some sr2
        ∧ sr2.locations = sr.locations ||| location
        ∧ sr2.old = sr.old ∧ sr2.dib = sr.dib)
    ∧ (∀ j, j ≠ i →
        (wined3d_texture_validate_location t i location).sub_resources[j]? = t.sub_resources[j]?)
    ∧ (wined3d_texture_validate_location t i location).flags = t.flags
    ∧ { wined3d_texture_validate_location t i location with sub_resources := t.sub_resources } = t := by
  refine ⟨⟨t.sub_resources[i],
      { t.sub_resources[i] with locations := t.sub_resources[i].locations ||| location },
      List.getElem?_eq_getElem hi, ?_, rfl, rfl, rfl⟩, ?_, rfl, rfl⟩
  · unfold wined3d_texture_validate_location
    dsimp only
    rw [List.getElem?_modify_eq, List.getElem?_eq_getElem hi]
    rfl
  · intro j hj
    unfold wined3d_texture_validate_location
    dsimp only
    rw [List.getElem?_modify_ne _ _ (Ne.symm hj)]

/-- C27 at a two-level texture: validating `DIB` in sub-resource 0 leaves the
flags as they were. -/
theorem validate_location_frame_witness :
    (wined3d_texture_validate_location
        (sample_texture 2 WINED3D_TEXTURE_RGB_VALID WINED3D_LOCATION_SYSMEM)
        0 WINED3D_LOCATION_DIB).flags = WINED3D_TEXTURE_RGB_VALID :=
  (validate_location_frame (sample_texture 2 WINED3D_TEXTURE_RGB_VALID WINED3D_LOCATION_SYSMEM)
    0 WINED3D_LOCATION_DIB (by decide)).2.2.1

theorem texture_init_pow2_size_large (gl_info : wined3d_gl_info) (desc : wined3d_resource_desc)
    (hnpot : gl_info.supported gl_extension.ARB_TEXTURE_NON_POWER_OF_TWO = false)
    (hlarge : 2 ^ 31 < desc.width ∨ 2 ^ 31 < desc.height) :
    texture_init_pow2_size gl_info desc = none := by
  unfold texture_init_pow2_size
  rw [hnpot]
  simp only [Bool.false_eq_true, if_false]
  rcases hlarge with h | h
  · rw [find_pow2_large _ h]
  · cases find_pow2 desc.width with
    | none => rfl
    | some p => simp only [find_pow2_large _ h]

/-- C30, for a size above `2 ^ 31`: the loop
`pow2 = 1; while (pow2 < d) pow2 <<= 1;` on 32-bit values does not end, however
many rounds it is given: the doubled value leaves the 32 bits, becomes 0 and
stays below `d`.  So the power-of-two search gives nothing, and on a device
without `ARB_TEXTURE_NON_POWER_OF_TWO` neither `texture_init` (width or height
`d`) nor `volumetexture_init` (width, height or depth `d`) returns. -/
theorem pow2_search_diverges (d : Nat) (h : 2 ^ 31 < d) :
    (∀ fuel, pow2_loop fuel 1 d = none)
    ∧ find_pow2 d = none
    ∧ (∀ ext gl_info desc level_count flags m,
        gl_info.supported gl_extension.ARB_TEXTURE_NON_POWER_OF_TWO = false →
        WINED3DFMT_UNKNOWN < desc.format →
        (desc.width = d ∨ desc.height = d) →
        texture_init ext gl_info desc level_count flags m = none)
    ∧ (∀ ext gl_info desc levels m,
        gl_info.supported gl_extension.ARB_TEXTURE_NON_POWER_OF_TWO = false →
        WINED3DFMT_UNKNOWN < desc.format →
        gl_info.supported gl_extension.EXT_TEXTURE3D = true →
        init_autogen_rejected gl_info desc levels = false →
        (desc.width = d ∨ desc.height = d ∨ desc.depth = d) →
        volumetexture_init ext gl_info desc levels m = none) := by
  refine ⟨fun fuel => ?_, find_pow2_large d h, ?_, ?_⟩
  · have h0 := pow2_loop_large fuel 0 d (by omega) h
    simpa using h0
  · intro ext gl_info desc level_count flags m hnpot hfmt hd
    have hsize := texture_init_pow2_size_large gl_info desc hnpot
      (hd.elim (fun e => Or.inl (e ▸ h)) (fun e => Or.inr (e ▸ h)))
    unfold texture_init
    rw [if_neg (Nat.not_le_of_lt hfmt), hsize]
  · intro ext gl_info desc levels m hnpot hfmt h3d hauto hd
    unfold volumetexture_init
    rw [if_neg (Nat.not_le_of_lt hfmt), h3d, hauto, hnpot]
    simp only [Bool.not_true, Bool.false_eq_true, if_false]
    rcases hd with e | e | e
    · rw [e, find_pow2_large d h]
    · rw [e, find_pow2_large d h]
      cases find_pow2 desc.width <;> rfl
    · rw [e, find_pow2_large d h]
      cases find_pow2 desc.width with
      | none => rfl
      | some a => cases find_pow2 desc.height <;> rfl

/-- C30 at the size `2 ^ 31 + 1`. -/
theorem pow2_search_diverges_witness : find_pow2 (2 ^ 31 + 1) = none :=
  (pow2_search_diverges (2 ^ 31 + 1) (by decide)).2.1


theorem and_two_pow_eq_zero_iff (x k : Nat) : x &&& 2 ^ k = 0 ↔ x.testBit k = false := by
  constructor
  · intro h
    have h2 := congrArg (fun n => n.testBit k) h
    simp only [Nat.testBit_and, Nat.testBit_two_pow, Nat.zero_testBit] at h2
    simpa using h2
  · intro h
    apply Nat.eq_of_testBit_eq
    intro j
    rw [Nat.testBit_and, Nat.testBit_two_pow, Nat.zero_testBit]
    by_cases hj : k = j
    · subst hj
      simp [h]
    · simp [hj]

/-- The test `!(format->multisample_types & 1u << (type - 1))` reads bit
`type - 1` of the 32-bit word, for every type from 1 to 32. -/
theorem multisample_bit_test (types type : Nat) (h1 : 1 ≤ type) (h2 : type ≤ 32) :
    (types &&& ((1 <<< (((type + 2 ^ 32 - 1) % 2 ^ 32) % 32)) % 2 ^ 32) == 0)
      = !types.testBit (type - 1) := by
  have hk : ((type + 2 ^ 32 - 1) % 2 ^ 32) % 32 = type - 1 := by
    rw [show type + 2 ^ 32 - 1 = (type - 1) + 2 ^ 32 by omega, Nat.add_mod_right,
      Nat.mod_eq_of_lt (show type - 1 < 2 ^ 32 by omega)]
    exact Nat.mod_eq_of_lt (by omega)
  have hlt : type - 1 < 32 := by omega
  rw [hk, Nat.one_shiftLeft, Nat.mod_eq_of_lt (Nat.pow_lt_pow_right (by decide) hlt)]
  by_cases hb : types.testBit (type - 1) = true
  · have : types &&& 2 ^ (type - 1) ≠ 0 := fun h0 => by
      rw [(and_two_pow_eq_zero_iff _ _).mp h0] at hb
      exact absurd hb (by decide)
    simp [hb, this]
  · have hb2 : types.testBit (type - 1) = false := by simpa using hb
    simp [hb2, (and_two_pow_eq_zero_iff _ _).mpr hb2]

/-- C21: for every description with a level count other than 0 and a
multisample type other than `WINED3D_MULTISAMPLE_NONE`, up to 32 (the types
for which the shift of the test is defined; the enumeration ends at 16),
`wined3d_texture_create` returns `WINED3DERR_NOTAVAILABLE`, without a call to
the allocator and without writing `*texture`, when the type is `NON_MASKABLE`
and the quality is at least the number of set bits of
`format->multisample_types`, or when the type is another one and bit
`multisample_type - 1` of `format->multisample_types` is clear or the quality
is not zero; in every other case the multisample test does not reject, and
the function goes on to the allocation of the texture. -/
theorem create_multisample_check (ext : wined3d_externals) (gl_info : wined3d_gl_info)
    (desc : wined3d_resource_desc) (level_count flags : Nat)
    (data : Option (List wined3d_sub_resource_data))
    (hlevel : level_count ≠ 0)
    (hms : desc.multisample_type ≠ WINED3D_MULTISAMPLE_NONE)
    (htype : desc.multisample_type ≤ 32) :
    (((desc.multisample_type = WINED3D_MULTISAMPLE_NON_MASKABLE
          ∧ desc.multisample_quality
              ≥ wined3d_popcount (ext.wined3d_get_format desc.format).multisample_types)
        ∨ (desc.multisample_type ≠ WINED3D_MULTISAMPLE_NON_MASKABLE
          ∧ ((ext.wined3d_get_format desc.format).multisample_types.testBit
                (desc.multisample_type - 1) = false
            ∨ desc.multisample_quality ≠ 0))) →
      wined3d_texture_create ext gl_info desc level_count flags data
        = some { hr := HRESULT.WINED3DERR_NOTAVAILABLE, texture := none, calls := [] })
    ∧ (¬ ((desc.multisample_type = WINED3D_MULTISAMPLE_NON_MASKABLE
          ∧ desc.multisample_quality
              ≥ wined3d_popcount (ext.wined3d_get_format desc.format).multisample_types)
        ∨ (desc.multisample_type ≠ WINED3D_MULTISAMPLE_NON_MASKABLE
          ∧ ((ext.wined3d_get_format desc.format).multisample_types.testBit
                (desc.multisample_type - 1) = false
            ∨ desc.multisample_quality ≠ 0))) →
      create_multisample_unavailable ext desc = false
      ∧ (ext.HeapAlloc [] = false →
          wined3d_texture_create ext gl_info desc level_count flags data
            = some { hr := HRESULT.E_OUTOFMEMORY, texture := none, calls := [Call.HeapAlloc] })) := by
  have h1 : 1 ≤ desc.multisample_type := by
    have : desc.multisample_type ≠ 0 := hms
    omega
  have hbit := multisample_bit_test (ext.wined3d_get_format desc.format).multisample_types
    desc.multisample_type h1 htype
  have hiff : create_multisample_unavailable ext desc = true ↔
      ((desc.multisample_type = WINED3D_MULTISAMPLE_NON_MASKABLE
          ∧ desc.multisample_quality
              ≥ wined3d_popcount (ext.wined3d_get_format desc.format).multisample_types)
        ∨ (desc.multisample_type ≠ WINED3D_MULTISAMPLE_NON_MASKABLE
          ∧ ((ext.wined3d_get_format desc.format).multisample_types.testBit
                (desc.multisample_type - 1) = false
            ∨ desc.multisample_quality ≠ 0))) := by
    unfold create_multisample_unavailable
    dsimp only
    rw [hbit]
    simp [hms]
  constructor
  · intro hc
    unfold wined3d_texture_create
    rw [if_neg hlevel, if_pos (hiff.mpr hc)]
  · intro hc
    have hfalse : create_multisample_unavailable ext desc = false := by
      cases hcm : create_multisample_unavailable ext desc with
      | false => rfl
      | true => exact absurd (hiff.mp hcm) hc
    refine ⟨hfalse, fun halloc => ?_⟩
    unfold wined3d_texture_create
    rw [if_neg hlevel, hfalse, halloc]
    rfl

/-- C21 at a 2-sample description of a format that offers no multisampling. -/
theorem create_multisample_check_witness :
    wined3d_texture_create (spec_externals 7 (sample_context true 0 0))
        (sample_context true 0 0).gl_info { scenario_desc with multisample_type := 2 } 1 0 none
      = some { hr := HRESULT.WINED3DERR_NOTAVAILABLE, texture := none, calls := [] } :=
  (create_multisample_check (spec_externals 7 (sample_context true 0 0))
    (sample_context true 0 0).gl_info { scenario_desc with multisample_type := 2 } 1 0 none
    (by decide) (by decide) (by decide)).1
    (Or.inr ⟨by decide, Or.inl (by decide)⟩)

/-! ## Level of detail -/

theorem set_lod_unmanaged (m : Machine) (lod : Nat)
    (hpool : m.texture.resource.pool ≠ WINED3D_POOL_MANAGED) :
    wined3d_texture_set_lod m lod = (0, m) := by
  unfold wined3d_texture_set_lod
  dsimp only
  rw [if_pos hpool]

theorem set_lod_managed (m : Machine) (lod : Nat)
    (hpool : m.texture.resource.pool = WINED3D_POOL_MANAGED)
    (hlevels : 1 ≤ m.texture.level_count) (hword : m.texture.level_count < 2 ^ 32) :
    (wined3d_texture_set_lod m lod).1 = m.texture.lod
    ∧ (wined3d_texture_set_lod m lod).2.texture.lod = min lod (m.texture.level_count - 1)
    ∧ (wined3d_texture_set_lod m lod).2.texture.level_count = m.texture.level_count
    ∧ (wined3d_texture_set_lod m lod).2.texture.resource.pool = m.texture.resource.pool := by
  have hwrap : (m.texture.level_count + 2 ^ 32 - 1) % 2 ^ 32 = m.texture.level_count - 1 := by
    rw [show m.texture.level_count + 2 ^ 32 - 1 = (m.texture.level_count - 1) + 2 ^ 32 by omega,
      Nat.add_mod_right]
    exact Nat.mod_eq_of_lt (by omega)
  unfold wined3d_texture_set_lod
  dsimp only
  rw [if_neg (not_not.mpr hpool), hwrap]
  by_cases hge : lod ≥ m.texture.level_count
  · rw [if_pos hge]
    have hmin : min lod (m.texture.level_count - 1) = m.texture.level_count - 1 :=
      Nat.min_eq_right (by omega)
    by_cases hne : m.texture.lod ≠ m.texture.level_count - 1
    · rw [if_pos hne]
      exact ⟨rfl, hmin.symm, rfl, rfl⟩
    · rw [if_neg hne]
      exact ⟨rfl, (not_not.mp hne).trans hmin.symm, rfl, rfl⟩
  · rw [if_neg hge]
    have hmin : min lod (m.texture.level_count - 1) = lod := Nat.min_eq_left (by omega)
    by_cases hne : m.texture.lod ≠ lod
    · rw [if_pos hne]
      exact ⟨rfl, hmin.symm, rfl, rfl⟩
    · rw [if_neg hne]
      exact ⟨rfl, (not_not.mp hne).trans hmin.symm, rfl, rfl⟩

theorem set_lod_sequence_snoc (m : Machine) (lods : List Nat) (lod : Nat) :
    set_lod_sequence m (lods ++ [lod])
      = (wined3d_texture_set_lod (set_lod_sequence m lods) lod).2 := by
  unfold set_lod_sequence
  rw [List.foldl_append]
  rfl

theorem set_lod_sequence_unmanaged (m : Machine) (lods : List Nat)
    (hpool : m.texture.resource.pool ≠ WINED3D_POOL_MANAGED) :
    set_lod_sequence m lods = m := by
  induction lods using List.reverseRecOn with
  | nil => rfl
  | append_singleton lods lod ih =>
    rw [set_lod_sequence_snoc, ih, set_lod_unmanaged m lod hpool]

theorem set_lod_sequence_managed (m : Machine) (lods : List Nat)
    (hpool : m.texture.resource.pool = WINED3D_POOL_MANAGED)
    (hlevels : 1 ≤ m.texture.level_count) (hword : m.texture.level_count < 2 ^ 32) :
    (set_lod_sequence m lods).texture.lod
        = (match lods.getLast? with
           | none => m.texture.lod
           | some lod => min lod (m.texture.level_count - 1))
    ∧ (set_lod_sequence m lods).texture.level_count = m.texture.level_count
    ∧ (set_lod_sequence m lods).texture.resource.pool = m.texture.resource.pool := by
  induction lods using List.reverseRecOn with
  | nil => exact ⟨rfl, rfl, rfl⟩
  | append_singleton lods lod ih =>
    have h := set_lod_managed (set_lod_sequence m lods) lod (ih.2.2.trans hpool)
      (by rw [ih.2.1]; exact hlevels) (by rw [ih.2.1]; exact hword)
    rw [set_lod_sequence_snoc, List.getLast?_append, List.getLast?_singleton]
    refine ⟨?_, h.2.2.1.trans ih.2.1, h.2.2.2.trans ih.2.2⟩
    rw [h.2.1, ih.2.1]
    rfl

/-- C28: the level-of-detail invariant.  Start from a texture as
`wined3d_texture_init` leaves it (`lod` 0, at least one level) and make any
sequence of `wined3d_texture_set_lod` calls.  Outside the pool
`WINED3D_POOL_MANAGED`, `wined3d_texture_get_lod` returns 0 and every
`wined3d_texture_set_lod` returns 0 and changes nothing.  In the managed pool
`wined3d_texture_get_lod` returns the minimum of the level requested last and
`level_count - 1` (0 before the first call), which is below `level_count`, and
every `wined3d_texture_set_lod` returns the level in effect before it. -/
theorem set_lod_invariant (m : Machine) (lods : List Nat)
    (hlod : m.texture.lod = 0) (hlevels : 1 ≤ m.texture.level_count)
    (hword : m.texture.level_count < 2 ^ 32) :
    (m.texture.resource.pool ≠ WINED3D_POOL_MANAGED →
      wined3d_texture_get_lod (set_lod_sequence m lods).texture = 0
      ∧ set_lod_sequence m lods = m
      ∧ ∀ lod, wined3d_texture_set_lod (set_lod_sequence m lods) lod
          = (0, set_lod_sequence m lods))
    ∧ (m.texture.resource.pool = WINED3D_POOL_MANAGED →
      wined3d_texture_get_lod (set_lod_sequence m lods).texture
          = (match lods.getLast? with
             | none => 0
             | some lod => min lod (m.texture.level_count - 1))
      ∧ wined3d_texture_get_lod (set_lod_sequence m lods).texture < m.texture.level_count
      ∧ ∀ lod, (wined3d_texture_set_lod (set_lod_sequence m lods) lod).1
          = wined3d_texture_get_lod (set_lod_sequence m lods).texture) := by
  constructor
  · intro hpool
    have hseq := set_lod_sequence_unmanaged m lods hpool
    rw [hseq]
    exact ⟨hlod, rfl, fun lod => set_lod_unmanaged m lod hpool⟩
  · intro hpool
    have hseq := set_lod_sequence_managed m lods hpool hlevels hword
    have hval : wined3d_texture_get_lod (set_lod_sequence m lods).texture
        = (match lods.getLast? with
           | none => 0
           | some lod => min lod (m.texture.level_count - 1)) := by
      unfold wined3d_texture_get_lod
      rw [hseq.1]
      cases lods.getLast? with
      | none => exact hlod
      | some lod => rfl
    refine ⟨hval, ?_, fun lod => ?_⟩
    · rw [hval]
      cases lods.getLast? with
      | none => exact hlevels
      | some lod => exact Nat.lt_of_le_of_lt (Nat.min_le_right _ _) (by omega)
    · exact (set_lod_managed (set_lod_sequence m lods) lod (hseq.2.2.trans hpool)
        (by rw [hseq.2.1]; exact hlevels) (by rw [hseq.2.1]; exact hword)).1

/-- C28 at a managed 4x4 texture with three levels, as `wined3d_texture_init`
leaves its level of detail, and the requests 1 and 7. -/
theorem set_lod_invariant_witness :
    wined3d_texture_get_lod (set_lod_sequence
        { texture := { sample_texture 3 0 WINED3D_LOCATION_SYSMEM with
            resource := { (sample_surface 0 4 4).resource with pool := WINED3D_POOL_MANAGED } }
          calls := [] } [1, 7]).texture = 2 :=
  ((set_lod_invariant
    { texture := { sample_texture 3 0 WINED3D_LOCATION_SYSMEM with
        resource := { (sample_surface 0 4 4).resource with pool := WINED3D_POOL_MANAGED } }
      calls := [] } [1, 7] rfl (by decide) (by decide)).2 rfl).1

/-! ## Dirty regions and mipmap generation -/

theorem add_dirty_region_in_range (ext : wined3d_externals) (m : Machine) (layer : Nat)
    (hlevels : 1 ≤ m.texture.level_count)
    (hidx : layer * m.texture.level_count < 2 ^ 32)
    (hcount : m.texture.level_count * m.texture.layer_count < 2 ^ 32) :
    (layer ≥ m.texture.layer_count →
      wined3d_texture_add_dirty_region ext m layer = (HRESULT.WINED3DERR_INVALIDCALL, m))
    ∧ (layer < m.texture.layer_count →
      (sub_resource_old m.texture (layer * m.texture.level_count)).isSome = true →
      wined3d_texture_add_dirty_region ext m layer
        = (HRESULT.WINED3D_OK,
           texture_sub_resource_add_dirty_region ext m (layer * m.texture.level_count))) := by
  have hsub : sub_count m.texture = m.texture.level_count * m.texture.layer_count :=
    Nat.mod_eq_of_lt hcount
  constructor
  · intro hge
    have hout : layer * m.texture.level_count ≥ sub_count m.texture := by
      rw [hsub, Nat.mul_comm layer]
      exact Nat.mul_le_mul_left _ hge
    unfold wined3d_texture_add_dirty_region wined3d_texture_get_sub_resource
    dsimp only
    rw [Nat.mod_eq_of_lt hidx, if_pos hout]
  · intro hlt hsome
    have hin : ¬ layer * m.texture.level_count ≥ sub_count m.texture := by
      rw [hsub, Nat.mul_comm layer]
      have : m.texture.level_count * (layer + 1) ≤ m.texture.level_count * m.texture.layer_count :=
        Nat.mul_le_mul_left _ hlt
      rw [Nat.mul_add, Nat.mul_one] at this
      omega
    unfold wined3d_texture_add_dirty_region wined3d_texture_get_sub_resource
    dsimp only
    rw [Nat.mod_eq_of_lt hidx, if_neg hin]
    cases hs : sub_resource_old m.texture (layer * m.texture.level_count) with
    | none => rw [hs] at hsome; exact absurd hsome (by decide)
    | some s => rfl

/-- C24, at the layer `0x80000000` of a 4x4 texture with two levels and one
layer: the layer is not below `layer_count`, but the `UINT` product
`layer * level_count` is 0, so `wined3d_texture_add_dirty_region` finds
sub-resource 0, invokes the dirty-region hook on it, drops the location
`TEXTURE_RGB` of that sub-resource and returns `WINED3D_OK`. -/
theorem add_dirty_region_layer_wraps :
    0x80000000 ≥ (sample_texture 2 0 (WINED3D_LOCATION_SYSMEM ||| WINED3D_LOCATION_TEXTURE_RGB)).layer_count
    ∧ (wined3d_texture_add_dirty_region (spec_externals 7 (sample_context true 0 0))
        { texture := sample_texture 2 0 (WINED3D_LOCATION_SYSMEM ||| WINED3D_LOCATION_TEXTURE_RGB)
          calls := [] } 0x80000000).1 = HRESULT.WINED3D_OK
    ∧ (wined3d_texture_add_dirty_region (spec_externals 7 (sample_context true 0 0))
        { texture := sample_texture 2 0 (WINED3D_LOCATION_SYSMEM ||| WINED3D_LOCATION_TEXTURE_RGB)
          calls := [] } 0x80000000).2.calls
        = [Call.texture_sub_resource_add_dirty_region 0, Call.surface_prepare_map_memory 0,
           Call.context_acquire, Call.surface_load_location 0 WINED3D_LOCATION_SYSMEM,
           Call.context_release]
    ∧ ((wined3d_texture_add_dirty_region (spec_externals 7 (sample_context true 0 0))
        { texture := sample_texture 2 0 (WINED3D_LOCATION_SYSMEM ||| WINED3D_LOCATION_TEXTURE_RGB)
          calls := [] } 0x80000000).2.texture.sub_resources.map (fun sr => sr.locations))
        = [WINED3D_LOCATION_SYSMEM, WINED3D_LOCATION_SYSMEM ||| WINED3D_LOCATION_TEXTURE_RGB] := by
  decide

/-- C25 (amended): `wined3d_texture_generate_mipmaps` leaves the texture and
the call log as they are and, being a `void` function, returns no value to its
caller. -/
theorem generate_mipmaps_stub (m : Machine) :
    wined3d_texture_generate_mipmaps m = ((), m) := rfl

/-- Counterexample to C25 as stated: on a two-level texture the call changes
nothing, and the value it returns is the one it returns for a texture of
another shape, the only value of `void`: the caller gets no signal. -/
theorem generate_mipmaps_no_signal :
    (wined3d_texture_generate_mipmaps
        { texture := sample_texture 2 0 WINED3D_LOCATION_SYSMEM, calls := [] }).2
      = { texture := sample_texture 2 0 WINED3D_LOCATION_SYSMEM, calls := [] }
    ∧ (wined3d_texture_generate_mipmaps
        { texture := sample_texture 2 0 WINED3D_LOCATION_SYSMEM, calls := [] }).1
      = (wined3d_texture_generate_mipmaps
          { texture := sample_texture 1 WINED3D_TEXTURE_RGB_VALID WINED3D_LOCATION_TEXTURE_RGB,
            calls := [Call.context_acquire] }).1 :=
  ⟨rfl, rfl⟩

/-! ## The geometry of the legacy bitmap -/

theorem create_dib_section_geometry (ext : wined3d_externals) (m : Machine) (idx : Nat)
    (hflag : m.texture.resource.format_flags &&& WINED3DFMT_FLAG_GETDC ≠ 0)
    (halloc : ext.HeapAlloc m.calls = true) :
    Call.CreateDIBSection
        ((wined3d_texture_get_pitch ext m.texture idx).1 / m.texture.resource.format.byte_count)
        (m.texture.resource.height >>> (idx % m.texture.level_count))
        (m.texture.resource.format.byte_count * 8)
        (wined3d_texture_get_pitch ext m.texture idx).2
      ∈ (wined3d_texture_create_dib_section ext m idx).2.calls := by
  unfold wined3d_texture_create_dib_section
  dsimp only [Machine.call]
  rw [if_neg hflag, halloc]
  simp only [Bool.not_true, Bool.false_eq_true, if_false]
  split <;> simp

/-- C29, at sub-resource 2 of an 8x2 texture with three levels, and at
sub-resource 1 of a one-level cube texture with 4x4 faces.  Level 2 of the
first texture is a 2x1 surface, but the bitmap gets `height >> level` = 0 rows,
without the floor of 1 that `wined3d_texture_get_pitch` applies.  Sub-resource
1 of the cube texture is level 0 of face 1, a 4x4 surface with a row pitch of 16
bytes and a slice pitch of 64, but `wined3d_texture_get_pitch` is called with
the sub-resource index 1 as the level and the bitmap gets a width of 2 and an
image size of 16. -/
theorem create_dib_section_level_geometry :
    (max 1 (sample_mip_dc_texture.resource.height >>> (2 % sample_mip_dc_texture.level_count)) = 1
      ∧ (wined3d_texture_create_dib_section (spec_externals 7 (sample_context true 0 0))
          { texture := sample_mip_dc_texture, calls := [] } 2).1 = HRESULT.WINED3D_OK
      ∧ (wined3d_texture_create_dib_section (spec_externals 7 (sample_context true 0 0))
          { texture := sample_mip_dc_texture, calls := [] } 2).2.calls
        = [Call.HeapAlloc, Call.CreateDIBSection 2 0 32 8, Call.HeapFree,
           Call.CreateCompatibleDC, Call.SelectObject 4 2])
    ∧ (1 % sample_cube_dc_texture.level_count = 0
      ∧ wined3d_texture_get_pitch (spec_externals 7 (sample_context true 0 0))
          sample_cube_dc_texture 0 = (16, 64)
      ∧ (wined3d_texture_create_dib_section (spec_externals 7 (sample_context true 0 0))
          { texture := sample_cube_dc_texture, calls := [] } 1).1 = HRESULT.WINED3D_OK
      ∧ (wined3d_texture_create_dib_section (spec_externals 7 (sample_context true 0 0))
          { texture := sample_cube_dc_texture, calls := [] } 1).2.calls
        = [Call.HeapAlloc, Call.CreateDIBSection 2 4 32 16, Call.HeapFree,
           Call.CreateCompatibleDC, Call.SelectObject 4 2]) := by
  decide

/-! ## Upload of initial data and the linear GL texture -/

theorem effective_srgb_false (ext : wined3d_externals) (context : wined3d_context) :
    effective_srgb ext context FALSE = FALSE := by
  unfold effective_srgb
  split <;> rfl

/-- A bind of the linear variant keeps `WINED3D_TEXTURE_RGB_ALLOCATED`, keeps
the GL name of the linear object when it has one, and otherwise stores what
`glGenTextures` hands out. -/
theorem bind_rgb (ext : wined3d_externals) (context : wined3d_context) (m : Machine) :
    (wined3d_texture_bind ext context FALSE m).texture.flags &&& WINED3D_TEXTURE_RGB_ALLOCATED
        = m.texture.flags &&& WINED3D_TEXTURE_RGB_ALLOCATED
    ∧ (wined3d_texture_bind ext context FALSE m).texture.texture_rgb.name
        = if m.texture.texture_rgb.name ≠ 0 then m.texture.texture_rgb.name
          else ext.glGenTextures m.calls := by
  have hk1 : DWORD_not WINED3D_TEXTURE_IS_SRGB &&& WINED3D_TEXTURE_RGB_ALLOCATED
      = WINED3D_TEXTURE_RGB_ALLOCATED := by decide
  have hk2 : DWORD_not (WINED3D_TEXTURE_RGB_VALID ||| WINED3D_TEXTURE_SRGB_VALID)
      &&& WINED3D_TEXTURE_RGB_ALLOCATED = WINED3D_TEXTURE_RGB_ALLOCATED := by decide
  unfold wined3d_texture_bind
  rw [effective_srgb_false]
  simp only [show BOOL_true FALSE = false from rfl, Bool.false_eq_true, if_false,
    wined3d_texture_get_gl_texture, wined3d_texture_set_gl_texture, wined3d_texture_set_dirty]
  by_cases hn : m.texture.texture_rgb.name ≠ 0
  · rw [if_pos hn, if_pos hn]
    exact ⟨and_DWORD_not_of_kept _ _ _ hk1, rfl⟩
  · rw [if_neg hn, if_neg hn]
    by_cases hg : ext.glGenTextures m.calls = 0
    · rw [if_pos hg]
      exact ⟨and_DWORD_not_of_kept _ _ _ hk1, hg.symm ▸ rfl⟩
    · rw [if_neg hg]
      refine ⟨?_, ?_⟩
      · dsimp only
        rw [and_DWORD_not_of_kept _ _ _ hk2, and_DWORD_not_of_kept _ _ _ hk1]
      · unfold bind_new_gl_texture
        dsimp only
        split <;> rfl

theorem bind_and_dirtify_rgb (ext : wined3d_externals) (context : wined3d_context)
    (m : Machine) :
    (wined3d_texture_bind_and_dirtify ext context FALSE m).texture.flags
          &&& WINED3D_TEXTURE_RGB_ALLOCATED
        = m.texture.flags &&& WINED3D_TEXTURE_RGB_ALLOCATED
    ∧ ((wined3d_texture_bind_and_dirtify ext context FALSE m).texture.texture_rgb.name = 0 →
        ∃ calls, ext.glGenTextures calls = 0) := by
  unfold wined3d_texture_bind_and_dirtify
  dsimp only
  generalize hm2 : (if context.rev_tex_unit_map context.active_texture ≠ WINED3D_UNMAPPED_STAGE
      then m.call (Call.context_invalidate_state
        (wined3d_state.STATE_SAMPLER (context.rev_tex_unit_map context.active_texture)))
      else m) = m2
  have ht : m2.texture = m.texture := by
    rw [← hm2]
    split <;> rfl
  have hb := bind_rgb ext context
    (m2.call (Call.context_invalidate_state wined3d_state.STATE_SHADER_RESOURCE_BINDING))
  refine ⟨?_, fun hz => ?_⟩
  · rw [hb.1]
    show m2.texture.flags &&& _ = _
    rw [ht]
  · rw [hb.2] at hz
    by_cases hn : (m2.call (Call.context_invalidate_state
        wined3d_state.STATE_SHADER_RESOURCE_BINDING)).texture.texture_rgb.name ≠ 0
    · rw [if_pos hn] at hz
      exact absurd hz hn
    · rw [if_neg hn] at hz
      exact ⟨_, hz⟩

theorem prepare_texture_rgb_allocated (ext : wined3d_externals) (context : wined3d_context)
    (m : Machine) :
    (wined3d_texture_prepare_texture ext context FALSE m).texture.flags
      &&& WINED3D_TEXTURE_RGB_ALLOCATED ≠ 0 := by
  unfold wined3d_texture_prepare_texture
  dsimp only
  generalize (if (!BOOL_true context.d3d_info.shader_color_key
      && color_key_toggled m.texture) = true
    then ({ m with texture := prepare_color_key_reload m.texture } : Machine) else m) = m1
  obtain ⟨m2, h2, _, h4⟩ := prepare_tail ext context FALSE m1
  rw [h2]
  exact h4

theorem upload_hook_rgb (ext : wined3d_externals) (context : wined3d_context)
    (hext : ∀ s c t,
      ((ext.wined3d_surface_upload_data s c t).flags = t.flags
        ∧ (ext.wined3d_surface_upload_data s c t).texture_rgb = t.texture_rgb)
      ∧ ((ext.wined3d_volume_upload_data s c t).flags = t.flags
        ∧ (ext.wined3d_volume_upload_data s c t).texture_rgb = t.texture_rgb))
    (m : Machine) (i : Nat) :
    (texture_sub_resource_upload_data ext context m i).texture.flags = m.texture.flags
    ∧ (texture_sub_resource_upload_data ext context m i).texture.texture_rgb
        = m.texture.texture_rgb := by
  unfold texture_sub_resource_upload_data
  cases h : m.texture.texture_ops
  · simp only [Machine.call, h, texture2d_sub_resource_upload_data]
    exact (hext _ _ _).1
  · simp only [Machine.call, h, texture3d_sub_resource_upload_data]
    exact (hext _ _ _).2

theorem upload_sub_resource_rgb (ext : wined3d_externals) (context : wined3d_context)
    (hext : ∀ s c t,
      ((ext.wined3d_surface_upload_data s c t).flags = t.flags
        ∧ (ext.wined3d_surface_upload_data s c t).texture_rgb = t.texture_rgb)
      ∧ ((ext.wined3d_volume_upload_data s c t).flags = t.flags
        ∧ (ext.wined3d_volume_upload_data s c t).texture_rgb = t.texture_rgb))
    (m : Machine) (i : Nat) :
    (upload_sub_resource ext context m i).texture.flags &&& WINED3D_TEXTURE_RGB_ALLOCATED
        = m.texture.flags &&& WINED3D_TEXTURE_RGB_ALLOCATED
    ∧ (upload_sub_resource ext context m i).texture.texture_rgb = m.texture.texture_rgb := by
  have hh := upload_hook_rgb ext context hext m i
  have hk2 : DWORD_not (WINED3D_TEXTURE_RGB_VALID ||| WINED3D_TEXTURE_SRGB_VALID)
      &&& WINED3D_TEXTURE_RGB_ALLOCATED = WINED3D_TEXTURE_RGB_ALLOCATED := by decide
  unfold upload_sub_resource
  dsimp only
  refine ⟨?_, ?_⟩
  · rw [invalidate_location_flags, if_pos (by decide)]
    unfold wined3d_texture_set_dirty wined3d_texture_validate_location
    dsimp only
    rw [and_DWORD_not_of_kept _ _ _ hk2, hh.1]
  · refine Eq.trans ?_ hh.2
    unfold wined3d_texture_invalidate_location wined3d_texture_validate_location
      wined3d_texture_set_dirty
    dsimp only
    split <;> rfl

theorem upload_loop_rgb (ext : wined3d_externals) (context : wined3d_context)
    (hext : ∀ s c t,
      ((ext.wined3d_surface_upload_data s c t).flags = t.flags
        ∧ (ext.wined3d_surface_upload_data s c t).texture_rgb = t.texture_rgb)
      ∧ ((ext.wined3d_volume_upload_data s c t).flags = t.flags
        ∧ (ext.wined3d_volume_upload_data s c t).texture_rgb = t.texture_rgb))
    (n : Nat) (m : Machine) :
    ((List.range n).foldl (upload_sub_resource ext context) m).texture.flags
          &&& WINED3D_TEXTURE_RGB_ALLOCATED
        = m.texture.flags &&& WINED3D_TEXTURE_RGB_ALLOCATED
    ∧ ((List.range n).foldl (upload_sub_resource ext context) m).texture.texture_rgb
        = m.texture.texture_rgb := by
  induction n with
  | zero => exact ⟨rfl, rfl⟩
  | succ n ih =>
    rw [List.range_succ, List.foldl_append]
    simp only [List.foldl_cons, List.foldl_nil]
    have h := upload_sub_resource_rgb ext context hext
      ((List.range n).foldl (upload_sub_resource ext context) m) n
    exact ⟨h.1.trans ih.1, h.2.trans ih.2⟩

/-- C26 (amended): in `wined3d_texture_upload_data`, the upload helpers leaving
the flags and the linear GL texture object alone, at every point where the
`TEXTURE_RGB` location of a sub-resource is validated (round `i` of the loop,
after the upload hook) `WINED3D_TEXTURE_RGB_ALLOCATED` is set and
`texture_rgb` is as the preceding bind left it; its name is zero only when
`glGenTextures` handed out no name, so it is non-zero whenever the driver hands
out names.  With data for every sub-resource the function returns `WINED3D_OK`
after these rounds. -/
theorem upload_data_validates_allocated (ext : wined3d_externals)
    (data : List wined3d_sub_resource_data) (m : Machine) (i : Nat)
    (hext : ∀ s c t,
      ((ext.wined3d_surface_upload_data s c t).flags = t.flags
        ∧ (ext.wined3d_surface_upload_data s c t).texture_rgb = t.texture_rgb)
      ∧ ((ext.wined3d_volume_upload_data s c t).flags = t.flags
        ∧ (ext.wined3d_volume_upload_data s c t).texture_rgb = t.texture_rgb))
    (hdata : ∀ j, j < sub_count m.texture → ∃ d, data[j]? = some d ∧ d.data ≠ 0) :
    wined3d_texture_upload_data ext data m
      = (HRESULT.WINED3D_OK,
         ((List.range (sub_count m.texture)).foldl
           (upload_sub_resource ext (ext.context_acquire m.texture))
           (wined3d_texture_bind_and_dirtify ext (ext.context_acquire m.texture) FALSE
             (wined3d_texture_prepare_texture ext (ext.context_acquire m.texture) FALSE
               (m.call Call.context_acquire)))).call Call.context_release)
    ∧ (texture_sub_resource_upload_data ext (ext.context_acquire m.texture)
        ((List.range i).foldl (upload_sub_resource ext (ext.context_acquire m.texture))
          (wined3d_texture_bind_and_dirtify ext (ext.context_acquire m.texture) FALSE
            (wined3d_texture_prepare_texture ext (ext.context_acquire m.texture) FALSE
              (m.call Call.context_acquire)))) i).texture.flags
          &&& WINED3D_TEXTURE_RGB_ALLOCATED ≠ 0
    ∧ (texture_sub_resource_upload_data ext (ext.context_acquire m.texture)
        ((List.range i).foldl (upload_sub_resource ext (ext.context_acquire m.texture))
          (wined3d_texture_bind_and_dirtify ext (ext.context_acquire m.texture) FALSE
            (wined3d_texture_prepare_texture ext (ext.context_acquire m.texture) FALSE
              (m.call Call.context_acquire)))) i).texture.texture_rgb
        = (wined3d_texture_bind_and_dirtify ext (ext.context_acquire m.texture) FALSE
            (wined3d_texture_prepare_texture ext (ext.context_acquire m.texture) FALSE
              (m.call Call.context_acquire))).texture.texture_rgb
    ∧ ((wined3d_texture_bind_and_dirtify ext (ext.context_acquire m.texture) FALSE
            (wined3d_texture_prepare_texture ext (ext.context_acquire m.texture) FALSE
              (m.call Call.context_acquire))).texture.texture_rgb.name = 0 →
        ∃ calls, ext.glGenTextures calls = 0) := by
  generalize hc : ext.context_acquire m.texture = context
  have hprep := prepare_texture_rgb_allocated ext context (m.call Call.context_acquire)
  have hbind := bind_and_dirtify_rgb ext context
    (wined3d_texture_prepare_texture ext context FALSE (m.call Call.context_acquire))
  have hloop := upload_loop_rgb ext context hext i
    (wined3d_texture_bind_and_dirtify ext context FALSE
      (wined3d_texture_prepare_texture ext context FALSE (m.call Call.context_acquire)))
  have hhook := upload_hook_rgb ext context hext
    ((List.range i).foldl (upload_sub_resource ext context)
      (wined3d_texture_bind_and_dirtify ext context FALSE
        (wined3d_texture_prepare_texture ext context FALSE (m.call Call.context_acquire)))) i
  refine ⟨?_, ?_, hhook.2.trans hloop.2, hbind.2⟩
  · unfold wined3d_texture_upload_data
    dsimp only
    split
    · rename_i hany
      rw [List.any_eq_true] at hany
      obtain ⟨j, hj, hm⟩ := hany
      obtain ⟨d, hd1, hd2⟩ := hdata j (List.mem_range.mp hj)
      rw [hd1] at hm
      simp only [beq_iff_eq] at hm
      exact absurd hm hd2
    · rw [hc]
  · rw [hhook.1, hloop.1, hbind.1]
    exact hprep

/-- C26 (amended) at the upload of initial data to a one-level 4x4 texture on a
driver that hands out the GL name 7. -/
theorem upload_data_validates_allocated_witness :
    (wined3d_texture_upload_data (spec_externals 7 (sample_context true 0 0)) scenario_data
        { texture := sample_texture 1 0 WINED3D_LOCATION_SYSMEM, calls := [] }).1
      = HRESULT.WINED3D_OK :=
  congrArg Prod.fst
    (upload_data_validates_allocated (spec_externals 7 (sample_context true 0 0)) scenario_data
      { texture := sample_texture 1 0 WINED3D_LOCATION_SYSMEM, calls := [] } 0
      (fun _ _ _ => ⟨⟨rfl, rfl⟩, ⟨rfl, rfl⟩⟩)
      (fun j hj => by
        have h1 : sub_count (sample_texture 1 0 WINED3D_LOCATION_SYSMEM) = 1 := by decide
        have hj0 : j = 0 := by
          rw [h1] at hj
          omega
        subst hj0
        exact ⟨{ data := 1, row_pitch := 16, slice_pitch := 64 }, rfl, by decide⟩)).1

/-- Counterexample to C26 as stated: `glGenTextures` hands out no name; the
upload of initial data to a one-level 4x4 texture returns `WINED3D_OK` and leaves
`TEXTURE_RGB` as the valid location of the sub-resource and
`WINED3D_TEXTURE_RGB_ALLOCATED` set, while `texture_rgb.name` is 0. -/
theorem upload_data_validates_allocated_counterexample :
    (wined3d_texture_upload_data (spec_externals 0 (sample_context true 0 0)) scenario_data
        { texture := sample_texture 1 0 WINED3D_LOCATION_SYSMEM, calls := [] }).1
      = HRESULT.WINED3D_OK
    ∧ ((wined3d_texture_upload_data (spec_externals 0 (sample_context true 0 0)) scenario_data
        { texture := sample_texture 1 0 WINED3D_LOCATION_SYSMEM, calls := [] }
        ).2.texture.sub_resources.map (fun sr => sr.locations)) = [WINED3D_LOCATION_TEXTURE_RGB]
    ∧ (wined3d_texture_upload_data (spec_externals 0 (sample_context true 0 0)) scenario_data
        { texture := sample_texture 1 0 WINED3D_LOCATION_SYSMEM, calls := [] }
        ).2.texture.flags &&& WINED3D_TEXTURE_RGB_ALLOCATED = WINED3D_TEXTURE_RGB_ALLOCATED
    ∧ (wined3d_texture_upload_data (spec_externals 0 (sample_context true 0 0)) scenario_data
        { texture := sample_texture 1 0 WINED3D_LOCATION_SYSMEM, calls := [] }
        ).2.texture.texture_rgb.name = 0 := by
  decide

/-! ## Reference counting: facts -/

theorem sub_resource_old_modify_dib (t : wined3d_texture) (i j : Nat)
    (f : wined3d_texture_dib → wined3d_texture_dib) :
    sub_resource_old
        { t with sub_resources := (List.modify (fun sr => { sr with dib := f sr.dib }) i
          t.sub_resources) } j
      = sub_resource_old t j := by
  unfold sub_resource_old
  dsimp only
  rw [List.getElem?_modify]
  cases t.sub_resources[j]? with
  | none => rfl
  | some sr =>
    by_cases h : i = j
    · simp [h]
    · simp [h]

/-- One round of the cleanup loop adds calls to the log, among them the cleanup
hook of the sub-resource when the slot holds one, and leaves the `old` pointer
of every slot alone. -/
theorem cleanup_sub_resource_calls (m : Machine) (i : Nat) :
    (∃ new, (cleanup_sub_resource m i).calls = m.calls ++ new
      ∧ ((sub_resource_old m.texture i).isSome = true →
          Call.texture_sub_resource_cleanup i ∈ new))
    ∧ ∀ j, sub_resource_old (cleanup_sub_resource m i).texture j = sub_resource_old m.texture j := by
  unfold cleanup_sub_resource texture_sub_resource_cleanup
  dsimp only [Machine.call]
  constructor
  · by_cases hsome : (sub_resource_old m.texture i).isSome = true
    · rw [if_pos hsome]
      repeat' split
      all_goals simp only [List.append_assoc]
      all_goals exact ⟨_, rfl, fun _ => by simp⟩
    · rw [if_neg hsome]
      repeat' split
      all_goals first
        | exact ⟨_, rfl, fun h => absurd h hsome⟩
        | exact ⟨[], (List.append_nil _).symm, fun h => absurd h hsome⟩
  · intro j
    repeat' split
    all_goals first
      | rfl
      | exact sub_resource_old_modify_dib m.texture i j (fun d => { d with bitmap_data := 0 })

theorem cleanup_loop_calls (n : Nat) (m : Machine) :
    (∃ new, ((List.range n).foldl cleanup_sub_resource m).calls = m.calls ++ new
      ∧ ∀ i, i < n → (sub_resource_old m.texture i).isSome = true →
          Call.texture_sub_resource_cleanup i ∈ new)
    ∧ ∀ j, sub_resource_old ((List.range n).foldl cleanup_sub_resource m).texture j
        = sub_resource_old m.texture j := by
  induction n with
  | zero => exact ⟨⟨[], (List.append_nil _).symm, fun i hi => absurd hi (Nat.not_lt_zero i)⟩,
      fun _ => rfl⟩
  | succ n ih =>
    rw [List.range_succ, List.foldl_append]
    simp only [List.foldl_cons, List.foldl_nil]
    obtain ⟨⟨new1, hc1, hin1⟩, hold1⟩ := ih
    obtain ⟨⟨new2, hc2, hin2⟩, hold2⟩ :=
      cleanup_sub_resource_calls ((List.range n).foldl cleanup_sub_resource m) n
    refine ⟨⟨new1 ++ new2, ?_, ?_⟩, fun j => (hold2 j).trans (hold1 j)⟩
    · rw [hc2, hc1, List.append_assoc]
    · intro i hi hs
      by_cases hlt : i < n
      · exact List.mem_append_left _ (hin1 i hlt hs)
      · have hi2 : i = n := by omega
        subst hi2
        exact List.mem_append_right _ (hin2 (by rw [hold1]; exact hs))

theorem unload_gl_texture_calls (m : Machine) :
    ∃ new, (wined3d_texture_unload_gl_texture m).calls = m.calls ++ new := by
  unfold wined3d_texture_unload_gl_texture gltexture_delete
  dsimp only [Machine.call]
  repeat' split
  all_goals try simp only [List.append_assoc]
  all_goals exact ⟨_, rfl⟩

/-- The calls of `wined3d_texture_cleanup` follow the log so far; among them is
the cleanup hook of every sub-resource stored below
`level_count * layer_count`. -/
theorem cleanup_calls (m : Machine) :
    ∃ new, (wined3d_texture_cleanup m).calls = m.calls ++ new
      ∧ ∀ i, i < sub_count m.texture → (sub_resource_old m.texture i).isSome = true →
          Call.texture_sub_resource_cleanup i ∈ new := by
  unfold wined3d_texture_cleanup
  dsimp only [Machine.call]
  obtain ⟨⟨new1, hc1, hin1⟩, _⟩ := cleanup_loop_calls (sub_count m.texture) m
  obtain ⟨new2, hc2⟩ := unload_gl_texture_calls
    ((List.range (sub_count m.texture)).foldl cleanup_sub_resource m)
  refine ⟨new1 ++ new2 ++ [Call.resource_cleanup], ?_, fun i hi hs => ?_⟩
  · rw [hc2, hc1]
    simp only [List.append_assoc]
  · exact List.mem_append_left _ (List.mem_append_left _ (hin1 i hi hs))

/-- C23: reference counting.  Without a swapchain,
`wined3d_texture_incref` returns the count plus one (a 32-bit count) and stores
it, with no call and no other change; `wined3d_texture_decref` returns the
count minus one; when that is not zero it only stores the count, and when it is
zero it runs `wined3d_texture_cleanup`, whose calls include the cleanup hook of
every stored sub-resource, then tells the parent and releases the texture with
`HeapFree` as the last call.  With a swapchain both functions leave the
texture, its count included, as it is, make the one call
`wined3d_swapchain_incref` or `wined3d_swapchain_decref`, and return its
result. -/
theorem texture_refcount (ext : wined3d_externals) (m : Machine) :
    (m.texture.swapchain = none →
      (wined3d_texture_incref ext m).1 = (m.texture.resource.ref + 1) % 2 ^ 32
      ∧ (m.texture.resource.ref + 1 < 2 ^ 32 →
          (wined3d_texture_incref ext m).1 = m.texture.resource.ref + 1)
      ∧ (wined3d_texture_incref ext m).2
          = { m with texture := { m.texture with
                resource := { m.texture.resource with
                  ref := (wined3d_texture_incref ext m).1 } } }
      ∧ (wined3d_texture_decref ext m).1 = (m.texture.resource.ref + 2 ^ 32 - 1) % 2 ^ 32
      ∧ (0 < m.texture.resource.ref → m.texture.resource.ref < 2 ^ 32 →
          (wined3d_texture_decref ext m).1 = m.texture.resource.ref - 1)
      ∧ ((wined3d_texture_decref ext m).1 ≠ 0 →
          (wined3d_texture_decref ext m).2
            = { m with texture := { m.texture with
                  resource := { m.texture.resource with
                    ref := (wined3d_texture_decref ext m).1 } } })
      ∧ ((wined3d_texture_decref ext m).1 = 0 →
          (wined3d_texture_decref ext m).2.texture
            = (wined3d_texture_cleanup
                { m with texture := { m.texture with
                    resource := { m.texture.resource with ref := 0 } } }).texture
          ∧ ∃ teardown, (wined3d_texture_decref ext m).2.calls
              = m.calls ++ teardown ++ [Call.wined3d_object_destroyed, Call.HeapFree]
            ∧ ∀ i, i < sub_count m.texture → (sub_resource_old m.texture i).isSome = true →
                Call.texture_sub_resource_cleanup i ∈ teardown))
    ∧ (∀ swapchain, m.texture.swapchain = some swapchain →
        wined3d_texture_incref ext m
          = (ext.wined3d_swapchain_incref swapchain m.calls,
             { texture := m.texture
               calls := m.calls ++ [Call.wined3d_swapchain_incref swapchain] })
        ∧ wined3d_texture_decref ext m
          = (ext.wined3d_swapchain_decref swapchain m.calls,
             { texture := m.texture
               calls := m.calls ++ [Call.wined3d_swapchain_decref swapchain] })) := by
  constructor
  · intro hsc
    have hdec : (wined3d_texture_decref ext m).1
        = (m.texture.resource.ref + 2 ^ 32 - 1) % 2 ^ 32 := by
      unfold wined3d_texture_decref
      rw [hsc]
      dsimp only
      split <;> rfl
    refine ⟨?_, ?_, ?_, hdec, ?_, ?_, ?_⟩
    · unfold wined3d_texture_incref
      rw [hsc]
    · intro hlt
      unfold wined3d_texture_incref
      rw [hsc]
      exact Nat.mod_eq_of_lt hlt
    · unfold wined3d_texture_incref
      rw [hsc]
    · intro hpos hlt
      rw [hdec, show m.texture.resource.ref + 2 ^ 32 - 1
          = (m.texture.resource.ref - 1) + 2 ^ 32 by omega, Nat.add_mod_right]
      exact Nat.mod_eq_of_lt (by omega)
    · intro hne
      rw [hdec] at hne
      unfold wined3d_texture_decref
      rw [hsc]
      dsimp only
      rw [if_neg hne]
    · intro hz
      rw [hdec] at hz
      obtain ⟨new, hc, hin⟩ := cleanup_calls
        { m with texture := { m.texture with
            resource := { m.texture.resource with ref := 0 } } }
      unfold wined3d_texture_decref
      rw [hsc]
      dsimp only [Machine.call]
      rw [if_pos hz, hz]
      refine ⟨rfl, new, ?_, hin⟩
      rw [hc]
      simp only [List.append_assoc, List.singleton_append]
  · intro swapchain hsc
    unfold wined3d_texture_incref wined3d_texture_decref
    rw [hsc]
    exact ⟨rfl, rfl⟩

/-- C23 at the last reference of a two-level 4x4 texture: the count goes to 0. -/
theorem texture_refcount_witness :
    (wined3d_texture_decref (spec_externals 7 (sample_context true 0 0))
        { texture := sample_texture 2 0 WINED3D_LOCATION_SYSMEM, calls := [] }).1 = 0 :=
  ((texture_refcount (spec_externals 7 (sample_context true 0 0))
    { texture := sample_texture 2 0 WINED3D_LOCATION_SYSMEM, calls := [] }).1 rfl).2.2.2.2.1
    (by decide) (by decide)

/-! ## Redescribing a texture: the pitch test -/

/-- Every rejection of `wined3d_texture_update_desc` leaves the texture and the
call log as they were, and a pitch that is not a multiple of the byte count of
the format the texture has before the call is rejected. -/
theorem update_desc_pitch_rejected (ext : wined3d_externals) (device : wined3d_device)
    (m : Machine) (width height format_id multisample_type multisample_quality mem pitch : Nat)
    (hbytes : m.texture.resource.format.byte_count ≠ 0)
    (hpitch : pitch % m.texture.resource.format.byte_count ≠ 0) :
    wined3d_texture_update_desc ext device m width height format_id multisample_type
        multisample_quality mem pitch
      = some (HRESULT.WINED3DERR_INVALIDCALL, m) := by
  unfold wined3d_texture_update_desc
  dsimp only
  rw [if_neg hbytes, if_pos hpitch]
  repeat' (first | rfl | split)

/-- C22, at a 4x4 texture of a format with two bytes per pixel that is
redescribed as a 1x4 texture of a format with four bytes per pixel
(`format_id` 87) in user memory with a pitch of 6: the pitch is a multiple of
the byte count 2 of the format the texture had, the call returns `WINED3D_OK`,
and the stored row pitch 6 is not a multiple of the byte count 4 of the format
the texture has now; the slice pitch is `height * pitch` = 24. -/
theorem update_desc_pitch_old_format :
    (wined3d_texture_update_desc (spec_externals 7 (sample_context true 0 0)) sample_device
        { texture := sample_texture_16bpp, calls := [] } 1 4 87 0 0 1000 6).map
      (fun r => (r.1, [r.2.texture.resource.format.byte_count, r.2.texture.row_pitch,
        r.2.texture.row_pitch % r.2.texture.resource.format.byte_count,
        r.2.texture.slice_pitch, r.2.texture.user_memory, r.2.texture.resource.width,
        r.2.texture.resource.height]))
      = some (HRESULT.WINED3D_OK, [4, 6, 2, 24, 1000, 1, 4]) := by
  decide

/-! ## Idempotence of load -/

/-- The two loads of the texture above, hook by hook: the first runs the
dirty-region hook and the load hook of the volume, the second adds no call; the
volume stays current in system memory and in the linear GL texture. -/
theorem load_twice_calls :
    (wined3d_texture_load (spec_externals 7 (sample_context true 0 0))
        (sample_context true 0 0) 0
        { texture := sample_volume_texture_color_key, calls := [] }).texture.sub_resources.map
          (fun sr => sr.locations)
      = [WINED3D_LOCATION_SYSMEM ||| WINED3D_LOCATION_TEXTURE_RGB]
    ∧ texture_ops_calls (wined3d_texture_load (spec_externals 7 (sample_context true 0 0))
        (sample_context true 0 0) 0
        { texture := sample_volume_texture_color_key, calls := [] }).calls
      = [Call.texture_sub_resource_add_dirty_region 0, Call.texture_sub_resource_load 0 0]
    ∧ texture_ops_calls (wined3d_texture_load (spec_externals 7 (sample_context true 0 0))
        (sample_context true 0 0) 0
        (wined3d_texture_load (spec_externals 7 (sample_context true 0 0))
          (sample_context true 0 0) 0
          { texture := sample_volume_texture_color_key, calls := [] })).calls
      = [Call.texture_sub_resource_add_dirty_region 0, Call.texture_sub_resource_load 0 0] := by
  decide

/-! ## A bitmap that cannot be created -/

/-- `FAILED (HRESULT_FROM_WIN32 x)` holds exactly when the 32-bit error code is
not 0. -/
theorem failed_from_win32 (x : Nat) :
    FAILED (HRESULT_FROM_WIN32 x) = decide (x % 2 ^ 32 ≠ 0) := by
  unfold HRESULT_FROM_WIN32
  have hy : x % 2 ^ 32 < 2 ^ 32 := Nat.mod_lt _ (by decide)
  generalize x % 2 ^ 32 = y at hy ⊢
  by_cases h0 : y = 0
  · rw [if_pos h0, decide_eq_false (not_not.mpr h0)]
    rfl
  · rw [if_neg h0, decide_eq_true h0]
    by_cases h1 : 2 ^ 31 ≤ y
    · rw [if_pos h1]
      show decide (2 ^ 31 ≤ y % 2 ^ 32) = true
      rw [Nat.mod_eq_of_lt hy]
      exact decide_eq_true h1
    · rw [if_neg h1]
      have hlt : (y &&& 0xFFFF) ||| 0x80070000 < 2 ^ 32 :=
        Nat.or_lt_two_pow (Nat.lt_of_le_of_lt Nat.and_le_right (by decide)) (by decide)
      have hge : 2 ^ 31 ≤ (y &&& 0xFFFF) ||| 0x80070000 :=
        Nat.testBit_implies_ge (by
          rw [Nat.testBit_or]
          exact Bool.or_eq_true_iff.mpr (Or.inr (by decide)))
      show decide (2 ^ 31 ≤ ((y &&& 0xFFFF) ||| 0x80070000) % 2 ^ 32) = true
      rw [Nat.mod_eq_of_lt hlt]
      exact decide_eq_true hge

/-- When `CreateDIBSection` gives no bitmap and `GetLastError` reports 0,
`HRESULT_FROM_WIN32(0)` is `S_OK`: `wined3d_texture_get_dc` goes on and
succeeds with a `NULL` DC, the bitmap as map binding, `in_use` set and the map
count 1, and a second call is rejected; with the error code 8 the first call
returns `WINED3DERR_INVALIDCALL`. -/
theorem get_dc_without_bitmap :
    (wined3d_texture_get_dc (failing_dib_externals 0) sample_device
        { texture := sample_dc_texture 0 WINED3D_RTYPE_SURFACE WINED3D_LOCATION_SYSMEM 0 zero_dib
          calls := [] } 0).hr = HRESULT.WINED3D_OK
    ∧ (wined3d_texture_get_dc (failing_dib_externals 0) sample_device
        { texture := sample_dc_texture 0 WINED3D_RTYPE_SURFACE WINED3D_LOCATION_SYSMEM 0 zero_dib
          calls := [] } 0).dc = some 0
    ∧ ((wined3d_texture_get_dc (failing_dib_externals 0) sample_device
        { texture := sample_dc_texture 0 WINED3D_RTYPE_SURFACE WINED3D_LOCATION_SYSMEM 0 zero_dib
          calls := [] } 0).m.texture.sub_resources.map
          (fun sr => (sr.locations, sr.dib.in_use,
            sr.old.map (fun s => [s.resource.map_binding, s.resource.map_count]))))
        = [(WINED3D_LOCATION_DIB, TRUE, some [WINED3D_LOCATION_DIB, 1])]
    ∧ (wined3d_texture_get_dc (failing_dib_externals 0) sample_device
        (wined3d_texture_get_dc (failing_dib_externals 0) sample_device
          { texture := sample_dc_texture 0 WINED3D_RTYPE_SURFACE WINED3D_LOCATION_SYSMEM 0 zero_dib
            calls := [] } 0).m 0).hr = HRESULT.WINEDDERR_DCALREADYCREATED
    ∧ (wined3d_texture_get_dc (failing_dib_externals 8) sample_device
        { texture := sample_dc_texture 0 WINED3D_RTYPE_SURFACE WINED3D_LOCATION_SYSMEM 0 zero_dib
          calls := [] } 0).hr = HRESULT.WINED3DERR_INVALIDCALL := by
  decide

/-! ## The location invariant: facts -/

theorem texture_located_of_slots (t t2 : wined3d_texture)
    (h : ∀ (i : Nat) (sr2 : wined3d_sub_resource), t2.sub_resources[i]? = some sr2 →
      ∃ sr, t.sub_resources[i]? = some sr ∧ (slot_located i sr → slot_located i sr2))
    (ht : texture_located t) : texture_located t2 := by
  intro i sr2 hsr2
  obtain ⟨sr, hsr, hk⟩ := h i sr2 hsr2
  exact hk (ht i sr hsr)

/-- A write to slot `i` that keeps the slot in order keeps the location
invariant. -/
theorem texture_located_modify (t t2 : wined3d_texture)
    (f : wined3d_sub_resource → wined3d_sub_resource) (i : Nat)
    (h2 : t2.sub_resources = List.modify f i t.sub_resources)
    (hf : ∀ sr, t.sub_resources[i]? = some sr → slot_located i sr → slot_located i (f sr))
    (ht : texture_located t) : texture_located t2 := by
  intro j sr2 hsr2
  rw [h2, List.getElem?_modify] at hsr2
  cases hsr : t.sub_resources[j]? with
  | none => rw [hsr] at hsr2; exact absurd hsr2 (by simp)
  | some sr =>
    rw [hsr] at hsr2
    simp only [Option.map_eq_map, Option.map_some', Option.some.injEq] at hsr2
    by_cases hij : i = j
    · subst hij
      rw [if_pos rfl] at hsr2
      rw [← hsr2]
      exact hf sr hsr (ht i sr hsr)
    · rw [if_neg hij] at hsr2
      rw [← hsr2]
      exact ht j sr hsr

theorem or_ne_zero_of_left (a b : Nat) (h : a ≠ 0) : a ||| b ≠ 0 := by
  rw [ne_zero_iff_exists_testBit] at h ⊢
  obtain ⟨k, hk⟩ := h
  exact ⟨k, by rw [Nat.testBit_or, hk]; rfl⟩

theorem texture_located_validate (t : wined3d_texture) (i l : Nat)
    (ht : texture_located t) :
    texture_located (wined3d_texture_validate_location t i l) :=
  texture_located_modify t _ _ i rfl
    (fun _ _ h => ⟨or_ne_zero_of_left _ _ h.1, h.2⟩) ht

theorem prepare_color_key_reload_sub_resources (t : wined3d_texture) :
    (prepare_color_key_reload t).sub_resources
      = (wined3d_texture_force_reload t).sub_resources := by
  unfold prepare_color_key_reload
  dsimp only
  split <;> rfl

/-- When a colour-key toggle is pending on a device that does not key in
shaders, `wined3d_texture_prepare_texture` forces a reload: it leaves the
location sets `wined3d_texture_force_reload` leaves. -/
theorem prepare_texture_pending_sub_resources (ext : wined3d_externals)
    (context : wined3d_context) (srgb : Nat) (m : Machine)
    (hp : reload_pending context m.texture = true) :
    (wined3d_texture_prepare_texture ext context srgb m).texture.sub_resources
      = (wined3d_texture_force_reload m.texture).sub_resources := by
  unfold wined3d_texture_prepare_texture
  unfold reload_pending at hp
  simp only [hp, if_true]
  split_ifs
  · exact prepare_color_key_reload_sub_resources m.texture
  · rw [texture_prepare_texture_sub_resources]
    exact prepare_color_key_reload_sub_resources m.texture

end Wined3d
